import Mathlib

/-!
# picowalker-core: the battle / capture encounter engine

A shallow embedding of `src/apps/app_battle.c`.  The C state (`pw_state_t *s`, the pending
state `*p`, the file-scope `substate_queue[8]`, the random source and the EEPROM) is collected
in one record `Machine`; every C function that mutates it becomes a pure function
`Machine → Machine`.  The two byte-swap helpers of `src/utils.h` are embedded at the end of the
definitions.

Conventions
* 8-bit registers are natural numbers; every store that can leave the range is reduced
  `% 256` explicitly (`u8`).
* `pw_rand()` is a stream `rand : Nat → Nat`; the machine counts the calls made so far in
  `rand_calls`, the `k`-th call returns `rand k`.
* A read outside a C array is modelled as yielding `0`; statements that depend on the value
  read carry the hypothesis that keeps the index inside the array.
* Drawing calls (`pw_screen_*`) have no effect on the state modelled here and are left out.
-/

namespace Picowalker

/-! ## Constants of `app_battle.c` -/

def OUR_HP_OFFSET : Nat := 0
def THEIR_HP_OFFSET : Nat := 4
def OUR_HP_MASK : Nat := 0xf <<< OUR_HP_OFFSET
def THEIR_HP_MASK : Nat := 0xf <<< THEIR_HP_OFFSET
def OUR_ACTION_OFFSET : Nat := 1
def OUR_ACTION_MASK : Nat := 0x3 <<< OUR_ACTION_OFFSET
def THEIR_ACTION_OFFSET : Nat := 3
def THEIR_ACTION_MASK : Nat := 0x3 <<< THEIR_ACTION_OFFSET
def CHOICE_INDEX_OFFSET : Nat := 5
def CHOICE_INDEX_MASK : Nat := 0x7 <<< CHOICE_INDEX_OFFSET

def CURRENT_WOBBLE_MASK : Nat := 0x0f
def MAX_WOBBLE_OFFSET : Nat := 4

def ATTACK_ANIM_LENGTH : Nat := 9
def STAREDOWN_ANIM_LENGTH : Nat := 5
def THREW_BALL_ANIM_LENGTH : Nat := 6
def CLOUD_ANIM_LENGTH : Nat := 2
def WOBBLE_ANIM_LENGTH : Nat := 5
def MESSAGE_DISPLAY_ANIM_LENGTH : Nat := 4
def CATCH_ANIM_LENGTH : Nat := 4

def ACTION_ATTACK : Nat := 0
def ACTION_EVADE : Nat := 1
def ACTION_SPECIAL : Nat := 2

/-- The damage table `HP_MATRIX[cur][foe]` (declared in the source, never read by it). -/
def HP_MATRIX : List (List Nat) :=
  [ [1, 1, 2],
    [0, 0, 0],
    [1, 1, 2] ]

def WOBBLE_CHANCES : List Nat := [97, 79, 66, 56]

/-- The table `ACTION_CHANCES[5][3]`, columns attack, evade, crit/flee. -/
def ACTION_CHANCES : List (List Nat) :=
  [ [45, 35, 20],
    [40, 30, 30],
    [50, 40, 10],
    [60, 30, 10],
    [20, 30, 50] ]

/-! ## Substate identifiers

The header `app_battle.h` that declares them is not available. -/

/-- Modelled from the spec: the `BATTLE_*` enumeration of the missing `app_battle.h`, numbered in
the order in which section 4.1 lists the substates.  Only their distinctness is used. -/
def BATTLE_OPENING : Nat := 0
/-- Modelled from the spec: substate `Appeared` of the missing `app_battle.h`. -/
def BATTLE_APPEARED : Nat := 1
/-- Modelled from the spec: substate `Choosing` of the missing `app_battle.h`. -/
def BATTLE_CHOOSING : Nat := 2
/-- Modelled from the spec: substate `OurAction` of the missing `app_battle.h`. -/
def BATTLE_OUR_ACTION : Nat := 3
/-- Modelled from the spec: substate `TheirAction` of the missing `app_battle.h`. -/
def BATTLE_THEIR_ACTION : Nat := 4
/-- Modelled from the spec: substate `Staredown` of the missing `app_battle.h`. -/
def BATTLE_STAREDOWN : Nat := 5
/-- Modelled from the spec: substate `TheyFled` of the missing `app_battle.h`. -/
def BATTLE_THEY_FLED : Nat := 6
/-- Modelled from the spec: substate `WeLost` of the missing `app_battle.h`. -/
def BATTLE_WE_LOST : Nat := 7
/-- Modelled from the spec: substate `CatchSetup` of the missing `app_battle.h`. -/
def BATTLE_CATCH_SETUP : Nat := 8
/-- Modelled from the spec: substate `ThrewBall` of the missing `app_battle.h`. -/
def BATTLE_THREW_BALL : Nat := 9
/-- Modelled from the spec: substate `CloudAnim` of the missing `app_battle.h`. -/
def BATTLE_CLOUD_ANIM : Nat := 10
/-- Modelled from the spec: substate `BallWobble` of the missing `app_battle.h`. -/
def BATTLE_BALL_WOBBLE : Nat := 11
/-- Modelled from the spec: substate `AlmostHadIt` of the missing `app_battle.h`. -/
def BATTLE_ALMOST_HAD_IT : Nat := 12
/-- Modelled from the spec: substate `CatchStars` of the missing `app_battle.h`. -/
def BATTLE_CATCH_STARS : Nat := 13
/-- Modelled from the spec: substate `PokemonCaught` of the missing `app_battle.h`. -/
def BATTLE_POKEMON_CAUGHT : Nat := 14
/-- Modelled from the spec: substate `ProcessCaughtPokemon` of the missing `app_battle.h`. -/
def BATTLE_PROCESS_CAUGHT_POKEMON : Nat := 15
/-- Modelled from the spec: substate `Switch` of the missing `app_battle.h`. -/
def BATTLE_SWITCH : Nat := 16
/-- Modelled from the spec: substate `GoToSplash` of the missing `app_battle.h`. -/
def BATTLE_GO_TO_SPLASH : Nat := 17

/-- Modelled from the spec: the state identifier of the enclosing application's splash screen
(`states.h` is missing); assigning it to the pending state signals exit from the battle. -/
def STATE_SPLASH : Nat := 1

/-- Modelled from the spec: the three buttons of the missing `buttons.h` (Left, Middle, Right);
only their distinctness is used. -/
def BUTTON_L : Nat := 1
/-- Modelled from the spec: the Middle button of the missing `buttons.h`. -/
def BUTTON_M : Nat := 2
/-- Modelled from the spec: the Right button of the missing `buttons.h`. -/
def BUTTON_R : Nat := 4

/-! ## State -/

/-- The battle registers `s->battle` (`reg_a` .. `reg_y` of the file comment), all 8 bit wide. -/
structure app_battle_t where
  current_substate : Nat
  previous_substate : Nat
  actions : Nat
  anim_frame : Nat
  current_hp : Nat
  chosen_pokemon : Nat
  substate_queue_index : Nat
  substate_queue_len : Nat
  switch_cursor : Nat
  prev_switch_cursor : Nat
deriving DecidableEq, Repr

/-- Modelled from the spec: a creature record (`pokemon_summary_t` of the missing headers): its
species marker `le_species` and the remaining bytes of the record. -/
structure pokemon_summary_t where
  le_species : Nat
  rest : List Nat
deriving DecidableEq, Repr

/-- Modelled from the spec: the records of the persistent store that the battle reads and writes,
one field for each symbolic address `PW_EEPROM_ADDR_*` used by `app_battle.c` (the address map
`eeprom_map.h` is missing).  `caught_pokemon_summary` is the 3-slot roster stored at
`PW_EEPROM_ADDR_CAUGHT_POKEMON_SUMMARY`, `route_pokemon` the array `route_pokemon` of the record
at `PW_EEPROM_ADDR_ROUTE_INFO`; `writes` counts the calls of `pw_eeprom_write`. -/
structure eeprom_t where
  event_pokemon_basic_data : pokemon_summary_t
  special_pokemon_basic_data : pokemon_summary_t
  event_pokemon_extra_data : List Nat
  special_pokemon_extra_data : List Nat
  img_event_pokemon_small_animated : List Nat
  img_special_pokemon_small_animated : List Nat
  text_event_pokemon_name : List Nat
  text_special_pokemon_name : List Nat
  caught_pokemon_summary : List pokemon_summary_t
  route_pokemon : List pokemon_summary_t
  writes : Nat
deriving DecidableEq, Repr

/-- Everything the battle code reads or writes: the registers `s->battle`, the redraw bit of
`s->requests`, the pending state id `p->sid`, the file-scope array `substate_queue[8]`, the number
of `pw_rand()` calls made so far, and the persistent store. -/
structure Machine where
  battle : app_battle_t
  redraw : Bool
  pending_sid : Nat
  substate_queue : List Nat
  rand_calls : Nat
  eeprom : eeprom_t
deriving DecidableEq, Repr

/-! ## Register fields -/

/-- Truncation of a value to an 8-bit register. -/
def u8 (n : Nat) : Nat := n % 256

/-- The C expression `x - k` stored in a `uint8_t` (for `x < 256`, `k ≤ 256`). -/
def sub_u8 (x k : Nat) : Nat := (x + 256 - k) % 256

/-- The C expression `a & ~mask` on an 8-bit register. -/
def clear_bits (a mask : Nat) : Nat := a &&& (0xff ^^^ mask)

/-- Field `(actions & OUR_ACTION_MASK) >> OUR_ACTION_OFFSET`. -/
def get_our_action (actions : Nat) : Nat := (actions &&& OUR_ACTION_MASK) >>> OUR_ACTION_OFFSET

/-- Field `(actions & THEIR_ACTION_MASK) >> THEIR_ACTION_OFFSET`. -/
def get_their_action (actions : Nat) : Nat :=
  (actions &&& THEIR_ACTION_MASK) >>> THEIR_ACTION_OFFSET

/-- Field `(actions & CHOICE_INDEX_MASK) >> CHOICE_INDEX_OFFSET`. -/
def get_choice_index (actions : Nat) : Nat :=
  (actions &&& CHOICE_INDEX_MASK) >>> CHOICE_INDEX_OFFSET

/-- Field `(current_hp & OUR_HP_MASK) >> OUR_HP_OFFSET`. -/
def get_our_hp (current_hp : Nat) : Nat := (current_hp &&& OUR_HP_MASK) >>> OUR_HP_OFFSET

/-- Field `(current_hp & THEIR_HP_MASK) >> THEIR_HP_OFFSET`. -/
def get_their_hp (current_hp : Nat) : Nat := (current_hp &&& THEIR_HP_MASK) >>> THEIR_HP_OFFSET

/-- Entry `ACTION_CHANCES[i][j]`. -/
def action_chance (i j : Nat) : Nat := (ACTION_CHANCES.getD i []).getD j 0

/-- Entry `WOBBLE_CHANCES[i]` for a signed index. -/
def wobble_chance_at (i : Int) : Nat := if 0 ≤ i then WOBBLE_CHANCES.getD i.toNat 0 else 0

/-- Entry `substate_queue[idx - 1]` for an 8-bit `idx` (the C index is `idx - 1` as an `int`). -/
def queue_read (q : List Nat) (idx : Nat) : Nat := if 1 ≤ idx then q.getD (idx - 1) 0 else 0

/-! ## `pw_battle_switch_substate` and `pw_battle_init` -/

/-- Record the last substate, switch to `sid` and request a redraw. -/
def pw_battle_switch_substate (m : Machine) (sid : Nat) : Machine :=
  { m with
    battle := { m.battle with
      previous_substate := m.battle.current_substate
      current_substate := sid }
    redraw := true }

/-- Initialise the battle registers; `chosen_pokemon` and the queue registers are not touched. -/
def pw_battle_init (m : Machine) : Machine :=
  { m with
    battle := { m.battle with
      current_substate := BATTLE_OPENING
      previous_substate := BATTLE_OPENING
      actions := 0
      anim_frame := 4
      current_hp := (4 <<< OUR_HP_OFFSET) ||| (4 <<< THEIR_HP_OFFSET)
      switch_cursor := 0
      prev_switch_cursor := 0 } }

/-- The sequence `substate_queue_index++; anim_frame = 0; switch to substate_queue[index-1]`
that ends most substates. -/
def advance (m : Machine) : Machine :=
  let idx := u8 (m.battle.substate_queue_index + 1)
  let m1 := { m with battle := { m.battle with substate_queue_index := idx, anim_frame := 0 } }
  pw_battle_switch_substate m1 (queue_read m1.substate_queue idx)

/-! ## `pw_battle_event_loop`, one function for each `case` of its `switch` -/

/-- The classification `decide their action` of the `BATTLE_CHOOSING` case: `rnd` is the draw
`pw_rand()%100`, the thresholds are column 2 and then column 2 + column 1 of the row. -/
def decide_their_action (choice_index rnd : Nat) : Nat :=
  if rnd < action_chance choice_index 2 then ACTION_SPECIAL
  else if rnd < action_chance choice_index 2 + action_chance choice_index 1 then ACTION_EVADE
  else ACTION_ATTACK

/-- The "big matrix on what happens based on both actions" of the `BATTLE_CHOOSING` case: the
`if(our_action == ACTION_EVADE) { switch(their_action) ... } else { ... switch(their_action) ... }`
statement, as a function from the locals `our_hp`, `their_hp`, the array `substate_queue` and the
register `actions` to their values after it. -/
def round_matrix (our_action their_action our_hp their_hp : Nat) (q : List Nat) (actions : Nat) :
    Nat × Nat × List Nat × Nat :=
  if our_action = ACTION_EVADE then
    if their_action = ACTION_ATTACK then
      (our_hp, sub_u8 their_hp 1,
        ((q.set 0 BATTLE_THEIR_ACTION).set 1 BATTLE_OUR_ACTION).set 2 BATTLE_CHOOSING, actions)
    else if their_action = ACTION_EVADE then
      (our_hp, their_hp, (q.set 0 BATTLE_STAREDOWN).set 1 BATTLE_CHOOSING, actions)
    else if their_action = ACTION_SPECIAL then
      (our_hp, their_hp, q.set 0 BATTLE_THEY_FLED, actions)
    else (our_hp, their_hp, q, actions)
  else
    let q1 := ((q.set 0 BATTLE_OUR_ACTION).set 1 BATTLE_THEIR_ACTION).set 2 BATTLE_CHOOSING
    if their_action = ACTION_ATTACK then
      (sub_u8 our_hp 1, sub_u8 their_hp 1, q1,
        clear_bits actions CHOICE_INDEX_MASK ||| (1 <<< CHOICE_INDEX_OFFSET))
    else if their_action = ACTION_EVADE then
      (sub_u8 our_hp 1, their_hp, q1,
        clear_bits actions CHOICE_INDEX_MASK ||| (3 <<< CHOICE_INDEX_OFFSET))
    else if their_action = ACTION_SPECIAL then
      (sub_u8 our_hp 1, sub_u8 their_hp 2, q1,
        clear_bits actions CHOICE_INDEX_MASK ||| (2 <<< CHOICE_INDEX_OFFSET))
    else (our_hp, their_hp, q1, actions)

/-- The body of `if(substate_queue_index == 1)` in the `BATTLE_CHOOSING` case: decide their
action, apply the damage, plan the queue, switch to `substate_queue[substate_queue_index-1]`. -/
def resolve_round (rand : Nat → Nat) (m : Machine) : Machine :=
  let our_action := get_our_action m.battle.actions
  let choice_index := get_choice_index m.battle.actions
  let rnd := u8 (rand m.rand_calls % 100)
  let their_action := decide_their_action choice_index rnd
  let actions1 := clear_bits m.battle.actions THEIR_ACTION_MASK |||
    ((their_action <<< THEIR_ACTION_OFFSET) &&& THEIR_ACTION_MASK)
  let our_hp := get_our_hp m.battle.current_hp
  let their_hp := get_their_hp m.battle.current_hp
  let r := round_matrix our_action their_action our_hp their_hp m.substate_queue actions1
  let m1 : Machine :=
    { m with
      rand_calls := m.rand_calls + 1
      substate_queue := r.2.2.1
      battle := { m.battle with
        actions := r.2.2.2
        current_hp := u8 ((r.1 <<< OUR_HP_OFFSET) ||| (r.2.1 <<< THEIR_HP_OFFSET)) } }
  let m2 :=
    pw_battle_switch_substate m1 (queue_read m1.substate_queue m1.battle.substate_queue_index)
  { m2 with battle := { m2.battle with anim_frame := 0 } }

/-- Case `BATTLE_CHOOSING`. -/
def battle_choosing (rand : Nat → Nat) (m : Machine) : Machine :=
  let m0 : Machine :=
    if m.battle.current_substate ≠ m.battle.previous_substate then
      { m with battle := { m.battle with substate_queue_index := 0 } }
    else m
  if m0.battle.substate_queue_index = 1 then resolve_round rand m0 else m0

/-- Case `BATTLE_THEIR_ACTION`. -/
def battle_their_action (m : Machine) : Machine :=
  if m.battle.anim_frame = ATTACK_ANIM_LENGTH then
    let our_hp := get_our_hp m.battle.current_hp
    if our_hp = 0 ∨ our_hp > 4 then
      pw_battle_switch_substate { m with battle := { m.battle with anim_frame := 0 } } BATTLE_WE_LOST
    else advance m
  else m

/-- Case `BATTLE_OUR_ACTION`. -/
def battle_our_action (m : Machine) : Machine :=
  if m.battle.anim_frame = ATTACK_ANIM_LENGTH then
    let their_hp := get_their_hp m.battle.current_hp
    if their_hp = 0 ∨ their_hp > 4 then
      pw_battle_switch_substate { m with battle := { m.battle with anim_frame := 0 } } BATTLE_THEY_FLED
    else advance m
  else m

/-- The loop `while(n_wobbles < 3 && caught)` of the `BATTLE_CATCH_SETUP` case, on the triple
(`n_wobbles`, `caught`, number of `pw_rand()` calls so far).  The first argument bounds the number
of iterations; the loop body increments `n_wobbles`, so 3 iterations always suffice. -/
def wobble_loop (rand : Nat → Nat) (wobble_chance : Nat) : Nat → Nat × Bool × Nat → Nat × Bool × Nat
  | 0, st => st
  | fuel + 1, (n_wobbles, caught, calls) =>
    if n_wobbles < 3 ∧ caught = true then
      let pct := u8 (rand calls % 100)
      wobble_loop rand wobble_chance fuel
        (u8 (n_wobbles + 1), (if pct ≥ wobble_chance then false else caught), calls + 1)
    else (n_wobbles, caught, calls)

/-- Case `BATTLE_CATCH_SETUP`. -/
def battle_catch_setup (rand : Nat → Nat) (m : Machine) : Machine :=
  let q := (m.substate_queue.set 0 BATTLE_THREW_BALL).set 1 BATTLE_CLOUD_ANIM
  let health : Int := (get_their_hp m.battle.current_hp : Nat)
  let wobble_chance := wobble_chance_at (health - 1)
  if health ≤ 0 then
    { m with
      substate_queue := q.set 0 BATTLE_THEY_FLED
      battle := { m.battle with substate_queue_len := 1 } }
  else
    let r := wobble_loop rand wobble_chance 3 (0, true, m.rand_calls)
    let n_wobbles := r.1
    let caught := r.2.1
    let actions := u8 (n_wobbles <<< MAX_WOBBLE_OFFSET)
    let m1 : Machine :=
      if caught = true then
        { m with
          rand_calls := r.2.2
          substate_queue :=
            (((q.set 2 BATTLE_BALL_WOBBLE).set 3 BATTLE_CLOUD_ANIM).set 4 BATTLE_ALMOST_HAD_IT).set 5
              BATTLE_THEY_FLED
          battle := { m.battle with actions := actions, substate_queue_len := 6 } }
      else
        { m with
          rand_calls := r.2.2
          substate_queue :=
            ((q.set 2 BATTLE_BALL_WOBBLE).set 3 BATTLE_CATCH_STARS).set 4 BATTLE_POKEMON_CAUGHT
          battle := { m.battle with actions := actions, substate_queue_len := 5 } }
    let m2 : Machine :=
      { m1 with battle := { m1.battle with substate_queue_index := 1, anim_frame := 0 } }
    pw_battle_switch_substate m2 (queue_read m2.substate_queue m2.battle.substate_queue_index)

/-- Case `BATTLE_BALL_WOBBLE`.  In C, `+` binds tighter than `&`, so the expression
`s->battle.actions & CURRENT_WOBBLE_MASK+1` is `actions & (CURRENT_WOBBLE_MASK+1)`. -/
def battle_ball_wobble (m : Machine) : Machine :=
  if m.battle.anim_frame ≥ WOBBLE_ANIM_LENGTH then
    let current_wobble := u8 (m.battle.actions &&& (CURRENT_WOBBLE_MASK + 1))
    let max_wobble := u8 (m.battle.actions >>> MAX_WOBBLE_OFFSET)
    if current_wobble < max_wobble then
      let current_wobble1 := u8 (current_wobble + 1)
      { m with battle := { m.battle with
          actions := clear_bits m.battle.actions CURRENT_WOBBLE_MASK ||| current_wobble1
          anim_frame := 0 } }
    else advance m
  else m

/-- A slot of the store is empty when its species marker is `0x0000` or `0xffff`. -/
def species_empty (p : pokemon_summary_t) : Bool := p.le_species = 0x0000 ∨ p.le_species = 0xffff

/-- The scan `for(i = 0; i < 3; i++) if(empty) break;` over the roster: the value of `i` after
the loop, starting from `i`. -/
def first_empty_slot (caught_pokes : List pokemon_summary_t) : Nat → Nat → Nat
  | 0, i => i
  | fuel + 1, i =>
    if i < 3 then
      if species_empty (caught_pokes.getD i ⟨0, []⟩) then i
      else first_empty_slot caught_pokes fuel (i + 1)
    else i

/-- Case `BATTLE_PROCESS_CAUGHT_POKEMON`. -/
def battle_process_caught_pokemon (m : Machine) : Machine :=
  if m.battle.chosen_pokemon ≥ 3 then
    let caught_poke := m.eeprom.event_pokemon_basic_data
    if species_empty caught_poke then
      let e := m.eeprom
      let e1 := { e with event_pokemon_basic_data := e.special_pokemon_basic_data,
                         writes := e.writes + 1 }
      let e2 := { e1 with event_pokemon_extra_data := e1.special_pokemon_extra_data,
                          writes := e1.writes + 1 }
      let e3 := { e2 with img_event_pokemon_small_animated := e2.img_special_pokemon_small_animated,
                          writes := e2.writes + 1 }
      let e4 := { e3 with text_event_pokemon_name := e3.text_special_pokemon_name,
                          writes := e3.writes + 1 }
      { m with eeprom := e4, pending_sid := STATE_SPLASH }
    else
      { m with pending_sid := STATE_SPLASH }
  else
    let caught_pokes := m.eeprom.caught_pokemon_summary
    let i := first_empty_slot caught_pokes 3 0
    if i = 3 then
      pw_battle_switch_substate
        { m with battle := { m.battle with prev_switch_cursor := 0xff } } BATTLE_SWITCH
    else
      let ri := m.eeprom.route_pokemon
      let caught_pokes1 := caught_pokes.set i (ri.getD m.battle.chosen_pokemon ⟨0, []⟩)
      { m with
        eeprom := { m.eeprom with caught_pokemon_summary := caught_pokes1,
                                  writes := m.eeprom.writes + 1 }
        pending_sid := STATE_SPLASH }

/-- Cases `BATTLE_STAREDOWN` (`==`) and the `>=` cases `BATTLE_THREW_BALL`, `BATTLE_CLOUD_ANIM`,
`BATTLE_ALMOST_HAD_IT`, `BATTLE_CATCH_STARS`: advance when the test on `anim_frame` holds. -/
def advance_if (c : Bool) (m : Machine) : Machine := if c then advance m else m

/-- Main event loop for the battle state: `switch(s->battle.current_substate)`. -/
def pw_battle_event_loop (rand : Nat → Nat) (m : Machine) : Machine :=
  let c := m.battle.current_substate
  if c = BATTLE_OPENING then
    if m.battle.anim_frame ≤ 0 then pw_battle_switch_substate m BATTLE_APPEARED else m
  else if c = BATTLE_APPEARED then m
  else if c = BATTLE_CHOOSING then battle_choosing rand m
  else if c = BATTLE_THEIR_ACTION then battle_their_action m
  else if c = BATTLE_OUR_ACTION then battle_our_action m
  else if c = BATTLE_STAREDOWN then
    advance_if (m.battle.anim_frame = STAREDOWN_ANIM_LENGTH) m
  else if c = BATTLE_THEY_FLED then
    if m.battle.anim_frame ≥ MESSAGE_DISPLAY_ANIM_LENGTH then { m with pending_sid := STATE_SPLASH }
    else m
  else if c = BATTLE_WE_LOST then
    if m.battle.anim_frame ≥ MESSAGE_DISPLAY_ANIM_LENGTH then { m with pending_sid := STATE_SPLASH }
    else m
  else if c = BATTLE_CATCH_SETUP then battle_catch_setup rand m
  else if c = BATTLE_THREW_BALL then
    advance_if (m.battle.anim_frame ≥ THREW_BALL_ANIM_LENGTH) m
  else if c = BATTLE_CLOUD_ANIM then
    advance_if (m.battle.anim_frame ≥ CLOUD_ANIM_LENGTH) m
  else if c = BATTLE_BALL_WOBBLE then battle_ball_wobble m
  else if c = BATTLE_ALMOST_HAD_IT then
    advance_if (m.battle.anim_frame ≥ MESSAGE_DISPLAY_ANIM_LENGTH) m
  else if c = BATTLE_POKEMON_CAUGHT then m
  else if c = BATTLE_PROCESS_CAUGHT_POKEMON then battle_process_caught_pokemon m
  else if c = BATTLE_CATCH_STARS then
    advance_if (m.battle.anim_frame ≥ CATCH_ANIM_LENGTH) m
  else if c = BATTLE_SWITCH then m
  else if c = BATTLE_GO_TO_SPLASH then { m with pending_sid := STATE_SPLASH }
  else m

/-! ## `pw_battle_update_display` and `pw_battle_handle_input` -/

/-- The display update, as far as it changes the registers: on a fresh substate it records it in
`previous_substate` (and `pw_battle_init_display` only draws); otherwise it steps `anim_frame` in
the animated substates and records the switch cursor in `BATTLE_SWITCH`. -/
def pw_battle_update_display (m : Machine) : Machine :=
  let c := m.battle.current_substate
  if c ≠ m.battle.previous_substate then
    { m with battle := { m.battle with previous_substate := c } }
  else if c = BATTLE_OPENING then
    if m.battle.anim_frame > 0 then
      { m with battle := { m.battle with anim_frame := m.battle.anim_frame - 1 } }
    else m
  else if c = BATTLE_OUR_ACTION ∨ c = BATTLE_THEIR_ACTION ∨ c = BATTLE_STAREDOWN ∨
      c = BATTLE_THREW_BALL ∨ c = BATTLE_CLOUD_ANIM ∨ c = BATTLE_BALL_WOBBLE ∨
      c = BATTLE_ALMOST_HAD_IT ∨ c = BATTLE_CATCH_STARS then
    { m with battle := { m.battle with anim_frame := u8 (m.battle.anim_frame + 1) } }
  else if c = BATTLE_SWITCH then
    if m.battle.switch_cursor ≠ m.battle.prev_switch_cursor then
      { m with battle := { m.battle with prev_switch_cursor := m.battle.switch_cursor } }
    else m
  else m

/-- The C expression `(switch_cursor-1)%3` stored back into the 8-bit cursor: the subtraction and
the remainder are computed on `int` (remainder truncating towards zero), the store wraps. -/
def cursor_left (switch_cursor : Nat) : Nat :=
  Int.toNat (Int.emod (Int.tmod ((switch_cursor : Int) - 1) 3) 256)

/-- Battle state input handler. -/
def pw_battle_handle_input (m : Machine) (b : Nat) : Machine :=
  let c := m.battle.current_substate
  if c = BATTLE_APPEARED then pw_battle_switch_substate m BATTLE_CHOOSING
  else if c = BATTLE_CHOOSING then
    if b = BUTTON_L then
      { m with battle := { m.battle with
          actions := clear_bits m.battle.actions OUR_ACTION_MASK |||
            (ACTION_ATTACK <<< OUR_ACTION_OFFSET)
          substate_queue_index := 1 } }
    else if b = BUTTON_R then
      { m with battle := { m.battle with
          actions := clear_bits m.battle.actions OUR_ACTION_MASK |||
            (ACTION_EVADE <<< OUR_ACTION_OFFSET)
          substate_queue_index := 1 } }
    else if b = BUTTON_M then pw_battle_switch_substate m BATTLE_CATCH_SETUP
    else m
  else if c = BATTLE_POKEMON_CAUGHT then pw_battle_switch_substate m BATTLE_PROCESS_CAUGHT_POKEMON
  else if c = BATTLE_THEY_FLED ∨ c = BATTLE_WE_LOST then
    { m with battle := { m.battle with current_substate := BATTLE_GO_TO_SPLASH } }
  else if c = BATTLE_SWITCH then
    if b = BUTTON_L then
      let m1 : Machine :=
        if m.battle.switch_cursor = 0 then
          { m with battle := { m.battle with current_substate := BATTLE_GO_TO_SPLASH } }
        else m
      { m1 with battle := { m1.battle with switch_cursor := cursor_left m1.battle.switch_cursor } }
    else if b = BUTTON_R then
      if m.battle.switch_cursor ≥ 2 then m
      else
        { m with battle := { m.battle with switch_cursor := (m.battle.switch_cursor + 1) % 3 } }
    else if b = BUTTON_M then
      let poke := m.eeprom.route_pokemon.getD m.battle.chosen_pokemon ⟨0, []⟩
      { m with
        eeprom := { m.eeprom with
          caught_pokemon_summary := m.eeprom.caught_pokemon_summary.set 0 poke
          writes := m.eeprom.writes + 1 }
        battle := { m.battle with current_substate := BATTLE_GO_TO_SPLASH } }
    else m
  else m

/-! ## Observations used in the statements -/

/-- The first `n` planned substates, `substate_queue[0 .. n-1]`. -/
def planned (m : Machine) (n : Nat) : List Nat := m.substate_queue.take n

/-- The registers are 8 bit wide and the queue array has its 8 entries. -/
def WellFormed (m : Machine) : Prop :=
  m.battle.actions < 256 ∧ m.battle.current_hp < 256 ∧ m.battle.anim_frame < 256 ∧
  m.battle.substate_queue_index < 256 ∧ m.substate_queue.length = 8

instance (m : Machine) : Decidable (WellFormed m) := by
  unfold WellFormed; infer_instance

/-- A machine with the given battle registers, an 8-entry queue of zeroes and an empty store. -/
def mkMachine (b : app_battle_t) : Machine :=
  { battle := b
    redraw := false
    pending_sid := 0
    substate_queue := [0, 0, 0, 0, 0, 0, 0, 0]
    rand_calls := 0
    eeprom :=
      { event_pokemon_basic_data := ⟨0, []⟩
        special_pokemon_basic_data := ⟨0, []⟩
        event_pokemon_extra_data := []
        special_pokemon_extra_data := []
        img_event_pokemon_small_animated := []
        img_special_pokemon_small_animated := []
        text_event_pokemon_name := []
        text_special_pokemon_name := []
        caught_pokemon_summary := [⟨0, []⟩, ⟨0, []⟩, ⟨0, []⟩]
        route_pokemon := [⟨0, []⟩, ⟨0, []⟩, ⟨0, []⟩]
        writes := 0 } }

/-- A machine in `BATTLE_CHOOSING` (entered earlier, so `previous_substate` agrees) whose queue
cursor was primed to 1 by the input handler, with the given action and HP registers. -/
def choosing_state (actions current_hp : Nat) : Machine :=
  mkMachine
    { current_substate := BATTLE_CHOOSING
      previous_substate := BATTLE_CHOOSING
      actions := actions
      anim_frame := 0
      current_hp := current_hp
      chosen_pokemon := 0
      substate_queue_index := 1
      substate_queue_len := 0
      switch_cursor := 0
      prev_switch_cursor := 0 }

/-- A machine in the middle of the attack plan [OurAction, TheirAction, Choosing]: substate `sub`
entered earlier, `anim_frame` at `ATTACK_ANIM_LENGTH`, queue cursor `idx`. -/
def action_state (sub current_hp idx : Nat) : Machine :=
  { mkMachine
      { current_substate := sub
        previous_substate := sub
        actions := 0
        anim_frame := ATTACK_ANIM_LENGTH
        current_hp := current_hp
        chosen_pokemon := 0
        substate_queue_index := idx
        substate_queue_len := 0
        switch_cursor := 0
        prev_switch_cursor := 0 } with
    substate_queue :=
      [BATTLE_OUR_ACTION, BATTLE_THEIR_ACTION, BATTLE_CHOOSING, 0, 0, 0, 0, 0] }

/-- A machine that has just entered `BATTLE_CATCH_SETUP` from `BATTLE_CHOOSING` (Middle button)
with the given HP register. -/
def catch_setup_state (current_hp : Nat) : Machine :=
  mkMachine
    { current_substate := BATTLE_CATCH_SETUP
      previous_substate := BATTLE_CHOOSING
      actions := 0
      anim_frame := 0
      current_hp := current_hp
      chosen_pokemon := 0
      substate_queue_index := 0
      substate_queue_len := 0
      switch_cursor := 0
      prev_switch_cursor := 0 }

/-- A random source whose first three outputs are `a`, `b`, `c`. -/
def draws3 (a b c : Nat) : Nat → Nat := fun k => if k = 0 then a else if k = 1 then b else c

/-- The plan of the machine, `substate_queue[0 .. substate_queue_len-1]`, ends in
`BATTLE_POKEMON_CAUGHT`. -/
def plan_ends_caught (m : Machine) : Bool :=
  (m.substate_queue.take m.battle.substate_queue_len).getLast? = some BATTLE_POKEMON_CAUGHT

/-- The number of triples of draws in [0,100) for which the capture attempt started in
`BATTLE_CATCH_SETUP` with the given HP register plans a queue ending in
`BATTLE_POKEMON_CAUGHT`. -/
def caught_triples (current_hp : Nat) : Nat :=
  ((Finset.range 100 ×ˢ Finset.range 100 ×ˢ Finset.range 100).filter fun t =>
    plan_ends_caught
      (pw_battle_event_loop (draws3 t.1 t.2.1 t.2.2) (catch_setup_state current_hp)) = true).card

/-- The events that drive the battle: a tick of the event loop, a display update, a button. -/
inductive Event where
  | tick : Event
  | display : Event
  | button : Nat → Event
deriving DecidableEq, Repr

/-- One event applied to the machine. -/
def step (rand : Nat → Nat) (m : Machine) : Event → Machine
  | Event.tick => pw_battle_event_loop rand m
  | Event.display => pw_battle_update_display m
  | Event.button b => pw_battle_handle_input m b

/-- A sequence of events applied to the machine, first event first. -/
def run (rand : Nat → Nat) (m : Machine) (evs : List Event) : Machine := evs.foldl (step rand) m

/-- The machine as it enters `BATTLE_BALL_WOBBLE` for the first time after `BATTLE_CATCH_SETUP`
recorded `max_wobble` wobbles in the action register and planned the capture queue
[ThrewBall, CloudAnim, BallWobble, CatchStars, PokemonCaught]: cursor 3, `anim_frame` 0. -/
def wobble_state (max_wobble : Nat) : Machine :=
  { mkMachine
      { current_substate := BATTLE_BALL_WOBBLE
        previous_substate := BATTLE_CLOUD_ANIM
        actions := max_wobble <<< MAX_WOBBLE_OFFSET
        anim_frame := 0
        current_hp := 0x44
        chosen_pokemon := 0
        substate_queue_index := 3
        substate_queue_len := 5
        switch_cursor := 0
        prev_switch_cursor := 0 } with
    substate_queue :=
      [BATTLE_THREW_BALL, BATTLE_CLOUD_ANIM, BATTLE_BALL_WOBBLE, BATTLE_CATCH_STARS,
        BATTLE_POKEMON_CAUGHT, 0, 0, 0]
    redraw := true }

/-- A machine in `BATTLE_PROCESS_CAUGHT_POKEMON` (entered from `BATTLE_POKEMON_CAUGHT`) for the
creature `chosen_pokemon`, with the given roster and route records in the store. -/
def process_state (chosen_pokemon : Nat) (roster route : List pokemon_summary_t) : Machine :=
  let m := mkMachine
    { current_substate := BATTLE_PROCESS_CAUGHT_POKEMON
      previous_substate := BATTLE_POKEMON_CAUGHT
      actions := 0x30
      anim_frame := 0
      current_hp := 0x44
      chosen_pokemon := chosen_pokemon
      substate_queue_index := 5
      substate_queue_len := 5
      switch_cursor := 0
      prev_switch_cursor := 0 }
  { m with eeprom := { m.eeprom with caught_pokemon_summary := roster, route_pokemon := route } }

/-- A machine in `BATTLE_SWITCH` with the given cursor, creature, roster and route records. -/
def switch_state (switch_cursor chosen_pokemon : Nat) (roster route : List pokemon_summary_t) :
    Machine :=
  let m := mkMachine
    { current_substate := BATTLE_SWITCH
      previous_substate := BATTLE_SWITCH
      actions := 0x30
      anim_frame := 0
      current_hp := 0x44
      chosen_pokemon := chosen_pokemon
      substate_queue_index := 5
      substate_queue_len := 5
      switch_cursor := switch_cursor
      prev_switch_cursor := switch_cursor }
  { m with eeprom := { m.eeprom with caught_pokemon_summary := roster, route_pokemon := route } }

/-- A machine in `BATTLE_PROCESS_CAUGHT_POKEMON` for the event creature (`chosen_pokemon = 3`)
with the given event slot and special-source records in the store. -/
def event_state (event_basic special_basic : pokemon_summary_t)
    (special_extra special_img special_name : List Nat) : Machine :=
  let m := process_state 3 [⟨7, []⟩, ⟨25, [5]⟩, ⟨300, []⟩] [⟨10, [1]⟩, ⟨11, [2]⟩, ⟨12, [3]⟩]
  { m with eeprom := { m.eeprom with
      event_pokemon_basic_data := event_basic
      special_pokemon_basic_data := special_basic
      special_pokemon_extra_data := special_extra
      img_special_pokemon_small_animated := special_img
      text_special_pokemon_name := special_name } }

/-- Entry `HP_MATRIX[cur][foe]`. -/
def hp_matrix (cur foe : Nat) : Nat := (HP_MATRIX.getD cur []).getD foe 0

/-- The redraw contract between a machine `m` and the machine `n` after one call: if the
substate differs, the redraw request is set and `previous_substate` holds the substate of `m`. -/
def RedrawContract (m n : Machine) : Prop :=
  n.battle.current_substate ≠ m.battle.current_substate →
    n.redraw = true ∧ n.battle.previous_substate = m.battle.current_substate

/-! ## Reachable states -/

/-- A machine whose registers, queue and store are all zero. -/
def zero_machine : Machine := mkMachine ⟨0, 0, 0, 0, 0, 0, 0, 0, 0, 0⟩

/-- A schedule of `n` frames of the main loop, each one tick followed by one display update. -/
def frames : Nat → List Event
  | 0 => []
  | n + 1 => Event.tick :: Event.display :: frames n

/-- The value of `substate_queue_index` in the read `substate_queue[substate_queue_index-1]`
that the tick on `m` makes, if it makes one (no tick makes more than one): the reads are those
of `BATTLE_CHOOSING` (inside `if(substate_queue_index == 1)`), of `BATTLE_CATCH_SETUP` (after
`substate_queue_index = 1`) and of the substates that end with `substate_queue_index++`. -/
def tick_read (m : Machine) : Option Nat :=
  let c := m.battle.current_substate
  let next := u8 (m.battle.substate_queue_index + 1)
  if c = BATTLE_CHOOSING then
    if c ≠ m.battle.previous_substate then none
    else if m.battle.substate_queue_index = 1 then some m.battle.substate_queue_index
    else none
  else if c = BATTLE_THEIR_ACTION then
    if m.battle.anim_frame = ATTACK_ANIM_LENGTH then
      if get_our_hp m.battle.current_hp = 0 ∨ get_our_hp m.battle.current_hp > 4 then none
      else some next
    else none
  else if c = BATTLE_OUR_ACTION then
    if m.battle.anim_frame = ATTACK_ANIM_LENGTH then
      if get_their_hp m.battle.current_hp = 0 ∨ get_their_hp m.battle.current_hp > 4 then none
      else some next
    else none
  else if c = BATTLE_STAREDOWN then
    if m.battle.anim_frame = STAREDOWN_ANIM_LENGTH then some next else none
  else if c = BATTLE_CATCH_SETUP then
    if ((get_their_hp m.battle.current_hp : Nat) : Int) ≤ 0 then none else some 1
  else if c = BATTLE_THREW_BALL then
    if m.battle.anim_frame ≥ THREW_BALL_ANIM_LENGTH then some next else none
  else if c = BATTLE_CLOUD_ANIM then
    if m.battle.anim_frame ≥ CLOUD_ANIM_LENGTH then some next else none
  else if c = BATTLE_BALL_WOBBLE then
    if m.battle.anim_frame ≥ WOBBLE_ANIM_LENGTH then
      if u8 (m.battle.actions &&& (CURRENT_WOBBLE_MASK + 1)) <
          u8 (m.battle.actions >>> MAX_WOBBLE_OFFSET) then none
      else some next
    else none
  else if c = BATTLE_ALMOST_HAD_IT then
    if m.battle.anim_frame ≥ MESSAGE_DISPLAY_ANIM_LENGTH then some next else none
  else if c = BATTLE_CATCH_STARS then
    if m.battle.anim_frame ≥ CATCH_ANIM_LENGTH then some next else none
  else none

/-- The number `n` of leading entries `substate_queue[0 .. n-1]` that the tick on `m` assigns, if
the tick is a planning step: a round resolution in `BATTLE_CHOOSING` (3 entries, 2 for a
staredown, 1 when they flee) or `BATTLE_CATCH_SETUP` (6 or 5 entries; entries 0 and 1 only when
the health is not positive). -/
def tick_plan (rand : Nat → Nat) (m : Machine) : Option Nat :=
  let c := m.battle.current_substate
  if c = BATTLE_CHOOSING then
    if c ≠ m.battle.previous_substate then none
    else if m.battle.substate_queue_index = 1 then
      let their_action :=
        decide_their_action (get_choice_index m.battle.actions) (u8 (rand m.rand_calls % 100))
      if get_our_action m.battle.actions = ACTION_EVADE then
        if their_action = ACTION_ATTACK then some 3
        else if their_action = ACTION_EVADE then some 2
        else if their_action = ACTION_SPECIAL then some 1
        else some 0
      else some 3
    else none
  else if c = BATTLE_CATCH_SETUP then
    if ((get_their_hp m.battle.current_hp : Nat) : Int) ≤ 0 then some 2
    else if (wobble_loop rand
        (wobble_chance_at (((get_their_hp m.battle.current_hp : Nat) : Int) - 1)) 3
        (0, true, m.rand_calls)).2.1 = true then some 6
    else some 5
  else none

/-- One event applied to the machine paired with the number of leading queue entries that the
most recent planning step has written (a ghost counter, 0 before the first planning step). -/
def gstep (rand : Nat → Nat) (s : Machine × Nat) : Event → Machine × Nat
  | Event.tick => (pw_battle_event_loop rand s.1, (tick_plan rand s.1).getD s.2)
  | Event.display => (pw_battle_update_display s.1, s.2)
  | Event.button b => (pw_battle_handle_input s.1 b, s.2)

/-- A sequence of events applied to the machine and the ghost counter, first event first. -/
def grun (rand : Nat → Nat) (s : Machine × Nat) (evs : List Event) : Machine × Nat :=
  evs.foldl (gstep rand) s

/-- Our action is Attack or Evade and the choice index is one of the values 0..3 that the code
stores. -/
def ActionsOk (a : Nat) : Prop := get_our_action a ≤ 1 ∧ get_choice_index a ≤ 3

/-- Both HP fields of the register are in 1..4. -/
def Healthy (hp : Nat) : Prop :=
  (1 ≤ get_our_hp hp ∧ get_our_hp hp ≤ 4) ∧ (1 ≤ get_their_hp hp ∧ get_their_hp hp ≤ 4)

/-- The decision substates and the two substates before the first decision. -/
def Early (c : Nat) : Prop :=
  c = BATTLE_OPENING ∨ c = BATTLE_APPEARED ∨ c = BATTLE_CHOOSING ∨ c = BATTLE_CATCH_SETUP

/-- The substates from which no planned queue is followed any more. -/
def Terminal (c : Nat) : Prop :=
  c = BATTLE_THEY_FLED ∨ c = BATTLE_WE_LOST ∨ c = BATTLE_POKEMON_CAUGHT ∨
  c = BATTLE_PROCESS_CAUGHT_POKEMON ∨ c = BATTLE_SWITCH ∨ c = BATTLE_GO_TO_SPLASH

/-- Entries 3.. of a capture plan of which `g` entries are written: the failed-capture tail
[CloudAnim, AlmostHadIt, TheyFled] or the capture tail [CatchStars, PokemonCaught]. -/
def CatchTail (q : List Nat) (g : Nat) : Prop :=
  (q.getD 3 0 = BATTLE_CLOUD_ANIM ∧ q.getD 4 0 = BATTLE_ALMOST_HAD_IT ∧
    q.getD 5 0 = BATTLE_THEY_FLED ∧ 6 ≤ g) ∨
  (q.getD 3 0 = BATTLE_CATCH_STARS ∧ q.getD 4 0 = BATTLE_POKEMON_CAUGHT ∧ 5 ≤ g)

/-- The invariant of the reachable states, on the substate `c`, the queue cursor `i`, the queue
`q`, the action register `a`, the HP register `h` and the ghost counter `g`: in an early
substate the fields of the registers are in range; while a plan is followed the cursor is known, the entries
still to come are those of the plan and lie among the `g` written ones, and the HP field that
the earlier substates of the plan have checked is in 1..4. -/
def Inv6 (c i : Nat) (q : List Nat) (a h g : Nat) : Prop :=
  (q.length = 8 ∧ a < 256 ∧ h < 256) ∧
  ((Early c ∧ ActionsOk a ∧ Healthy h) ∨
   Terminal c ∨
   (c = BATTLE_STAREDOWN ∧ i = 1 ∧ q.getD 1 0 = BATTLE_CHOOSING ∧ ActionsOk a ∧ Healthy h ∧
     2 ≤ g) ∨
   (c = BATTLE_OUR_ACTION ∧ i = 1 ∧ q.getD 1 0 = BATTLE_THEIR_ACTION ∧
     q.getD 2 0 = BATTLE_CHOOSING ∧ ActionsOk a ∧ 3 ≤ g) ∨
   (c = BATTLE_THEIR_ACTION ∧ i = 2 ∧ q.getD 2 0 = BATTLE_CHOOSING ∧ ActionsOk a ∧
     (1 ≤ get_their_hp h ∧ get_their_hp h ≤ 4) ∧ 3 ≤ g) ∨
   (c = BATTLE_THEIR_ACTION ∧ i = 1 ∧ q.getD 1 0 = BATTLE_OUR_ACTION ∧
     q.getD 2 0 = BATTLE_CHOOSING ∧ ActionsOk a ∧ 3 ≤ g) ∨
   (c = BATTLE_OUR_ACTION ∧ i = 2 ∧ q.getD 2 0 = BATTLE_CHOOSING ∧ ActionsOk a ∧
     (1 ≤ get_our_hp h ∧ get_our_hp h ≤ 4) ∧ 3 ≤ g) ∨
   (c = BATTLE_THREW_BALL ∧ i = 1 ∧ q.getD 1 0 = BATTLE_CLOUD_ANIM ∧
     q.getD 2 0 = BATTLE_BALL_WOBBLE ∧ CatchTail q g) ∨
   (c = BATTLE_CLOUD_ANIM ∧ i = 2 ∧ q.getD 2 0 = BATTLE_BALL_WOBBLE ∧ CatchTail q g) ∨
   (c = BATTLE_BALL_WOBBLE ∧ i = 3 ∧ CatchTail q g) ∨
   (c = BATTLE_CLOUD_ANIM ∧ i = 4 ∧ q.getD 4 0 = BATTLE_ALMOST_HAD_IT ∧
     q.getD 5 0 = BATTLE_THEY_FLED ∧ 6 ≤ g) ∨
   (c = BATTLE_ALMOST_HAD_IT ∧ i = 5 ∧ q.getD 5 0 = BATTLE_THEY_FLED ∧ 6 ≤ g) ∨
   (c = BATTLE_CATCH_STARS ∧ i = 4 ∧ q.getD 4 0 = BATTLE_POKEMON_CAUGHT ∧ 5 ≤ g))

/-- The invariant `Inv6` on a machine and the ghost counter. -/
def SeqInv (s : Machine × Nat) : Prop :=
  Inv6 s.1.battle.current_substate s.1.battle.substate_queue_index s.1.substate_queue
    s.1.battle.actions s.1.battle.current_hp s.2

/-- The events that take a freshly initialised battle to `BATTLE_CHOOSING` with the display up
to date: five frames (the opening animation, the tick into `BATTLE_APPEARED`), a button press
(into `BATTLE_CHOOSING`) and one more frame. -/
def opening_events : List Event :=
  frames 5 ++ [Event.button BUTTON_M] ++ frames 1

/-- The opening events followed by the Left button: Choosing with the queue cursor primed. -/
def primed_events : List Event := opening_events ++ [Event.button BUTTON_L]

/-- The primed events followed by 10 frames: the resolving tick and the wait in the first
planned substate, up to the tick that leaves it. -/
def first_action_events : List Event := primed_events ++ frames 10

/-- The primed events followed by the 21 frames of one full round [OurAction, TheirAction,
Choosing]. -/
def round_events : List Event := primed_events ++ frames 21

/-- The registers of `s` that drive the sequencer have the given values: substate `c`, previous
substate `p`, `anim_frame` `f`, HP register `h`, queue cursor `i`, queue `q`. -/
def View (s : Machine) (c p f h i : Nat) (q : List Nat) : Prop :=
  s.battle.current_substate = c ∧ s.battle.previous_substate = p ∧ s.battle.anim_frame = f ∧
  s.battle.current_hp = h ∧ s.battle.substate_queue_index = i ∧ s.substate_queue = q

/-- The opponent is knocked out and the player's attack animation still runs, or the battle has
already moved on to TheyFled or GoToSplash. -/
def KnockedOut (s : Machine) : Prop :=
  (s.battle.current_substate = BATTLE_OUR_ACTION ∧ get_their_hp s.battle.current_hp = 0) ∨
  s.battle.current_substate = BATTLE_THEY_FLED ∨
  s.battle.current_substate = BATTLE_GO_TO_SPLASH

/-! ## Draw counts, and the byte-swap helpers of `utils.h` -/

/-- The number of draws `r` in 0..99 that `decide_their_action` classifies as `action` with the
row `choice_index` of `ACTION_CHANCES`. -/
def action_draws (choice_index action : Nat) : Nat :=
  ((List.range 100).filter fun r => decide_their_action choice_index r = action).length

/-- The function `swap_bytes_u16` of `utils.h` on a 16-bit `x`: the expression
`(x>>8) | ((x&0xff)<<8)`, stored in a `uint16_t`. -/
def swap_bytes_u16 (x : Nat) : Nat := ((x >>> 8) ||| ((x &&& 0xff) <<< 8)) % 2 ^ 16

/-- The function `swap_bytes_u32` of `utils.h` on a 32-bit `x`: the expression
`(x>>24) | ((x&0x00ff0000)>>8) | ((x&0x0000ff00)<<8) | ((x&0xff)<<24)`, stored in a
`uint32_t`. -/
def swap_bytes_u32 (x : Nat) : Nat :=
  ((x >>> 24) ||| ((x &&& 0x00ff0000) >>> 8) ||| ((x &&& 0x0000ff00) <<< 8) |||
    ((x &&& 0xff) <<< 24)) % 2 ^ 32

/-- Byte `i` of `x`; byte 0 is the low byte. -/
def byte_of (x i : Nat) : Nat := (x >>> (8 * i)) &&& 0xff

/-- The substate is one of the two message screens TheyFled and WeLost. -/
def MessageScreen (c : Nat) : Prop := c = BATTLE_THEY_FLED ∨ c = BATTLE_WE_LOST

/-! # Theorems -/



/-! ## Register-field lemmas (checked over the whole 8-bit range) -/

theorem decide_their_action_cases (ci r : Nat) :
    decide_their_action ci r = ACTION_ATTACK ∨ decide_their_action ci r = ACTION_EVADE ∨
      decide_their_action ci r = ACTION_SPECIAL := by
  unfold decide_their_action
  split_ifs <;> simp

theorem their_action_store : ∀ a < 256, ∀ t < 3,
    get_their_action (clear_bits a THEIR_ACTION_MASK |||
      ((t <<< THEIR_ACTION_OFFSET) &&& THEIR_ACTION_MASK)) = t ∧
    get_our_action (clear_bits a THEIR_ACTION_MASK |||
      ((t <<< THEIR_ACTION_OFFSET) &&& THEIR_ACTION_MASK)) = get_our_action a ∧
    get_choice_index (clear_bits a THEIR_ACTION_MASK |||
      ((t <<< THEIR_ACTION_OFFSET) &&& THEIR_ACTION_MASK)) = get_choice_index a ∧
    (clear_bits a THEIR_ACTION_MASK |||
      ((t <<< THEIR_ACTION_OFFSET) &&& THEIR_ACTION_MASK)) < 256 := by
  decide!

theorem choice_index_store : ∀ a < 256, ∀ k < 8,
    get_choice_index (clear_bits a CHOICE_INDEX_MASK ||| (k <<< CHOICE_INDEX_OFFSET)) = k ∧
    get_their_action (clear_bits a CHOICE_INDEX_MASK ||| (k <<< CHOICE_INDEX_OFFSET)) =
      get_their_action a ∧
    get_our_action (clear_bits a CHOICE_INDEX_MASK ||| (k <<< CHOICE_INDEX_OFFSET)) =
      get_our_action a := by
  decide!

theorem hp_store : ∀ hp < 256, ∀ i < 3, ∀ j < 3, i ≤ get_our_hp hp →
    get_our_hp (u8 ((sub_u8 (get_our_hp hp) i <<< OUR_HP_OFFSET) |||
      (sub_u8 (get_their_hp hp) j <<< THEIR_HP_OFFSET))) = get_our_hp hp - i ∧
    get_their_hp (u8 ((sub_u8 (get_our_hp hp) i <<< OUR_HP_OFFSET) |||
      (sub_u8 (get_their_hp hp) j <<< THEIR_HP_OFFSET))) = (get_their_hp hp + 16 - j) % 16 := by
  decide!

theorem hp_store_their : ∀ hp < 256, ∀ j < 3,
    get_our_hp (u8 ((get_our_hp hp <<< OUR_HP_OFFSET) |||
      (sub_u8 (get_their_hp hp) j <<< THEIR_HP_OFFSET))) = get_our_hp hp ∧
    get_their_hp (u8 ((get_our_hp hp <<< OUR_HP_OFFSET) |||
      (sub_u8 (get_their_hp hp) j <<< THEIR_HP_OFFSET))) = (get_their_hp hp + 16 - j) % 16 := by
  decide!

theorem hp_store_our : ∀ hp < 256, ∀ i < 3, i ≤ get_our_hp hp →
    get_our_hp (u8 ((sub_u8 (get_our_hp hp) i <<< OUR_HP_OFFSET) |||
      (get_their_hp hp <<< THEIR_HP_OFFSET))) = get_our_hp hp - i ∧
    get_their_hp (u8 ((sub_u8 (get_our_hp hp) i <<< OUR_HP_OFFSET) |||
      (get_their_hp hp <<< THEIR_HP_OFFSET))) = get_their_hp hp := by
  decide!

theorem hp_repack : ∀ hp < 256,
    u8 ((get_our_hp hp <<< OUR_HP_OFFSET) ||| (get_their_hp hp <<< THEIR_HP_OFFSET)) = hp := by
  decide!

theorem queue_set3 (q : List Nat) (h : q.length = 8) (a b c : Nat) :
    (((q.set 0 a).set 1 b).set 2 c).take 3 = [a, b, c] ∧
    queue_read (((q.set 0 a).set 1 b).set 2 c) 1 = a := by
  match q, h with
  | [_, _, _, _, _, _, _, _], _ => simp [queue_read]

theorem queue_set2 (q : List Nat) (h : q.length = 8) (a b : Nat) :
    ((q.set 0 a).set 1 b).take 2 = [a, b] ∧ queue_read ((q.set 0 a).set 1 b) 1 = a := by
  match q, h with
  | [_, _, _, _, _, _, _, _], _ => simp [queue_read]

theorem queue_set1 (q : List Nat) (h : q.length = 8) (a : Nat) :
    (q.set 0 a).take 1 = [a] ∧ queue_read (q.set 0 a) 1 = a := by
  match q, h with
  | [_, _, _, _, _, _, _, _], _ => simp [queue_read]

/-! ## The resolving tick -/

theorem event_loop_choosing (rand : Nat → Nat) (m : Machine)
    (hsub : m.battle.current_substate = BATTLE_CHOOSING)
    (hprev : m.battle.previous_substate = BATTLE_CHOOSING)
    (hidx : m.battle.substate_queue_index = 1) :
    pw_battle_event_loop rand m = resolve_round rand m := by
  simp [pw_battle_event_loop, battle_choosing, hsub, hprev, hidx, BATTLE_CHOOSING, BATTLE_OPENING,
    BATTLE_APPEARED]

theorem draw_u8 (rand : Nat → Nat) (k : Nat) : u8 (rand k % 100) = rand k % 100 := by
  unfold u8; omega

theorem resolve_their_action (rand : Nat → Nat) (m : Machine) (ha : m.battle.actions < 256) :
    get_their_action (resolve_round rand m).battle.actions =
      decide_their_action (get_choice_index m.battle.actions) (rand m.rand_calls % 100) := by
  have hcases :=
    decide_their_action_cases (get_choice_index m.battle.actions) (rand m.rand_calls % 100)
  simp only [resolve_round, pw_battle_switch_substate, draw_u8]
  generalize decide_their_action (get_choice_index m.battle.actions) (rand m.rand_calls % 100) = t
    at hcases ⊢
  have ht : t < 3 := by
    rcases hcases with h | h | h <;> rw [h] <;> decide
  have hs := their_action_store _ ha t ht
  have hc := fun k hk => choice_index_store _ hs.2.2.2 k hk
  unfold round_matrix
  split_ifs <;> simp only [hs.1, (hc 1 (by omega)).2.1, (hc 2 (by omega)).2.1, (hc 3 (by omega)).2.1]

theorem round_matrix_attack_attack (o t : Nat) (q : List Nat) (a : Nat) :
    round_matrix ACTION_ATTACK ACTION_ATTACK o t q a =
      (sub_u8 o 1, sub_u8 t 1,
        ((q.set 0 BATTLE_OUR_ACTION).set 1 BATTLE_THEIR_ACTION).set 2 BATTLE_CHOOSING,
        clear_bits a CHOICE_INDEX_MASK ||| (1 <<< CHOICE_INDEX_OFFSET)) := rfl

theorem round_matrix_attack_evade (o t : Nat) (q : List Nat) (a : Nat) :
    round_matrix ACTION_ATTACK ACTION_EVADE o t q a =
      (sub_u8 o 1, t,
        ((q.set 0 BATTLE_OUR_ACTION).set 1 BATTLE_THEIR_ACTION).set 2 BATTLE_CHOOSING,
        clear_bits a CHOICE_INDEX_MASK ||| (3 <<< CHOICE_INDEX_OFFSET)) := rfl

theorem round_matrix_attack_special (o t : Nat) (q : List Nat) (a : Nat) :
    round_matrix ACTION_ATTACK ACTION_SPECIAL o t q a =
      (sub_u8 o 1, sub_u8 t 2,
        ((q.set 0 BATTLE_OUR_ACTION).set 1 BATTLE_THEIR_ACTION).set 2 BATTLE_CHOOSING,
        clear_bits a CHOICE_INDEX_MASK ||| (2 <<< CHOICE_INDEX_OFFSET)) := rfl

theorem round_matrix_evade_attack (o t : Nat) (q : List Nat) (a : Nat) :
    round_matrix ACTION_EVADE ACTION_ATTACK o t q a =
      (o, sub_u8 t 1,
        ((q.set 0 BATTLE_THEIR_ACTION).set 1 BATTLE_OUR_ACTION).set 2 BATTLE_CHOOSING, a) := rfl

theorem round_matrix_evade_evade (o t : Nat) (q : List Nat) (a : Nat) :
    round_matrix ACTION_EVADE ACTION_EVADE o t q a =
      (o, t, (q.set 0 BATTLE_STAREDOWN).set 1 BATTLE_CHOOSING, a) := rfl

theorem round_matrix_evade_special (o t : Nat) (q : List Nat) (a : Nat) :
    round_matrix ACTION_EVADE ACTION_SPECIAL o t q a = (o, t, q.set 0 BATTLE_THEY_FLED, a) := rfl

theorem action_ne : ACTION_ATTACK ≠ ACTION_EVADE ∧ ACTION_ATTACK ≠ ACTION_SPECIAL ∧
    ACTION_EVADE ≠ ACTION_SPECIAL ∧ ACTION_ATTACK < 3 ∧ ACTION_EVADE < 3 ∧ ACTION_SPECIAL < 3 := by
  decide

/-! ## C1: opponent action selection -/

/-- C1: in the resolving tick of `BATTLE_CHOOSING`, for the row `{pAttack, pEvade, pSpecial}` of
`ACTION_CHANCES` selected by the choice index (so the index is in 0..4) and the draw
`r = pw_rand() % 100`, the opponent action stored in the action register is Special if
`r < pSpecial`, otherwise Evade if `r < pSpecial + pEvade`, otherwise Attack. -/
theorem C1_opponent_action_selection (rand : Nat → Nat) (m : Machine)
    (pAttack pEvade pSpecial r : Nat)
    (hsub : m.battle.current_substate = BATTLE_CHOOSING)
    (hprev : m.battle.previous_substate = BATTLE_CHOOSING)
    (hidx : m.battle.substate_queue_index = 1)
    (ha : m.battle.actions < 256)
    (hrow : ACTION_CHANCES[get_choice_index m.battle.actions]? = some [pAttack, pEvade, pSpecial])
    (hr : rand m.rand_calls % 100 = r) :
    get_their_action (pw_battle_event_loop rand m).battle.actions =
      (if r < pSpecial then ACTION_SPECIAL
       else if r < pSpecial + pEvade then ACTION_EVADE
       else ACTION_ATTACK) := by
  rw [event_loop_choosing rand m hsub hprev hidx, resolve_their_action rand m ha, hr]
  simp [decide_their_action, action_chance, List.getD_eq_getElem?_getD, hrow]

/-- C1 at choice index 0 (row `{45, 35, 20}`): the draws 19, 20, 54, 55 give Special, Evade,
Evade, Attack. -/
theorem C1_opponent_action_selection_witness :
    get_their_action (pw_battle_event_loop (fun _ => 19) (choosing_state 0 0x44)).battle.actions
      = ACTION_SPECIAL ∧
    get_their_action (pw_battle_event_loop (fun _ => 20) (choosing_state 0 0x44)).battle.actions
      = ACTION_EVADE ∧
    get_their_action (pw_battle_event_loop (fun _ => 54) (choosing_state 0 0x44)).battle.actions
      = ACTION_EVADE ∧
    get_their_action (pw_battle_event_loop (fun _ => 55) (choosing_state 0 0x44)).battle.actions
      = ACTION_ATTACK :=
  ⟨C1_opponent_action_selection (fun _ => 19) (choosing_state 0 0x44) 45 35 20 19
      rfl rfl rfl (by decide) rfl rfl,
   C1_opponent_action_selection (fun _ => 20) (choosing_state 0 0x44) 45 35 20 20
      rfl rfl rfl (by decide) rfl rfl,
   C1_opponent_action_selection (fun _ => 54) (choosing_state 0 0x44) 45 35 20 54
      rfl rfl rfl (by decide) rfl rfl,
   C1_opponent_action_selection (fun _ => 55) (choosing_state 0 0x44) 45 35 20 55
      rfl rfl rfl (by decide) rfl rfl⟩

/-! ## C2, C3, C4: round resolution -/

/-- C2: a resolving tick with `ourAction = Attack` and both HP fields in 1..4 plans the queue
[OurAction, TheirAction, Choosing] whatever the opponent does; the opponent's action is one of
the three, and: opponent Attack, both HP fields drop by 1 and the choice index becomes 1;
opponent Evade, our HP drops by 1, their HP is unchanged and the choice index becomes 3;
opponent Special, our HP drops by 1, their HP drops by 2 in the 4-bit field (exactly by 2 when
it was at least 2, to 15 from 1) and the choice index becomes 2. -/
theorem C2_round_resolution_attack (rand : Nat → Nat) (m : Machine)
    (hsub : m.battle.current_substate = BATTLE_CHOOSING)
    (hprev : m.battle.previous_substate = BATTLE_CHOOSING)
    (hidx : m.battle.substate_queue_index = 1)
    (hwf : WellFormed m)
    (hour : get_our_action m.battle.actions = ACTION_ATTACK)
    (ho : 1 ≤ get_our_hp m.battle.current_hp ∧ get_our_hp m.battle.current_hp ≤ 4)
    (ht : 1 ≤ get_their_hp m.battle.current_hp ∧ get_their_hp m.battle.current_hp ≤ 4) :
    planned (pw_battle_event_loop rand m) 3 =
        [BATTLE_OUR_ACTION, BATTLE_THEIR_ACTION, BATTLE_CHOOSING] ∧
    (get_their_action (pw_battle_event_loop rand m).battle.actions = ACTION_ATTACK ∨
      get_their_action (pw_battle_event_loop rand m).battle.actions = ACTION_EVADE ∨
      get_their_action (pw_battle_event_loop rand m).battle.actions = ACTION_SPECIAL) ∧
    (get_their_action (pw_battle_event_loop rand m).battle.actions = ACTION_ATTACK →
      get_our_hp (pw_battle_event_loop rand m).battle.current_hp + 1 =
        get_our_hp m.battle.current_hp ∧
      get_their_hp (pw_battle_event_loop rand m).battle.current_hp + 1 =
        get_their_hp m.battle.current_hp ∧
      get_choice_index (pw_battle_event_loop rand m).battle.actions = 1) ∧
    (get_their_action (pw_battle_event_loop rand m).battle.actions = ACTION_EVADE →
      get_our_hp (pw_battle_event_loop rand m).battle.current_hp + 1 =
        get_our_hp m.battle.current_hp ∧
      get_their_hp (pw_battle_event_loop rand m).battle.current_hp =
        get_their_hp m.battle.current_hp ∧
      get_choice_index (pw_battle_event_loop rand m).battle.actions = 3) ∧
    (get_their_action (pw_battle_event_loop rand m).battle.actions = ACTION_SPECIAL →
      get_our_hp (pw_battle_event_loop rand m).battle.current_hp + 1 =
        get_our_hp m.battle.current_hp ∧
      get_their_hp (pw_battle_event_loop rand m).battle.current_hp =
        (get_their_hp m.battle.current_hp + 16 - 2) % 16 ∧
      (2 ≤ get_their_hp m.battle.current_hp →
        get_their_hp (pw_battle_event_loop rand m).battle.current_hp + 2 =
          get_their_hp m.battle.current_hp) ∧
      get_choice_index (pw_battle_event_loop rand m).battle.actions = 2) := by
  obtain ⟨ha, hhp, -, -, hq⟩ := hwf
  have hta := resolve_their_action rand m ha
  have hcases :=
    decide_their_action_cases (get_choice_index m.battle.actions) (rand m.rand_calls % 100)
  rw [event_loop_choosing rand m hsub hprev hidx, hta]
  simp only [resolve_round, pw_battle_switch_substate, planned, draw_u8, hour]
  generalize decide_their_action (get_choice_index m.battle.actions) (rand m.rand_calls % 100) = t
    at hcases ⊢
  have hne := action_ne
  have hqs := queue_set3 m.substate_queue hq
  have hh := fun i hi j hj => hp_store _ hhp i hi j hj
  have hho := fun i hi => hp_store_our _ hhp i hi
  rcases hcases with h | h | h <;> subst h
  · have hs := their_action_store _ ha _ hne.2.2.2.1
    have hc := choice_index_store _ hs.2.2.2 1 (by omega)
    have h1 := hh 1 (by omega) 1 (by omega) (by omega)
    simp only [round_matrix_attack_attack, hqs, hc.1, h1.1, h1.2]
    refine ⟨trivial, Or.inl trivial, fun _ => ⟨?_, ?_, trivial⟩, fun h => absurd h hne.1,
      fun h => absurd h hne.2.1⟩
    · omega
    · omega
  · have hs := their_action_store _ ha _ hne.2.2.2.2.1
    have hc := choice_index_store _ hs.2.2.2 3 (by omega)
    have h1 := hho 1 (by omega) (by omega)
    simp only [round_matrix_attack_evade, hqs, hc.1, h1.1, h1.2]
    refine ⟨trivial, Or.inr (Or.inl trivial), fun h => absurd h.symm hne.1,
      fun _ => ⟨?_, trivial, trivial⟩, fun h => absurd h hne.2.2.1⟩
    omega
  · have hs := their_action_store _ ha _ hne.2.2.2.2.2
    have hc := choice_index_store _ hs.2.2.2 2 (by omega)
    have h1 := hh 1 (by omega) 2 (by omega) (by omega)
    simp only [round_matrix_attack_special, hqs, hc.1, h1.1, h1.2]
    refine ⟨trivial, Or.inr (Or.inr trivial), fun h => absurd h.symm hne.2.1,
      fun h => absurd h.symm hne.2.2.1, fun _ => ⟨?_, trivial, ?_, trivial⟩⟩
    · omega
    · omega

/-- C2 at `ourHP = theirHP = 4`, choice index 0, with the draws 55 (opponent Attack), 20
(opponent Evade) and 19 (opponent Special). -/
theorem C2_round_resolution_attack_witness :
    (planned (pw_battle_event_loop (fun _ => 55) (choosing_state 0 0x44)) 3 =
        [BATTLE_OUR_ACTION, BATTLE_THEIR_ACTION, BATTLE_CHOOSING] ∧
      get_their_action (pw_battle_event_loop (fun _ => 55) (choosing_state 0 0x44)).battle.actions
        = ACTION_ATTACK ∧
      (pw_battle_event_loop (fun _ => 55) (choosing_state 0 0x44)).battle.current_hp = 0x33) ∧
    (get_their_action (pw_battle_event_loop (fun _ => 19) (choosing_state 0 0x44)).battle.actions
        = ACTION_SPECIAL ∧
      get_our_hp (pw_battle_event_loop (fun _ => 19) (choosing_state 0 0x44)).battle.current_hp + 1
        = 4 ∧
      get_their_hp (pw_battle_event_loop (fun _ => 19) (choosing_state 0 0x44)).battle.current_hp
        = 2 ∧
      get_choice_index (pw_battle_event_loop (fun _ => 19) (choosing_state 0 0x44)).battle.actions
        = 2) :=
  ⟨⟨(C2_round_resolution_attack (fun _ => 55) (choosing_state 0 0x44) rfl rfl rfl (by decide)
      (by decide) (by decide) (by decide)).1, by decide, by decide⟩,
   by decide,
   ((C2_round_resolution_attack (fun _ => 19) (choosing_state 0 0x44) rfl rfl rfl (by decide)
      (by decide) (by decide) (by decide)).2.2.2.2 (by decide)).1,
   ((C2_round_resolution_attack (fun _ => 19) (choosing_state 0 0x44) rfl rfl rfl (by decide)
      (by decide) (by decide) (by decide)).2.2.2.2 (by decide)).2.1,
   ((C2_round_resolution_attack (fun _ => 19) (choosing_state 0 0x44) rfl rfl rfl (by decide)
      (by decide) (by decide) (by decide)).2.2.2.2 (by decide)).2.2.2⟩

/-- C3: a resolving tick with `ourAction = Evade` and their HP in 1..4 (our HP in 1..4 or any
other value): if the opponent
attacks, their HP drops by exactly 1, our HP is unchanged and the planned queue is
[TheirAction, OurAction, Choosing]; if the opponent evades, both HP fields are unchanged and the
planned queue is [Staredown, Choosing]; in both cases the choice index keeps its value. -/
theorem C3_round_resolution_evade (rand : Nat → Nat) (m : Machine)
    (hsub : m.battle.current_substate = BATTLE_CHOOSING)
    (hprev : m.battle.previous_substate = BATTLE_CHOOSING)
    (hidx : m.battle.substate_queue_index = 1)
    (hwf : WellFormed m)
    (hour : get_our_action m.battle.actions = ACTION_EVADE)
    (ht : 1 ≤ get_their_hp m.battle.current_hp ∧ get_their_hp m.battle.current_hp ≤ 4) :
    (get_their_action (pw_battle_event_loop rand m).battle.actions = ACTION_ATTACK →
      get_their_hp (pw_battle_event_loop rand m).battle.current_hp + 1 =
        get_their_hp m.battle.current_hp ∧
      get_our_hp (pw_battle_event_loop rand m).battle.current_hp =
        get_our_hp m.battle.current_hp ∧
      planned (pw_battle_event_loop rand m) 3 =
        [BATTLE_THEIR_ACTION, BATTLE_OUR_ACTION, BATTLE_CHOOSING] ∧
      get_choice_index (pw_battle_event_loop rand m).battle.actions =
        get_choice_index m.battle.actions) ∧
    (get_their_action (pw_battle_event_loop rand m).battle.actions = ACTION_EVADE →
      get_their_hp (pw_battle_event_loop rand m).battle.current_hp =
        get_their_hp m.battle.current_hp ∧
      get_our_hp (pw_battle_event_loop rand m).battle.current_hp =
        get_our_hp m.battle.current_hp ∧
      planned (pw_battle_event_loop rand m) 2 = [BATTLE_STAREDOWN, BATTLE_CHOOSING] ∧
      get_choice_index (pw_battle_event_loop rand m).battle.actions =
        get_choice_index m.battle.actions) := by
  obtain ⟨ha, hhp, -, -, hq⟩ := hwf
  have hta := resolve_their_action rand m ha
  have hcases :=
    decide_their_action_cases (get_choice_index m.battle.actions) (rand m.rand_calls % 100)
  rw [event_loop_choosing rand m hsub hprev hidx, hta]
  simp only [resolve_round, pw_battle_switch_substate, planned, draw_u8, hour]
  generalize decide_their_action (get_choice_index m.battle.actions) (rand m.rand_calls % 100) = t
    at hcases ⊢
  have hne := action_ne
  rcases hcases with h | h | h <;> subst h
  · have hs := their_action_store _ ha _ hne.2.2.2.1
    have h1 := hp_store_their _ hhp 1 (by omega)
    simp only [round_matrix_evade_attack, queue_set3 m.substate_queue hq, hs.2.2.1, h1.1, h1.2]
    refine ⟨fun _ => ⟨?_, trivial, trivial, trivial⟩, fun h => absurd h hne.1⟩
    omega
  · have hs := their_action_store _ ha _ hne.2.2.2.2.1
    simp only [round_matrix_evade_evade, queue_set2 m.substate_queue hq, hs.2.2.1,
      hp_repack _ hhp]
    exact ⟨fun h => absurd h.symm hne.1, fun _ => ⟨trivial, trivial, trivial, trivial⟩⟩
  · exact ⟨fun h => absurd h.symm hne.2.1, fun h => absurd h.symm hne.2.2.1⟩

/-- C3 at `ourHP = theirHP = 4`, choice index 0, our action Evade, draw 55 (opponent Attack). -/
theorem C3_round_resolution_evade_witness :
    get_their_hp (pw_battle_event_loop (fun _ => 55) (choosing_state 0x02 0x44)).battle.current_hp
        + 1 = 4 ∧
    get_our_hp (pw_battle_event_loop (fun _ => 55) (choosing_state 0x02 0x44)).battle.current_hp
        = 4 ∧
    planned (pw_battle_event_loop (fun _ => 55) (choosing_state 0x02 0x44)) 3 =
        [BATTLE_THEIR_ACTION, BATTLE_OUR_ACTION, BATTLE_CHOOSING] ∧
    get_choice_index (pw_battle_event_loop (fun _ => 55) (choosing_state 0x02 0x44)).battle.actions
        = 0 :=
  (C3_round_resolution_evade (fun _ => 55) (choosing_state 0x02 0x44) rfl rfl rfl (by decide)
    (by decide) (by decide)).1 (by decide)

/-- C4: in every resolving tick with `ourAction = Evade` in which the opponent's action resolves
to Special (any choice index, any HP values), the substate after the tick is TheyFled and the HP
register, hence both HP fields, is unchanged. -/
theorem C4_evade_special_flees (rand : Nat → Nat) (m : Machine)
    (hsub : m.battle.current_substate = BATTLE_CHOOSING)
    (hprev : m.battle.previous_substate = BATTLE_CHOOSING)
    (hidx : m.battle.substate_queue_index = 1)
    (hwf : WellFormed m)
    (hour : get_our_action m.battle.actions = ACTION_EVADE)
    (hspecial : get_their_action (pw_battle_event_loop rand m).battle.actions = ACTION_SPECIAL) :
    (pw_battle_event_loop rand m).battle.current_substate = BATTLE_THEY_FLED ∧
    (pw_battle_event_loop rand m).battle.current_hp = m.battle.current_hp ∧
    get_our_hp (pw_battle_event_loop rand m).battle.current_hp = get_our_hp m.battle.current_hp ∧
    get_their_hp (pw_battle_event_loop rand m).battle.current_hp =
      get_their_hp m.battle.current_hp := by
  obtain ⟨ha, hhp, -, -, hq⟩ := hwf
  have hta := resolve_their_action rand m ha
  rw [event_loop_choosing rand m hsub hprev hidx] at hspecial ⊢
  rw [hta] at hspecial
  simp only [resolve_round, pw_battle_switch_substate, draw_u8, hour, hspecial, hidx,
    round_matrix_evade_special, queue_set1 m.substate_queue hq, hp_repack _ hhp]
  exact ⟨trivial, trivial, trivial, trivial⟩

/-- C4 at choice index 0 with the draw 19 (opponent Special), `ourHP = 2`, `theirHP = 3`. -/
theorem C4_evade_special_flees_witness :
    (pw_battle_event_loop (fun _ => 19) (choosing_state 0x02 0x32)).battle.current_substate =
      BATTLE_THEY_FLED ∧
    (pw_battle_event_loop (fun _ => 19) (choosing_state 0x02 0x32)).battle.current_hp = 0x32 :=
  ⟨(C4_evade_special_flees (fun _ => 19) (choosing_state 0x02 0x32) rfl rfl rfl (by decide)
      (by decide) (by decide)).1,
   (C4_evade_special_flees (fun _ => 19) (choosing_state 0x02 0x32) rfl rfl rfl (by decide)
      (by decide) (by decide)).2.1⟩

/-! ## C5: the defeat / flee check -/

theorem event_loop_their_action (rand : Nat → Nat) (m : Machine)
    (hsub : m.battle.current_substate = BATTLE_THEIR_ACTION) :
    pw_battle_event_loop rand m = battle_their_action m := by
  simp [pw_battle_event_loop, hsub, BATTLE_THEIR_ACTION, BATTLE_CHOOSING, BATTLE_OPENING,
    BATTLE_APPEARED]

theorem event_loop_our_action (rand : Nat → Nat) (m : Machine)
    (hsub : m.battle.current_substate = BATTLE_OUR_ACTION) :
    pw_battle_event_loop rand m = battle_our_action m := by
  simp [pw_battle_event_loop, hsub, BATTLE_OUR_ACTION, BATTLE_THEIR_ACTION, BATTLE_CHOOSING,
    BATTLE_OPENING, BATTLE_APPEARED]

theorem u8_succ_ne (n : Nat) : u8 (n + 1) ≠ n := by
  unfold u8; omega

/-- C5: when `anim_frame` has reached 9, the tick in TheirAction switches to WeLost (cursor not
advanced, `anim_frame` reset) exactly when `ourHP == 0` or `ourHP > 4`, so alike for 0 and for
the wrapped value 15, and otherwise advances the queue (cursor + 1, `anim_frame` reset, substate
`substate_queue[cursor-1]` for the new cursor); the tick in OurAction does the same with TheyFled
and `theirHP`. -/
theorem C5_defeat_flee_check (rand : Nat → Nat) (m : Machine)
    (hframe : m.battle.anim_frame = ATTACK_ANIM_LENGTH) :
    (m.battle.current_substate = BATTLE_THEIR_ACTION →
      ((get_our_hp m.battle.current_hp = 0 ∨ get_our_hp m.battle.current_hp > 4) →
        pw_battle_event_loop rand m =
          pw_battle_switch_substate { m with battle := { m.battle with anim_frame := 0 } }
            BATTLE_WE_LOST ∧
        (pw_battle_event_loop rand m).battle.current_substate = BATTLE_WE_LOST) ∧
      (¬ (get_our_hp m.battle.current_hp = 0 ∨ get_our_hp m.battle.current_hp > 4) →
        pw_battle_event_loop rand m = advance m ∧
        (pw_battle_event_loop rand m).battle.substate_queue_index =
          u8 (m.battle.substate_queue_index + 1) ∧
        (pw_battle_event_loop rand m).battle.anim_frame = 0 ∧
        (pw_battle_event_loop rand m).battle.current_substate =
          queue_read m.substate_queue (u8 (m.battle.substate_queue_index + 1))) ∧
      ((pw_battle_event_loop rand m).battle.substate_queue_index = m.battle.substate_queue_index ∧
          (pw_battle_event_loop rand m).battle.current_substate = BATTLE_WE_LOST ↔
        get_our_hp m.battle.current_hp = 0 ∨ get_our_hp m.battle.current_hp > 4)) ∧
    (m.battle.current_substate = BATTLE_OUR_ACTION →
      ((get_their_hp m.battle.current_hp = 0 ∨ get_their_hp m.battle.current_hp > 4) →
        pw_battle_event_loop rand m =
          pw_battle_switch_substate { m with battle := { m.battle with anim_frame := 0 } }
            BATTLE_THEY_FLED ∧
        (pw_battle_event_loop rand m).battle.current_substate = BATTLE_THEY_FLED) ∧
      (¬ (get_their_hp m.battle.current_hp = 0 ∨ get_their_hp m.battle.current_hp > 4) →
        pw_battle_event_loop rand m = advance m ∧
        (pw_battle_event_loop rand m).battle.substate_queue_index =
          u8 (m.battle.substate_queue_index + 1) ∧
        (pw_battle_event_loop rand m).battle.anim_frame = 0 ∧
        (pw_battle_event_loop rand m).battle.current_substate =
          queue_read m.substate_queue (u8 (m.battle.substate_queue_index + 1))) ∧
      ((pw_battle_event_loop rand m).battle.substate_queue_index = m.battle.substate_queue_index ∧
          (pw_battle_event_loop rand m).battle.current_substate = BATTLE_THEY_FLED ↔
        get_their_hp m.battle.current_hp = 0 ∨ get_their_hp m.battle.current_hp > 4)) := by
  have hne := u8_succ_ne m.battle.substate_queue_index
  constructor
  · intro hsub
    rw [event_loop_their_action rand m hsub]
    by_cases hc : get_our_hp m.battle.current_hp = 0 ∨ get_our_hp m.battle.current_hp > 4
    · simp [battle_their_action, hframe, hc, pw_battle_switch_substate]
    · simp [battle_their_action, hframe, hc, pw_battle_switch_substate, advance, hne]
  · intro hsub
    rw [event_loop_our_action rand m hsub]
    by_cases hc : get_their_hp m.battle.current_hp = 0 ∨ get_their_hp m.battle.current_hp > 4
    · simp [battle_our_action, hframe, hc, pw_battle_switch_substate]
    · simp [battle_our_action, hframe, hc, pw_battle_switch_substate, advance, hne]

/-- C5 in TheirAction (second entry of the plan [OurAction, TheirAction, Choosing]) at frame 9:
`ourHP = 0` and the wrapped `ourHP = 15` both end in WeLost, `ourHP = 1` advances to Choosing. -/
theorem C5_defeat_flee_check_witness :
    (pw_battle_event_loop (fun _ => 0) (action_state BATTLE_THEIR_ACTION 0x40 2)
      ).battle.current_substate = BATTLE_WE_LOST ∧
    (pw_battle_event_loop (fun _ => 0) (action_state BATTLE_THEIR_ACTION 0x4f 2)
      ).battle.current_substate = BATTLE_WE_LOST ∧
    (pw_battle_event_loop (fun _ => 0) (action_state BATTLE_THEIR_ACTION 0x41 2)
      ).battle.current_substate = BATTLE_CHOOSING ∧
    (pw_battle_event_loop (fun _ => 0) (action_state BATTLE_OUR_ACTION 0xf3 1)
      ).battle.current_substate = BATTLE_THEY_FLED :=
  ⟨(((C5_defeat_flee_check (fun _ => 0) (action_state BATTLE_THEIR_ACTION 0x40 2) rfl).1 rfl).1
      (by decide)).2,
   (((C5_defeat_flee_check (fun _ => 0) (action_state BATTLE_THEIR_ACTION 0x4f 2) rfl).1 rfl).1
      (by decide)).2,
   (((C5_defeat_flee_check (fun _ => 0) (action_state BATTLE_THEIR_ACTION 0x41 2) rfl).1 rfl).2.1
      (by decide)).2.2.2,
   (((C5_defeat_flee_check (fun _ => 0) (action_state BATTLE_OUR_ACTION 0xf3 1) rfl).2 rfl).1
      (by decide)).2⟩

/-! ## C7: capture planning -/

theorem event_loop_catch_setup (rand : Nat → Nat) (m : Machine)
    (hsub : m.battle.current_substate = BATTLE_CATCH_SETUP) :
    pw_battle_event_loop rand m = battle_catch_setup rand m := by
  simp [pw_battle_event_loop, hsub, BATTLE_CATCH_SETUP, BATTLE_OUR_ACTION, BATTLE_THEIR_ACTION,
    BATTLE_CHOOSING, BATTLE_OPENING, BATTLE_APPEARED, BATTLE_STAREDOWN, BATTLE_THEY_FLED,
    BATTLE_WE_LOST]

/-- The wobble loop, unrolled: it stops at the first draw that is not below the chance. -/
theorem wobble_loop_eq (rand : Nat → Nat) (wc c : Nat) :
    wobble_loop rand wc 3 (0, true, c) =
      if rand c % 100 ≥ wc then (1, false, c + 1)
      else if rand (c + 1) % 100 ≥ wc then (2, false, c + 2)
      else if rand (c + 2) % 100 ≥ wc then (3, false, c + 3)
      else (3, true, c + 3) := by
  have e1 : u8 (0 + 1) = 1 := rfl
  have e2 : u8 (1 + 1) = 2 := rfl
  have e3 : u8 (2 + 1) = 3 := rfl
  simp only [wobble_loop, draw_u8, e1, e2, e3]
  split_ifs <;> simp_all

theorem queue_catch6 (q : List Nat) (h : q.length = 8) (a b c d e f : Nat) :
    ((((((q.set 0 a).set 1 b).set 2 c).set 3 d).set 4 e).set 5 f).take 6 = [a, b, c, d, e, f] ∧
    queue_read ((((((q.set 0 a).set 1 b).set 2 c).set 3 d).set 4 e).set 5 f) 1 = a := by
  match q, h with
  | [_, _, _, _, _, _, _, _], _ => simp [queue_read]

theorem queue_catch5 (q : List Nat) (h : q.length = 8) (a b c d e : Nat) :
    (((((q.set 0 a).set 1 b).set 2 c).set 3 d).set 4 e).take 5 = [a, b, c, d, e] ∧
    queue_read (((((q.set 0 a).set 1 b).set 2 c).set 3 d).set 4 e) 1 = a := by
  match q, h with
  | [_, _, _, _, _, _, _, _], _ => simp [queue_read]

theorem their_hp_pos_int (n : Nat) (h : 1 ≤ n) : ¬ ((n : Int) ≤ 0) := by omega

/-- The outcome of the `BATTLE_CATCH_SETUP` case for an opponent HP inside the table. -/
theorem catch_setup_outcome (rand : Nat → Nat) (m : Machine) (h wobbleChance : Nat)
    (hsub : m.battle.current_substate = BATTLE_CATCH_SETUP)
    (hq : m.substate_queue.length = 8)
    (hh : get_their_hp m.battle.current_hp = h)
    (hr : 1 ≤ h ∧ h ≤ 4)
    (hwc : WOBBLE_CHANCES[h - 1]? = some wobbleChance) :
    ((rand m.rand_calls % 100 < wobbleChance ∧ rand (m.rand_calls + 1) % 100 < wobbleChance ∧
        rand (m.rand_calls + 2) % 100 < wobbleChance) →
      planned (pw_battle_event_loop rand m) 6 =
        [BATTLE_THREW_BALL, BATTLE_CLOUD_ANIM, BATTLE_BALL_WOBBLE, BATTLE_CLOUD_ANIM,
          BATTLE_ALMOST_HAD_IT, BATTLE_THEY_FLED] ∧
      (pw_battle_event_loop rand m).battle.substate_queue_len = 6) ∧
    (¬ (rand m.rand_calls % 100 < wobbleChance ∧ rand (m.rand_calls + 1) % 100 < wobbleChance ∧
        rand (m.rand_calls + 2) % 100 < wobbleChance) →
      planned (pw_battle_event_loop rand m) 5 =
        [BATTLE_THREW_BALL, BATTLE_CLOUD_ANIM, BATTLE_BALL_WOBBLE, BATTLE_CATCH_STARS,
          BATTLE_POKEMON_CAUGHT] ∧
      (pw_battle_event_loop rand m).battle.substate_queue_len = 5) ∧
    (pw_battle_event_loop rand m).battle.substate_queue_index = 1 ∧
    (pw_battle_event_loop rand m).battle.anim_frame = 0 ∧
    (pw_battle_event_loop rand m).battle.current_substate = BATTLE_THREW_BALL := by
  have hwc2 : wobble_chance_at ((get_their_hp m.battle.current_hp : Nat) - 1) = wobbleChance := by
    have h1 : ((h : Int) - 1) = ((h - 1 : Nat) : Int) := by omega
    rw [hh, h1]
    simp [wobble_chance_at, List.getD_eq_getElem?_getD, hwc]
  have hpos := their_hp_pos_int _ (hh ▸ hr.1)
  have hqc := queue_catch6 m.substate_queue hq
  have hqd := queue_catch5 m.substate_queue hq
  rw [event_loop_catch_setup rand m hsub]
  simp only [battle_catch_setup, hwc2, hpos, if_false, wobble_loop_eq, planned,
    pw_battle_switch_substate]
  by_cases h0 : rand m.rand_calls % 100 < wobbleChance
  · by_cases h1 : rand (m.rand_calls + 1) % 100 < wobbleChance
    · by_cases h2 : rand (m.rand_calls + 2) % 100 < wobbleChance
      · simp [h0, h1, h2, hqc, Nat.not_le.mpr h0, Nat.not_le.mpr h1, Nat.not_le.mpr h2]
      · simp [h0, h1, h2, hqd, Nat.not_le.mpr h0, Nat.not_le.mpr h1, Nat.not_lt.mp h2]
    · simp [h0, h1, hqd, Nat.not_le.mpr h0, Nat.not_lt.mp h1]
  · simp [h0, hqd, Nat.not_lt.mp h0]

/-- C7: a tick in CatchSetup with opponent HP `h` in 1..4 and `wobbleChance = WOBBLE_CHANCES[h-1]`:
if the three draws are all below `wobbleChance` the planned queue is
[ThrewBall, CloudAnim, BallWobble, CloudAnim, AlmostHadIt, TheyFled] with length 6, otherwise
(some iteration draws `pct ≥ wobbleChance`) it is
[ThrewBall, CloudAnim, BallWobble, CatchStars, PokemonCaught] with length 5; in both cases the
cursor becomes 1, `anim_frame` 0 and the substate ThrewBall. -/
theorem C7_capture_planning (rand : Nat → Nat) (m : Machine) (h wobbleChance : Nat)
    (hsub : m.battle.current_substate = BATTLE_CATCH_SETUP)
    (hq : m.substate_queue.length = 8)
    (hh : get_their_hp m.battle.current_hp = h)
    (hr : 1 ≤ h ∧ h ≤ 4)
    (hwc : WOBBLE_CHANCES[h - 1]? = some wobbleChance) :
    ((rand m.rand_calls % 100 < wobbleChance ∧ rand (m.rand_calls + 1) % 100 < wobbleChance ∧
        rand (m.rand_calls + 2) % 100 < wobbleChance) →
      planned (pw_battle_event_loop rand m) 6 =
        [BATTLE_THREW_BALL, BATTLE_CLOUD_ANIM, BATTLE_BALL_WOBBLE, BATTLE_CLOUD_ANIM,
          BATTLE_ALMOST_HAD_IT, BATTLE_THEY_FLED] ∧
      (pw_battle_event_loop rand m).battle.substate_queue_len = 6) ∧
    (¬ (rand m.rand_calls % 100 < wobbleChance ∧ rand (m.rand_calls + 1) % 100 < wobbleChance ∧
        rand (m.rand_calls + 2) % 100 < wobbleChance) →
      planned (pw_battle_event_loop rand m) 5 =
        [BATTLE_THREW_BALL, BATTLE_CLOUD_ANIM, BATTLE_BALL_WOBBLE, BATTLE_CATCH_STARS,
          BATTLE_POKEMON_CAUGHT] ∧
      (pw_battle_event_loop rand m).battle.substate_queue_len = 5) ∧
    (pw_battle_event_loop rand m).battle.substate_queue_index = 1 ∧
    (pw_battle_event_loop rand m).battle.anim_frame = 0 ∧
    (pw_battle_event_loop rand m).battle.current_substate = BATTLE_THREW_BALL :=
  catch_setup_outcome rand m h wobbleChance hsub hq hh hr hwc

/-- C7 at opponent HP 1 (`wobbleChance` 97): three draws of 0 plan the 6-entry queue, a first
draw of 97 plans the 5-entry queue; the substate becomes ThrewBall. -/
theorem C7_capture_planning_witness :
    (planned (pw_battle_event_loop (draws3 0 0 0) (catch_setup_state 0x14)) 6 =
        [BATTLE_THREW_BALL, BATTLE_CLOUD_ANIM, BATTLE_BALL_WOBBLE, BATTLE_CLOUD_ANIM,
          BATTLE_ALMOST_HAD_IT, BATTLE_THEY_FLED] ∧
      (pw_battle_event_loop (draws3 0 0 0) (catch_setup_state 0x14)).battle.substate_queue_len
        = 6) ∧
    (planned (pw_battle_event_loop (draws3 97 0 0) (catch_setup_state 0x14)) 5 =
        [BATTLE_THREW_BALL, BATTLE_CLOUD_ANIM, BATTLE_BALL_WOBBLE, BATTLE_CATCH_STARS,
          BATTLE_POKEMON_CAUGHT] ∧
      (pw_battle_event_loop (draws3 97 0 0) (catch_setup_state 0x14)).battle.substate_queue_len
        = 5) ∧
    (pw_battle_event_loop (draws3 97 0 0) (catch_setup_state 0x14)).battle.current_substate =
      BATTLE_THREW_BALL :=
  ⟨(C7_capture_planning (draws3 0 0 0) (catch_setup_state 0x14) 1 97 rfl rfl (by decide)
      (by decide) rfl).1 (by decide),
   (C7_capture_planning (draws3 97 0 0) (catch_setup_state 0x14) 1 97 rfl rfl (by decide)
      (by decide) rfl).2.1 (by decide),
   (C7_capture_planning (draws3 97 0 0) (catch_setup_state 0x14) 1 97 rfl rfl (by decide)
      (by decide) rfl).2.2.2.2⟩

/-! ## C6: HP wraparound -/

/-- Among the triples of draws below 100, those with all three entries below `wc` number
`wc ^ 3`. -/
theorem card_all_below (wc : Nat) (hwc : wc ≤ 100) :
    ((Finset.range 100 ×ˢ Finset.range 100 ×ˢ Finset.range 100).filter fun t =>
      t.1 < wc ∧ t.2.1 < wc ∧ t.2.2 < wc).card = wc ^ 3 := by
  have hr : (Finset.range 100).filter (fun x => x < wc) = Finset.range wc := by
    ext x
    simp only [Finset.mem_filter, Finset.mem_range]
    omega
  have h2 : ((Finset.range 100 ×ˢ Finset.range 100).filter fun t : Nat × Nat =>
      t.1 < wc ∧ t.2 < wc) = Finset.range wc ×ˢ Finset.range wc := by
    rw [Finset.filter_product (fun x => x < wc) (fun x => x < wc), hr]
  have h3 : ((Finset.range 100 ×ˢ Finset.range 100 ×ˢ Finset.range 100).filter fun t =>
      t.1 < wc ∧ t.2.1 < wc ∧ t.2.2 < wc) =
      Finset.range wc ×ˢ Finset.range wc ×ˢ Finset.range wc := by
    rw [Finset.filter_product (fun x => x < wc) (fun t : Nat × Nat => t.1 < wc ∧ t.2 < wc), hr, h2]
  rw [h3]
  simp only [Finset.card_product, Finset.card_range]
  ring

/-- Among the triples of draws below 100, those with some entry not below `wc` number
`100 ^ 3 - wc ^ 3`. -/
theorem card_some_not_below (wc : Nat) (hwc : wc ≤ 100) :
    ((Finset.range 100 ×ˢ Finset.range 100 ×ˢ Finset.range 100).filter fun t =>
      ¬ (t.1 < wc ∧ t.2.1 < wc ∧ t.2.2 < wc)).card = 100 ^ 3 - wc ^ 3 := by
  have h := Finset.filter_card_add_filter_neg_card_eq_card
    (s := Finset.range 100 ×ˢ Finset.range 100 ×ˢ Finset.range 100)
    (fun t => t.1 < wc ∧ t.2.1 < wc ∧ t.2.2 < wc)
  rw [card_all_below wc hwc] at h
  simp only [Finset.card_product, Finset.card_range] at h
  omega


theorem plan_ends_caught_iff (hp a b c h wc : Nat)
    (hh : get_their_hp hp = h) (hr : 1 ≤ h ∧ h ≤ 4) (hwc : WOBBLE_CHANCES[h - 1]? = some wc)
    (ha : a < 100) (hb : b < 100) (hc : c < 100) :
    plan_ends_caught (pw_battle_event_loop (draws3 a b c) (catch_setup_state hp)) = true ↔
      ¬ (a < wc ∧ b < wc ∧ c < wc) := by
  have key := catch_setup_outcome (draws3 a b c) (catch_setup_state hp) h wc rfl rfl hh hr hwc
  have e0 : draws3 a b c (catch_setup_state hp).rand_calls % 100 = a := Nat.mod_eq_of_lt ha
  have e1 : draws3 a b c ((catch_setup_state hp).rand_calls + 1) % 100 = b := Nat.mod_eq_of_lt hb
  have e2 : draws3 a b c ((catch_setup_state hp).rand_calls + 2) % 100 = c := Nat.mod_eq_of_lt hc
  rw [e0, e1, e2] at key
  unfold plan_ends_caught
  unfold planned at key
  by_cases hall : a < wc ∧ b < wc ∧ c < wc
  · obtain ⟨hplan, hlen⟩ := key.1 hall
    rw [hlen, hplan]
    simp only [hall, not_true_eq_false, iff_false]
    decide
  · obtain ⟨hplan, hlen⟩ := key.2.1 hall
    rw [hlen, hplan]
    simp only [hall, not_false_eq_true, iff_true]
    decide

set_option maxRecDepth 8000 in
theorem caught_triples_eq (hp h wc : Nat)
    (hh : get_their_hp hp = h) (hr : 1 ≤ h ∧ h ≤ 4) (hwc : WOBBLE_CHANCES[h - 1]? = some wc)
    (hle : wc ≤ 100) :
    caught_triples hp = 100 ^ 3 - wc ^ 3 := by
  refine Eq.trans ?_ (card_some_not_below wc hle)
  unfold caught_triples
  refine congrArg Finset.card (Finset.filter_congr ?_)
  intro t ht
  simp only [Finset.mem_product, Finset.mem_range] at ht
  exact plan_ends_caught_iff hp t.1 t.2.1 t.2.2 h wc hh hr hwc ht.1 ht.2.1 ht.2.2

/-- C8, the code counted over all 100^3 triples of draws: the capture attempt plans a queue
ending in PokemonCaught for 100^3 - 97^3 = 87327 triples at opponent HP 1 and for
100^3 - 56^3 = 824384 triples at opponent HP 4 (not for 97^3 and 56^3 of them): the queue ending
in PokemonCaught is planned exactly when some wobble iteration draws `pct ≥ wobbleChance`, and
three passing draws such as (0, 0, 0) plan the queue ending in AlmostHadIt, TheyFled. -/
theorem C8_capture_count_inverted :
    caught_triples 0x14 = 100 ^ 3 - 97 ^ 3 ∧ caught_triples 0x14 ≠ 97 ^ 3 ∧
    caught_triples 0x44 = 100 ^ 3 - 56 ^ 3 ∧ caught_triples 0x44 ≠ 56 ^ 3 ∧
    plan_ends_caught (pw_battle_event_loop (draws3 0 0 0) (catch_setup_state 0x14)) = false ∧
    plan_ends_caught (pw_battle_event_loop (draws3 97 0 0) (catch_setup_state 0x14)) = true := by
  have h1 := caught_triples_eq 0x14 1 97 (by decide) (by decide) rfl (by decide)
  have h4 := caught_triples_eq 0x44 4 56 (by decide) (by decide) rfl (by decide)
  refine ⟨h1, ?_, h4, ?_, by decide, by decide⟩
  · rw [h1]; decide
  · rw [h4]; decide

/-! ## C9: CatchSetup with opponent HP 0 -/

theorem event_loop_ball_wobble (rand : Nat → Nat) (m : Machine)
    (hsub : m.battle.current_substate = BATTLE_BALL_WOBBLE) :
    pw_battle_event_loop rand m = battle_ball_wobble m := by
  simp [pw_battle_event_loop, hsub, BATTLE_BALL_WOBBLE, BATTLE_CATCH_SETUP, BATTLE_OUR_ACTION,
    BATTLE_THEIR_ACTION, BATTLE_CHOOSING, BATTLE_OPENING, BATTLE_APPEARED, BATTLE_STAREDOWN,
    BATTLE_THEY_FLED, BATTLE_WE_LOST, BATTLE_THREW_BALL, BATTLE_CLOUD_ANIM]

/-- With two wobbles recorded (`actions` is `0x20`, or `0x21` after an increment) no event
takes the machine out of BallWobble or moves the queue cursor. -/
theorem wobble2_step (rand : Nat → Nat) (m : Machine) (e : Event)
    (h : m.battle.current_substate = BATTLE_BALL_WOBBLE ∧ m.battle.substate_queue_index = 3 ∧
      (m.battle.actions = 0x20 ∨ m.battle.actions = 0x21)) :
    (step rand m e).battle.current_substate = BATTLE_BALL_WOBBLE ∧
    (step rand m e).battle.substate_queue_index = 3 ∧
    ((step rand m e).battle.actions = 0x20 ∨ (step rand m e).battle.actions = 0x21) := by
  obtain ⟨hsub, hidx, hact⟩ := h
  cases e with
  | tick =>
    have hcw : u8 (m.battle.actions &&& (CURRENT_WOBBLE_MASK + 1)) = 0 := by
      rcases hact with ha | ha <;> rw [ha] <;> decide
    have hmax : u8 (m.battle.actions >>> MAX_WOBBLE_OFFSET) = 2 := by
      rcases hact with ha | ha <;> rw [ha] <;> decide
    have hnew : clear_bits m.battle.actions CURRENT_WOBBLE_MASK ||| u8 (0 + 1) = 0x21 := by
      rcases hact with ha | ha <;> rw [ha] <;> decide
    simp only [step]
    rw [event_loop_ball_wobble rand m hsub]
    simp only [battle_ball_wobble, hcw, hmax, hnew]
    split_ifs with h1 h2
    · exact ⟨hsub, hidx, Or.inr rfl⟩
    · exact absurd (by decide) h2
    · exact ⟨hsub, hidx, hact⟩
  | display =>
    simp only [step, pw_battle_update_display]
    split_ifs <;> exact ⟨hsub, hidx, hact⟩
  | button b =>
    have hb : pw_battle_handle_input m b = m := by
      simp [pw_battle_handle_input, hsub, BATTLE_BALL_WOBBLE, BATTLE_APPEARED, BATTLE_CHOOSING,
        BATTLE_POKEMON_CAUGHT, BATTLE_THEY_FLED, BATTLE_WE_LOST, BATTLE_SWITCH]
    simp only [step, hb]
    exact ⟨hsub, hidx, hact⟩

theorem wobble2_run (rand : Nat → Nat) (evs : List Event) : ∀ m : Machine,
    (m.battle.current_substate = BATTLE_BALL_WOBBLE ∧ m.battle.substate_queue_index = 3 ∧
      (m.battle.actions = 0x20 ∨ m.battle.actions = 0x21)) →
    (run rand m evs).battle.current_substate = BATTLE_BALL_WOBBLE ∧
    (run rand m evs).battle.substate_queue_index = 3 := by
  induction evs with
  | nil => intro m h; exact ⟨h.1, h.2.1⟩
  | cons e es ih => intro m h; exact ih (step rand m e) (wobble2_step rand m e h)

/-- C10, the code after CatchSetup recorded `maxWobble` (2 for the draws 0, 97; 3 for the draws
0, 0, 97 at opponent HP 1, which leave the registers of `wobble_state`): the running counter is
read as
`actions & (CURRENT_WOBBLE_MASK+1)`, bit 4 of the register, which is the low bit of `maxWobble`.
With `maxWobble = 2` the counter always reads 0, so no sequence of ticks, display updates and
button presses ever leaves BallWobble or advances the queue; with `maxWobble = 3` it reads 16,
so the first tick after one wobble duration (`anim_frame` = 5) already advances the queue to
CatchStars instead of after three durations. -/
theorem C10_ball_wobble_duration_wrong :
    ((pw_battle_event_loop (draws3 0 97 0) (catch_setup_state 0x14)).battle.actions =
        (wobble_state 2).battle.actions ∧
      (pw_battle_event_loop (draws3 0 97 0) (catch_setup_state 0x14)).substate_queue =
        (wobble_state 2).substate_queue ∧
      (pw_battle_event_loop (draws3 0 0 97) (catch_setup_state 0x14)).battle.actions =
        (wobble_state 3).battle.actions ∧
      (pw_battle_event_loop (draws3 0 0 97) (catch_setup_state 0x14)).substate_queue =
        (wobble_state 3).substate_queue) ∧
    (∀ (rand : Nat → Nat) (evs : List Event),
      (run rand (wobble_state 2) evs).battle.current_substate = BATTLE_BALL_WOBBLE ∧
      (run rand (wobble_state 2) evs).battle.substate_queue_index = 3) ∧
    (∀ rand : Nat → Nat,
      (run rand (wobble_state 3)
        [Event.display, Event.display, Event.display, Event.display, Event.display,
          Event.display]).battle.anim_frame = WOBBLE_ANIM_LENGTH ∧
      (run rand (wobble_state 3)
        [Event.display, Event.display, Event.display, Event.display, Event.display,
          Event.display]).battle.current_substate = BATTLE_BALL_WOBBLE ∧
      (run rand (wobble_state 3)
        [Event.display, Event.display, Event.display, Event.display, Event.display,
          Event.display, Event.tick]).battle.current_substate = BATTLE_CATCH_STARS ∧
      (run rand (wobble_state 3)
        [Event.display, Event.display, Event.display, Event.display, Event.display,
          Event.display, Event.tick]).battle.substate_queue_index = 4) := by
  refine ⟨by decide, fun rand evs => wobble2_run rand evs (wobble_state 2) (by decide),
    fun rand => ?_⟩
  have hd : ∀ m : Machine, run rand m
      [Event.display, Event.display, Event.display, Event.display, Event.display,
        Event.display] =
      pw_battle_update_display (pw_battle_update_display (pw_battle_update_display
        (pw_battle_update_display (pw_battle_update_display (pw_battle_update_display m))))) := by
    intro m
    simp only [run, List.foldl, step]
  have ht : ∀ m : Machine, run rand m
      [Event.display, Event.display, Event.display, Event.display, Event.display,
        Event.display, Event.tick] =
      pw_battle_event_loop rand
        (pw_battle_update_display (pw_battle_update_display (pw_battle_update_display
          (pw_battle_update_display (pw_battle_update_display (pw_battle_update_display m)))))) := by
    intro m
    simp only [run, List.foldl, step]
  have h5 : (pw_battle_update_display (pw_battle_update_display (pw_battle_update_display
      (pw_battle_update_display (pw_battle_update_display (pw_battle_update_display
        (wobble_state 3))))))).battle.anim_frame = WOBBLE_ANIM_LENGTH ∧
      (pw_battle_update_display (pw_battle_update_display (pw_battle_update_display
      (pw_battle_update_display (pw_battle_update_display (pw_battle_update_display
        (wobble_state 3))))))).battle.current_substate = BATTLE_BALL_WOBBLE := by
    decide!
  have h6 : (battle_ball_wobble (pw_battle_update_display (pw_battle_update_display
      (pw_battle_update_display (pw_battle_update_display (pw_battle_update_display
        (pw_battle_update_display (wobble_state 3)))))))).battle.current_substate =
        BATTLE_CATCH_STARS ∧
      (battle_ball_wobble (pw_battle_update_display (pw_battle_update_display
      (pw_battle_update_display (pw_battle_update_display (pw_battle_update_display
        (pw_battle_update_display (wobble_state 3)))))))).battle.substate_queue_index = 4 := by
    decide!
  rw [ht, hd, event_loop_ball_wobble rand _ h5.2]
  exact ⟨h5.1, h5.2, h6.1, h6.2⟩

/-! ## C11: the wobble count -/

/-- Three iterations are all the wobble loop can run: more fuel gives the same result. -/
theorem wobble_loop_fuel (rand : Nat → Nat) (wc c k : Nat) :
    wobble_loop rand wc (3 + k) (0, true, c) = wobble_loop rand wc 3 (0, true, c) := by
  have e1 : u8 (0 + 1) = 1 := rfl
  have e2 : u8 (1 + 1) = 2 := rfl
  have e3 : u8 (2 + 1) = 3 := rfl
  have hk : 3 + k = k + 1 + 1 + 1 := by omega
  rw [hk]
  cases k with
  | zero => rfl
  | succ j =>
    simp only [wobble_loop, draw_u8, e1, e2, e3]
    split_ifs <;> simp_all

/-- C11: a tick in CatchSetup with opponent HP `h` in 1..4, `wobbleChance = WOBBLE_CHANCES[h-1]`
and any random source: the number `n` of loop iterations run is the 1-based position of the
first draw that is `≥ wobbleChance`, or 3 if neither of the first two draws fails; `n` is
between 1 and 3, exactly `n` random draws are consumed, and the action register becomes
`n << 4`, so that `maxWobble` (the register shifted right by 4) is `n`. -/
theorem C11_wobble_count (rand : Nat → Nat) (m : Machine) (h wobbleChance n : Nat)
    (hsub : m.battle.current_substate = BATTLE_CATCH_SETUP)
    (hh : get_their_hp m.battle.current_hp = h)
    (hr : 1 ≤ h ∧ h ≤ 4)
    (hwc : WOBBLE_CHANCES[h - 1]? = some wobbleChance)
    (hn : n = if rand m.rand_calls % 100 ≥ wobbleChance then 1
              else if rand (m.rand_calls + 1) % 100 ≥ wobbleChance then 2
              else 3) :
    (wobble_loop rand wobbleChance 3 (0, true, m.rand_calls)).1 = n ∧
    1 ≤ n ∧ n ≤ 3 ∧
    (pw_battle_event_loop rand m).rand_calls = m.rand_calls + n ∧
    (pw_battle_event_loop rand m).battle.actions = n <<< MAX_WOBBLE_OFFSET ∧
    (pw_battle_event_loop rand m).battle.actions >>> MAX_WOBBLE_OFFSET = n := by
  have hwc2 : wobble_chance_at ((get_their_hp m.battle.current_hp : Nat) - 1) = wobbleChance := by
    have h1 : ((h : Int) - 1) = ((h - 1 : Nat) : Int) := by omega
    rw [hh, h1]
    simp [wobble_chance_at, List.getD_eq_getElem?_getD, hwc]
  have hpos := their_hp_pos_int _ (hh ▸ hr.1)
  rw [event_loop_catch_setup rand m hsub]
  simp only [battle_catch_setup, hwc2, hpos, if_false, wobble_loop_eq, pw_battle_switch_substate]
  by_cases h0 : rand m.rand_calls % 100 ≥ wobbleChance
  · simp only [h0, if_true] at hn ⊢
    subst hn
    refine ⟨rfl, by omega, by omega, ?_, ?_, ?_⟩ <;> simp [u8, MAX_WOBBLE_OFFSET]
  · by_cases h1 : rand (m.rand_calls + 1) % 100 ≥ wobbleChance
    · simp only [h0, h1, if_true, if_false] at hn ⊢
      subst hn
      refine ⟨rfl, by omega, by omega, ?_, ?_, ?_⟩ <;> simp [u8, MAX_WOBBLE_OFFSET]
    · simp only [h0, h1, if_false] at hn ⊢
      subst hn
      by_cases h2 : rand (m.rand_calls + 2) % 100 ≥ wobbleChance
      · simp only [h2, if_true]
        refine ⟨trivial, by omega, by omega, ?_, ?_, ?_⟩ <;> simp [u8, MAX_WOBBLE_OFFSET]
      · simp only [h2, if_false]
        refine ⟨trivial, by omega, by omega, ?_, ?_, ?_⟩ <;> simp [u8, MAX_WOBBLE_OFFSET]

/-- C11 at opponent HP 1 (`wobbleChance` 97) with the draws 0, 97: two iterations run, two
draws are consumed and the action register becomes `0x20`. -/
theorem C11_wobble_count_witness :
    (pw_battle_event_loop (draws3 0 97 0) (catch_setup_state 0x14)).rand_calls = 2 ∧
    (pw_battle_event_loop (draws3 0 97 0) (catch_setup_state 0x14)).battle.actions = 0x20 :=
  ⟨(C11_wobble_count (draws3 0 97 0) (catch_setup_state 0x14) 1 97 2 rfl (by decide) (by decide)
      rfl (by decide)).2.2.2.1,
   (C11_wobble_count (draws3 0 97 0) (catch_setup_state 0x14) 1 97 2 rfl (by decide) (by decide)
      rfl (by decide)).2.2.2.2.1⟩

/-! ## C12, C13, C14: processing a caught creature -/

theorem event_loop_process (rand : Nat → Nat) (m : Machine)
    (hsub : m.battle.current_substate = BATTLE_PROCESS_CAUGHT_POKEMON) :
    pw_battle_event_loop rand m = battle_process_caught_pokemon m := by
  simp [pw_battle_event_loop, hsub, BATTLE_PROCESS_CAUGHT_POKEMON, BATTLE_POKEMON_CAUGHT,
    BATTLE_ALMOST_HAD_IT, BATTLE_BALL_WOBBLE, BATTLE_CATCH_SETUP, BATTLE_OUR_ACTION,
    BATTLE_THEIR_ACTION, BATTLE_CHOOSING, BATTLE_OPENING, BATTLE_APPEARED, BATTLE_STAREDOWN,
    BATTLE_THEY_FLED, BATTLE_WE_LOST, BATTLE_THREW_BALL, BATTLE_CLOUD_ANIM]

/-- The scan of a 3-slot roster stops at the lowest-indexed empty slot, or at 3. -/
theorem first_empty_slot_eq (p0 p1 p2 : pokemon_summary_t) :
    first_empty_slot [p0, p1, p2] 3 0 =
      if species_empty p0 then 0 else if species_empty p1 then 1
      else if species_empty p2 then 2 else 3 := by
  simp only [first_empty_slot]
  split_ifs <;> simp_all

/-- C12: a tick in ProcessCaughtPokemon for a normal creature (`chosen_pokemon < 3`, route record
`r`) with the roster `[p0, p1, p2]` of which some slot is empty (species `0x0000` or `0xffff`):
the roster written back has `r` in the lowest-indexed empty slot and the other two slots
unchanged, it is the only write, nothing else in the store changes, the pending state becomes
the splash state, and the substate is not changed (Switch is not entered). -/
theorem C12_process_caught_free_slot (rand : Nat → Nat) (m : Machine)
    (p0 p1 p2 r : pokemon_summary_t)
    (hsub : m.battle.current_substate = BATTLE_PROCESS_CAUGHT_POKEMON)
    (hch : m.battle.chosen_pokemon < 3)
    (hros : m.eeprom.caught_pokemon_summary = [p0, p1, p2])
    (hroute : m.eeprom.route_pokemon[m.battle.chosen_pokemon]? = some r)
    (hfree : species_empty p0 = true ∨ species_empty p1 = true ∨ species_empty p2 = true) :
    (pw_battle_event_loop rand m).eeprom.caught_pokemon_summary =
      (if species_empty p0 then [r, p1, p2]
       else if species_empty p1 then [p0, r, p2]
       else [p0, p1, r]) ∧
    (pw_battle_event_loop rand m).eeprom =
      { m.eeprom with
        caught_pokemon_summary := (pw_battle_event_loop rand m).eeprom.caught_pokemon_summary
        writes := m.eeprom.writes + 1 } ∧
    (pw_battle_event_loop rand m).pending_sid = STATE_SPLASH ∧
    (pw_battle_event_loop rand m).battle = m.battle ∧
    (pw_battle_event_loop rand m).battle.current_substate ≠ BATTLE_SWITCH := by
  have hnot : ¬ (m.battle.chosen_pokemon ≥ 3) := by omega
  have hr : m.eeprom.route_pokemon.getD m.battle.chosen_pokemon ⟨0, []⟩ = r := by
    simp [List.getD_eq_getElem?_getD, hroute]
  have hne : BATTLE_PROCESS_CAUGHT_POKEMON ≠ BATTLE_SWITCH := by decide
  rw [event_loop_process rand m hsub]
  simp only [battle_process_caught_pokemon, hnot, if_false, hros, first_empty_slot_eq, hr]
  by_cases h0 : species_empty p0 = true
  · simp [h0, hsub, hne]
  · by_cases h1 : species_empty p1 = true
    · simp [h0, h1, hsub, hne]
    · have h2 : species_empty p2 = true := by
        rcases hfree with h | h | h
        · exact absurd h h0
        · exact absurd h h1
        · exact h
      simp [h0, h1, h2, hsub, hne]

/-- C12 for `chosen_pokemon = 1` and the roster [empty, filled, empty]: the route record is
written into slot 0, exit is signalled, Switch is not entered. -/
theorem C12_process_caught_free_slot_witness :
    (pw_battle_event_loop (fun _ => 0)
        (process_state 1 [⟨0, []⟩, ⟨25, [5]⟩, ⟨0xffff, []⟩] [⟨10, [1]⟩, ⟨11, [2]⟩, ⟨12, [3]⟩])
      ).eeprom.caught_pokemon_summary = [⟨11, [2]⟩, ⟨25, [5]⟩, ⟨0xffff, []⟩] ∧
    (pw_battle_event_loop (fun _ => 0)
        (process_state 1 [⟨0, []⟩, ⟨25, [5]⟩, ⟨0xffff, []⟩] [⟨10, [1]⟩, ⟨11, [2]⟩, ⟨12, [3]⟩])
      ).pending_sid = STATE_SPLASH ∧
    (pw_battle_event_loop (fun _ => 0)
        (process_state 1 [⟨0, []⟩, ⟨25, [5]⟩, ⟨0xffff, []⟩] [⟨10, [1]⟩, ⟨11, [2]⟩, ⟨12, [3]⟩])
      ).battle.current_substate ≠ BATTLE_SWITCH :=
  ⟨(C12_process_caught_free_slot (fun _ => 0)
      (process_state 1 [⟨0, []⟩, ⟨25, [5]⟩, ⟨0xffff, []⟩] [⟨10, [1]⟩, ⟨11, [2]⟩, ⟨12, [3]⟩])
      ⟨0, []⟩ ⟨25, [5]⟩ ⟨0xffff, []⟩ ⟨11, [2]⟩ rfl (by decide) rfl rfl (by decide)).1,
   (C12_process_caught_free_slot (fun _ => 0)
      (process_state 1 [⟨0, []⟩, ⟨25, [5]⟩, ⟨0xffff, []⟩] [⟨10, [1]⟩, ⟨11, [2]⟩, ⟨12, [3]⟩])
      ⟨0, []⟩ ⟨25, [5]⟩ ⟨0xffff, []⟩ ⟨11, [2]⟩ rfl (by decide) rfl rfl (by decide)).2.2.1,
   (C12_process_caught_free_slot (fun _ => 0)
      (process_state 1 [⟨0, []⟩, ⟨25, [5]⟩, ⟨0xffff, []⟩] [⟨10, [1]⟩, ⟨11, [2]⟩, ⟨12, [3]⟩])
      ⟨0, []⟩ ⟨25, [5]⟩ ⟨0xffff, []⟩ ⟨11, [2]⟩ rfl (by decide) rfl rfl (by decide)).2.2.2.2⟩

/-- C13: a tick in ProcessCaughtPokemon for a normal creature (`chosen_pokemon < 3`) with the
roster `[p0, p1, p2]` of which no slot is empty: the substate becomes Switch (redraw requested,
`prev_switch_cursor` set to `0xff`), the store is unchanged (no write) and the pending state is
unchanged (no exit). -/
theorem C13_process_caught_roster_full (rand : Nat → Nat) (m : Machine)
    (p0 p1 p2 : pokemon_summary_t)
    (hsub : m.battle.current_substate = BATTLE_PROCESS_CAUGHT_POKEMON)
    (hch : m.battle.chosen_pokemon < 3)
    (hros : m.eeprom.caught_pokemon_summary = [p0, p1, p2])
    (hfull : species_empty p0 = false ∧ species_empty p1 = false ∧ species_empty p2 = false) :
    (pw_battle_event_loop rand m).battle.current_substate = BATTLE_SWITCH ∧
    (pw_battle_event_loop rand m).battle.previous_substate = BATTLE_PROCESS_CAUGHT_POKEMON ∧
    (pw_battle_event_loop rand m).redraw = true ∧
    (pw_battle_event_loop rand m).eeprom = m.eeprom ∧
    (pw_battle_event_loop rand m).eeprom.writes = m.eeprom.writes ∧
    (pw_battle_event_loop rand m).pending_sid = m.pending_sid := by
  have hnot : ¬ (m.battle.chosen_pokemon ≥ 3) := by omega
  rw [event_loop_process rand m hsub]
  simp [battle_process_caught_pokemon, hnot, hros, first_empty_slot_eq, hfull.1, hfull.2.1,
    hfull.2.2, pw_battle_switch_substate, hsub]

/-- C13 for `chosen_pokemon = 1` and a roster of three filled slots. -/
theorem C13_process_caught_roster_full_witness :
    (pw_battle_event_loop (fun _ => 0)
        (process_state 1 [⟨7, []⟩, ⟨25, [5]⟩, ⟨300, []⟩] [⟨10, [1]⟩, ⟨11, [2]⟩, ⟨12, [3]⟩])
      ).battle.current_substate = BATTLE_SWITCH ∧
    (pw_battle_event_loop (fun _ => 0)
        (process_state 1 [⟨7, []⟩, ⟨25, [5]⟩, ⟨300, []⟩] [⟨10, [1]⟩, ⟨11, [2]⟩, ⟨12, [3]⟩])
      ).eeprom.caught_pokemon_summary = [⟨7, []⟩, ⟨25, [5]⟩, ⟨300, []⟩] :=
  ⟨(C13_process_caught_roster_full (fun _ => 0)
      (process_state 1 [⟨7, []⟩, ⟨25, [5]⟩, ⟨300, []⟩] [⟨10, [1]⟩, ⟨11, [2]⟩, ⟨12, [3]⟩])
      ⟨7, []⟩ ⟨25, [5]⟩ ⟨300, []⟩ rfl (by decide) rfl (by decide)).1,
   congrArg eeprom_t.caught_pokemon_summary
     (C13_process_caught_roster_full (fun _ => 0)
      (process_state 1 [⟨7, []⟩, ⟨25, [5]⟩, ⟨300, []⟩] [⟨10, [1]⟩, ⟨11, [2]⟩, ⟨12, [3]⟩])
      ⟨7, []⟩ ⟨25, [5]⟩ ⟨300, []⟩ rfl (by decide) rfl (by decide)).2.2.2.1⟩

/-- C14: a tick in ProcessCaughtPokemon for an event creature (`chosen_pokemon ≥ 3`): if the
species of the event slot is `0x0000` or `0xffff`, four writes happen and after them the event
basic data, extra data, small sprite and name records each hold what the matching special-source
record holds, everything else in the store being unchanged; if the species is any other value
the store is unchanged (no write); in both cases the pending state becomes the splash state and
the battle registers are unchanged. -/
theorem C14_process_caught_event (rand : Nat → Nat) (m : Machine)
    (hsub : m.battle.current_substate = BATTLE_PROCESS_CAUGHT_POKEMON)
    (hch : m.battle.chosen_pokemon ≥ 3) :
    (species_empty m.eeprom.event_pokemon_basic_data = true →
      (pw_battle_event_loop rand m).eeprom =
        { m.eeprom with
          event_pokemon_basic_data := m.eeprom.special_pokemon_basic_data
          event_pokemon_extra_data := m.eeprom.special_pokemon_extra_data
          img_event_pokemon_small_animated := m.eeprom.img_special_pokemon_small_animated
          text_event_pokemon_name := m.eeprom.text_special_pokemon_name
          writes := m.eeprom.writes + 4 }) ∧
    (species_empty m.eeprom.event_pokemon_basic_data = false →
      (pw_battle_event_loop rand m).eeprom = m.eeprom) ∧
    (pw_battle_event_loop rand m).pending_sid = STATE_SPLASH ∧
    (pw_battle_event_loop rand m).battle = m.battle := by
  rw [event_loop_process rand m hsub]
  by_cases he : species_empty m.eeprom.event_pokemon_basic_data = true
  · simp [battle_process_caught_pokemon, hch, he]
  · simp [battle_process_caught_pokemon, hch, he]

/-- C14 for `chosen_pokemon = 3`: with an empty event slot (species `0xffff`) the four
special-source records are copied; with an occupied one (species 151) nothing is written. -/
theorem C14_process_caught_event_witness :
    ((pw_battle_event_loop (fun _ => 0)
        (event_state ⟨0xffff, []⟩ ⟨493, [9]⟩ [1, 2] [3, 4] [5, 6])).eeprom.event_pokemon_basic_data
        = ⟨493, [9]⟩ ∧
      (pw_battle_event_loop (fun _ => 0)
        (event_state ⟨0xffff, []⟩ ⟨493, [9]⟩ [1, 2] [3, 4] [5, 6])).eeprom.event_pokemon_extra_data
        = [1, 2] ∧
      (pw_battle_event_loop (fun _ => 0)
        (event_state ⟨0xffff, []⟩ ⟨493, [9]⟩ [1, 2] [3, 4] [5, 6])).eeprom.writes = 4) ∧
    (pw_battle_event_loop (fun _ => 0)
        (event_state ⟨151, []⟩ ⟨493, [9]⟩ [1, 2] [3, 4] [5, 6])).eeprom.writes = 0 ∧
    (pw_battle_event_loop (fun _ => 0)
        (event_state ⟨151, []⟩ ⟨493, [9]⟩ [1, 2] [3, 4] [5, 6])).pending_sid = STATE_SPLASH :=
  ⟨⟨congrArg eeprom_t.event_pokemon_basic_data
      ((C14_process_caught_event (fun _ => 0)
        (event_state ⟨0xffff, []⟩ ⟨493, [9]⟩ [1, 2] [3, 4] [5, 6]) rfl (by decide)).1 (by decide)),
    congrArg eeprom_t.event_pokemon_extra_data
      ((C14_process_caught_event (fun _ => 0)
        (event_state ⟨0xffff, []⟩ ⟨493, [9]⟩ [1, 2] [3, 4] [5, 6]) rfl (by decide)).1 (by decide)),
    congrArg eeprom_t.writes
      ((C14_process_caught_event (fun _ => 0)
        (event_state ⟨0xffff, []⟩ ⟨493, [9]⟩ [1, 2] [3, 4] [5, 6]) rfl (by decide)).1 (by decide))⟩,
   congrArg eeprom_t.writes
      ((C14_process_caught_event (fun _ => 0)
        (event_state ⟨151, []⟩ ⟨493, [9]⟩ [1, 2] [3, 4] [5, 6]) rfl (by decide)).2.1 (by decide)),
   (C14_process_caught_event (fun _ => 0)
        (event_state ⟨151, []⟩ ⟨493, [9]⟩ [1, 2] [3, 4] [5, 6]) rfl (by decide)).2.2.1⟩

/-! ## C15, C16, C17, C18: the Switch substate -/

theorem switch_ne : BATTLE_SWITCH ≠ BATTLE_APPEARED ∧ BATTLE_SWITCH ≠ BATTLE_CHOOSING ∧
    BATTLE_SWITCH ≠ BATTLE_POKEMON_CAUGHT ∧ BATTLE_SWITCH ≠ BATTLE_THEY_FLED ∧
    BATTLE_SWITCH ≠ BATTLE_WE_LOST ∧ BATTLE_SWITCH ≠ BATTLE_GO_TO_SPLASH ∧
    BUTTON_M ≠ BUTTON_L ∧ BUTTON_M ≠ BUTTON_R ∧ BUTTON_R ≠ BUTTON_L := by
  decide

/-- Confirm in Switch, unfolded: one record, the route record, is stored at the start of the
roster, whatever the cursor; the substate becomes GoToSplash by direct assignment. -/
theorem switch_confirm_eq (m : Machine) (hsub : m.battle.current_substate = BATTLE_SWITCH) :
    pw_battle_handle_input m BUTTON_M =
      { m with
        eeprom := { m.eeprom with
          caught_pokemon_summary := m.eeprom.caught_pokemon_summary.set 0
            (m.eeprom.route_pokemon.getD m.battle.chosen_pokemon ⟨0, []⟩)
          writes := m.eeprom.writes + 1 }
        battle := { m.battle with current_substate := BATTLE_GO_TO_SPLASH } } := by
  have h := switch_ne
  simp [pw_battle_handle_input, hsub, h.1, h.2.1, h.2.2.1, h.2.2.2.1, h.2.2.2.2.1,
    h.2.2.2.2.2.2.1, h.2.2.2.2.2.2.2.1]

/-- C15, the code on every state in Switch with roster `[p0, p1, p2]` and route record `r` for
the chosen creature: Confirm stores `r` at `PW_EEPROM_ADDR_CAUGHT_POKEMON_SUMMARY`, the start of
the roster, so the roster becomes `[r, p1, p2]` whatever `switch_cursor` is; with the cursor on
slot 1 or 2 the picked entry is left as it was and entry 0 is replaced. -/
theorem C15_switch_confirm_always_slot_zero (m : Machine) (p0 p1 p2 r : pokemon_summary_t)
    (hsub : m.battle.current_substate = BATTLE_SWITCH)
    (hros : m.eeprom.caught_pokemon_summary = [p0, p1, p2])
    (hroute : m.eeprom.route_pokemon[m.battle.chosen_pokemon]? = some r) :
    (pw_battle_handle_input m BUTTON_M).eeprom.caught_pokemon_summary = [r, p1, p2] ∧
    (pw_battle_handle_input m BUTTON_M).battle.switch_cursor = m.battle.switch_cursor := by
  rw [switch_confirm_eq m hsub]
  simp [hros, hroute]

/-- C15 with the cursor on slot 2, roster [7, 25, 300] and route record 11 for the chosen
creature: the roster becomes [11, 25, 300], not [7, 25, 11]. -/
theorem C15_switch_confirm_always_slot_zero_witness :
    (pw_battle_handle_input
        (switch_state 2 1 [⟨7, []⟩, ⟨25, [5]⟩, ⟨300, []⟩] [⟨10, [1]⟩, ⟨11, [2]⟩, ⟨12, [3]⟩])
        BUTTON_M).eeprom.caught_pokemon_summary = [⟨11, [2]⟩, ⟨25, [5]⟩, ⟨300, []⟩] ∧
    (pw_battle_handle_input
        (switch_state 2 1 [⟨7, []⟩, ⟨25, [5]⟩, ⟨300, []⟩] [⟨10, [1]⟩, ⟨11, [2]⟩, ⟨12, [3]⟩])
        BUTTON_M).eeprom.caught_pokemon_summary ≠ [⟨7, []⟩, ⟨25, [5]⟩, ⟨11, [2]⟩] :=
  ⟨(C15_switch_confirm_always_slot_zero
      (switch_state 2 1 [⟨7, []⟩, ⟨25, [5]⟩, ⟨300, []⟩] [⟨10, [1]⟩, ⟨11, [2]⟩, ⟨12, [3]⟩])
      ⟨7, []⟩ ⟨25, [5]⟩ ⟨300, []⟩ ⟨11, [2]⟩ rfl rfl rfl).1,
   by
    rw [(C15_switch_confirm_always_slot_zero
      (switch_state 2 1 [⟨7, []⟩, ⟨25, [5]⟩, ⟨300, []⟩] [⟨10, [1]⟩, ⟨11, [2]⟩, ⟨12, [3]⟩])
      ⟨7, []⟩ ⟨25, [5]⟩ ⟨300, []⟩ ⟨11, [2]⟩ rfl rfl rfl).1]
    decide⟩

/-- C16 as stated fails: with the roster [7, 25, 300] Confirm in Switch does not leave the
roster unmodified, the record is written into the roster itself. -/
theorem C16_switch_confirm_counterexample :
    ¬ ((pw_battle_handle_input
          (switch_state 0 1 [⟨7, []⟩, ⟨25, [5]⟩, ⟨300, []⟩] [⟨10, [1]⟩, ⟨11, [2]⟩, ⟨12, [3]⟩])
          BUTTON_M).eeprom.writes = 1 ∧
        (pw_battle_handle_input
          (switch_state 0 1 [⟨7, []⟩, ⟨25, [5]⟩, ⟨300, []⟩] [⟨10, [1]⟩, ⟨11, [2]⟩, ⟨12, [3]⟩])
          BUTTON_M).eeprom.caught_pokemon_summary = [⟨7, []⟩, ⟨25, [5]⟩, ⟨300, []⟩] ∧
        (pw_battle_handle_input
          (switch_state 0 1 [⟨7, []⟩, ⟨25, [5]⟩, ⟨300, []⟩] [⟨10, [1]⟩, ⟨11, [2]⟩, ⟨12, [3]⟩])
          BUTTON_M).battle.current_substate = BATTLE_GO_TO_SPLASH) := by
  decide

/-- C16, amended: Confirm in Switch performs exactly one write, of one creature record, the
route record `r` for the chosen creature, at the storage location of the 3-slot roster that
ProcessCaughtPokemon scans and writes: one roster slot holds `r` afterwards and the other two
are kept, nothing else in the store changes; then the substate is GoToSplash, the other battle
registers being unchanged. -/
theorem C16_switch_confirm_writes_roster (m : Machine) (p0 p1 p2 r : pokemon_summary_t)
    (hsub : m.battle.current_substate = BATTLE_SWITCH)
    (hros : m.eeprom.caught_pokemon_summary = [p0, p1, p2])
    (hroute : m.eeprom.route_pokemon[m.battle.chosen_pokemon]? = some r) :
    (pw_battle_handle_input m BUTTON_M).eeprom.writes = m.eeprom.writes + 1 ∧
    (∃ i, i < 3 ∧
      (pw_battle_handle_input m BUTTON_M).eeprom.caught_pokemon_summary = [p0, p1, p2].set i r) ∧
    (pw_battle_handle_input m BUTTON_M).eeprom =
      { m.eeprom with
        caught_pokemon_summary :=
          (pw_battle_handle_input m BUTTON_M).eeprom.caught_pokemon_summary
        writes := m.eeprom.writes + 1 } ∧
    (pw_battle_handle_input m BUTTON_M).battle =
      { m.battle with current_substate := BATTLE_GO_TO_SPLASH } ∧
    (pw_battle_handle_input m BUTTON_M).pending_sid = m.pending_sid := by
  rw [switch_confirm_eq m hsub]
  refine ⟨rfl, ⟨0, by omega, ?_⟩, rfl, rfl, rfl⟩
  simp [hros, hroute]

/-- C16 amended, at cursor 0, roster [7, 25, 300], route record 11: one write, into the roster,
then GoToSplash. -/
theorem C16_switch_confirm_writes_roster_witness :
    (pw_battle_handle_input
        (switch_state 0 1 [⟨7, []⟩, ⟨25, [5]⟩, ⟨300, []⟩] [⟨10, [1]⟩, ⟨11, [2]⟩, ⟨12, [3]⟩])
        BUTTON_M).eeprom.writes = 1 ∧
    (pw_battle_handle_input
        (switch_state 0 1 [⟨7, []⟩, ⟨25, [5]⟩, ⟨300, []⟩] [⟨10, [1]⟩, ⟨11, [2]⟩, ⟨12, [3]⟩])
        BUTTON_M).battle.current_substate = BATTLE_GO_TO_SPLASH :=
  ⟨(C16_switch_confirm_writes_roster
      (switch_state 0 1 [⟨7, []⟩, ⟨25, [5]⟩, ⟨300, []⟩] [⟨10, [1]⟩, ⟨11, [2]⟩, ⟨12, [3]⟩])
      ⟨7, []⟩ ⟨25, [5]⟩ ⟨300, []⟩ ⟨11, [2]⟩ rfl rfl rfl).1,
   congrArg app_battle_t.current_substate
    (C16_switch_confirm_writes_roster
      (switch_state 0 1 [⟨7, []⟩, ⟨25, [5]⟩, ⟨300, []⟩] [⟨10, [1]⟩, ⟨11, [2]⟩, ⟨12, [3]⟩])
      ⟨7, []⟩ ⟨25, [5]⟩ ⟨300, []⟩ ⟨11, [2]⟩ rfl rfl rfl).2.2.2.1⟩

/-- C17, the code at cursor 0: Left in Switch stores `(0-1)%3`, which is -1 in C, into the
8-bit cursor, so the cursor after the call is 255, outside 0..2 (the substate is then
GoToSplash). -/
theorem C17_switch_cursor_leaves_range :
    (switch_state 0 1 [⟨7, []⟩, ⟨25, [5]⟩, ⟨300, []⟩] [⟨10, [1]⟩, ⟨11, [2]⟩, ⟨12, [3]⟩]
      ).battle.switch_cursor = 0 ∧
    (pw_battle_handle_input
        (switch_state 0 1 [⟨7, []⟩, ⟨25, [5]⟩, ⟨300, []⟩] [⟨10, [1]⟩, ⟨11, [2]⟩, ⟨12, [3]⟩])
        BUTTON_L).battle.switch_cursor = 255 ∧
    ¬ ((pw_battle_handle_input
        (switch_state 0 1 [⟨7, []⟩, ⟨25, [5]⟩, ⟨300, []⟩] [⟨10, [1]⟩, ⟨11, [2]⟩, ⟨12, [3]⟩])
        BUTTON_L).battle.switch_cursor ≤ 2) ∧
    (pw_battle_handle_input
        (switch_state 0 1 [⟨7, []⟩, ⟨25, [5]⟩, ⟨300, []⟩] [⟨10, [1]⟩, ⟨11, [2]⟩, ⟨12, [3]⟩])
        BUTTON_L).battle.current_substate = BATTLE_GO_TO_SPLASH := by
  decide

/-- C18: in Switch, Left at cursor 0 moves to GoToSplash and leaves the store unchanged (no
write); Left at cursor 1 or 2 decrements the cursor by one and stays in Switch; Right at cursor
0 or 1 increments it by one and stays in Switch; Right at cursor 2 changes nothing. -/
theorem C18_switch_cursor_movement (m : Machine)
    (hsub : m.battle.current_substate = BATTLE_SWITCH) :
    (m.battle.switch_cursor = 0 →
      (pw_battle_handle_input m BUTTON_L).battle.current_substate = BATTLE_GO_TO_SPLASH ∧
      (pw_battle_handle_input m BUTTON_L).eeprom = m.eeprom) ∧
    (m.battle.switch_cursor = 1 ∨ m.battle.switch_cursor = 2 →
      (pw_battle_handle_input m BUTTON_L).battle.switch_cursor + 1 = m.battle.switch_cursor ∧
      (pw_battle_handle_input m BUTTON_L).battle.current_substate = BATTLE_SWITCH ∧
      (pw_battle_handle_input m BUTTON_L).eeprom = m.eeprom) ∧
    (m.battle.switch_cursor = 0 ∨ m.battle.switch_cursor = 1 →
      (pw_battle_handle_input m BUTTON_R).battle.switch_cursor = m.battle.switch_cursor + 1 ∧
      (pw_battle_handle_input m BUTTON_R).battle.current_substate = BATTLE_SWITCH ∧
      (pw_battle_handle_input m BUTTON_R).eeprom = m.eeprom) ∧
    (m.battle.switch_cursor = 2 → pw_battle_handle_input m BUTTON_R = m) := by
  have h := switch_ne
  have c1 : cursor_left 1 = 0 := by decide
  have c2 : cursor_left 2 = 1 := by decide
  refine ⟨fun h0 => ?_, fun h12 => ?_, fun h01 => ?_, fun h2 => ?_⟩
  · simp [pw_battle_handle_input, hsub, h.1, h.2.1, h.2.2.1, h.2.2.2.1, h.2.2.2.2.1, h0]
  · rcases h12 with h1 | h1 <;>
      simp [pw_battle_handle_input, hsub, h.1, h.2.1, h.2.2.1, h.2.2.2.1, h.2.2.2.2.1, h1, c1, c2]
  · rcases h01 with h1 | h1 <;>
      simp [pw_battle_handle_input, hsub, h.1, h.2.1, h.2.2.1, h.2.2.2.1, h.2.2.2.2.1, h1,
        h.2.2.2.2.2.2.2.2, hsub]
  · simp [pw_battle_handle_input, hsub, h.1, h.2.1, h.2.2.1, h.2.2.2.1, h.2.2.2.2.1, h2,
      h.2.2.2.2.2.2.2.2]

/-- C18 at the cursors 0, 1 and 2. -/
theorem C18_switch_cursor_movement_witness :
    (pw_battle_handle_input
        (switch_state 0 1 [⟨7, []⟩, ⟨25, [5]⟩, ⟨300, []⟩] [⟨10, [1]⟩, ⟨11, [2]⟩, ⟨12, [3]⟩])
        BUTTON_L).battle.current_substate = BATTLE_GO_TO_SPLASH ∧
    (pw_battle_handle_input
        (switch_state 2 1 [⟨7, []⟩, ⟨25, [5]⟩, ⟨300, []⟩] [⟨10, [1]⟩, ⟨11, [2]⟩, ⟨12, [3]⟩])
        BUTTON_L).battle.switch_cursor + 1 = 2 ∧
    (pw_battle_handle_input
        (switch_state 1 1 [⟨7, []⟩, ⟨25, [5]⟩, ⟨300, []⟩] [⟨10, [1]⟩, ⟨11, [2]⟩, ⟨12, [3]⟩])
        BUTTON_R).battle.switch_cursor = 2 :=
  ⟨((C18_switch_cursor_movement
      (switch_state 0 1 [⟨7, []⟩, ⟨25, [5]⟩, ⟨300, []⟩] [⟨10, [1]⟩, ⟨11, [2]⟩, ⟨12, [3]⟩])
      rfl).1 rfl).1,
   ((C18_switch_cursor_movement
      (switch_state 2 1 [⟨7, []⟩, ⟨25, [5]⟩, ⟨300, []⟩] [⟨10, [1]⟩, ⟨11, [2]⟩, ⟨12, [3]⟩])
      rfl).2.1 (Or.inr rfl)).1,
   ((C18_switch_cursor_movement
      (switch_state 1 1 [⟨7, []⟩, ⟨25, [5]⟩, ⟨300, []⟩] [⟨10, [1]⟩, ⟨11, [2]⟩, ⟨12, [3]⟩])
      rfl).2.2.1 (Or.inr rfl)).1⟩

/-! ## C19, C20: the input handler outside Switch, and ignored substates -/

theorem our_action_store : ∀ a < 256, ∀ t < 2,
    get_our_action (clear_bits a OUR_ACTION_MASK ||| (t <<< OUR_ACTION_OFFSET)) = t ∧
    get_their_action (clear_bits a OUR_ACTION_MASK ||| (t <<< OUR_ACTION_OFFSET)) =
      get_their_action a ∧
    get_choice_index (clear_bits a OUR_ACTION_MASK ||| (t <<< OUR_ACTION_OFFSET)) =
      get_choice_index a := by
  decide!

theorem choosing_ne : BATTLE_CHOOSING ≠ BATTLE_APPEARED ∧ BATTLE_POKEMON_CAUGHT ≠ BATTLE_APPEARED ∧
    BATTLE_POKEMON_CAUGHT ≠ BATTLE_CHOOSING ∧ BUTTON_R ≠ BUTTON_L ∧ BUTTON_M ≠ BUTTON_L ∧
    BUTTON_M ≠ BUTTON_R := by
  decide

/-- C19: in Choosing, Left records `ourAction = Attack` and Right records `ourAction = Evade`,
each setting the queue cursor to 1 and leaving `theirAction`, the choice index, the HP register,
`anim_frame` and the substate unchanged; Middle switches to CatchSetup and leaves the action and
HP registers unchanged.  In Appeared every button switches to Choosing, and in PokemonCaught
every button switches to ProcessCaughtPokemon. -/
theorem C19_input_choosing (m : Machine) (ha : m.battle.actions < 256) :
    (m.battle.current_substate = BATTLE_CHOOSING →
      (get_our_action (pw_battle_handle_input m BUTTON_L).battle.actions = ACTION_ATTACK ∧
        (pw_battle_handle_input m BUTTON_L).battle.substate_queue_index = 1 ∧
        get_their_action (pw_battle_handle_input m BUTTON_L).battle.actions =
          get_their_action m.battle.actions ∧
        get_choice_index (pw_battle_handle_input m BUTTON_L).battle.actions =
          get_choice_index m.battle.actions ∧
        (pw_battle_handle_input m BUTTON_L).battle.current_hp = m.battle.current_hp ∧
        (pw_battle_handle_input m BUTTON_L).battle.anim_frame = m.battle.anim_frame ∧
        (pw_battle_handle_input m BUTTON_L).battle.current_substate = BATTLE_CHOOSING) ∧
      (get_our_action (pw_battle_handle_input m BUTTON_R).battle.actions = ACTION_EVADE ∧
        (pw_battle_handle_input m BUTTON_R).battle.substate_queue_index = 1 ∧
        get_their_action (pw_battle_handle_input m BUTTON_R).battle.actions =
          get_their_action m.battle.actions ∧
        get_choice_index (pw_battle_handle_input m BUTTON_R).battle.actions =
          get_choice_index m.battle.actions ∧
        (pw_battle_handle_input m BUTTON_R).battle.current_hp = m.battle.current_hp ∧
        (pw_battle_handle_input m BUTTON_R).battle.anim_frame = m.battle.anim_frame ∧
        (pw_battle_handle_input m BUTTON_R).battle.current_substate = BATTLE_CHOOSING) ∧
      ((pw_battle_handle_input m BUTTON_M).battle.current_substate = BATTLE_CATCH_SETUP ∧
        (pw_battle_handle_input m BUTTON_M).battle.actions = m.battle.actions ∧
        (pw_battle_handle_input m BUTTON_M).battle.current_hp = m.battle.current_hp)) ∧
    (m.battle.current_substate = BATTLE_APPEARED → ∀ b : Nat,
      (pw_battle_handle_input m b).battle.current_substate = BATTLE_CHOOSING) ∧
    (m.battle.current_substate = BATTLE_POKEMON_CAUGHT → ∀ b : Nat,
      (pw_battle_handle_input m b).battle.current_substate = BATTLE_PROCESS_CAUGHT_POKEMON) := by
  have h := choosing_ne
  have hl := our_action_store _ ha ACTION_ATTACK (by decide)
  have hr := our_action_store _ ha ACTION_EVADE (by decide)
  refine ⟨fun hsub => ⟨?_, ?_, ?_⟩, fun hsub b => ?_, fun hsub b => ?_⟩
  · simp only [pw_battle_handle_input, hsub, h.1, if_false, if_true]
    exact ⟨hl.1, trivial, hl.2.1, hl.2.2, trivial, trivial, trivial⟩
  · simp only [pw_battle_handle_input, hsub, h.1, h.2.2.2.1, if_false, if_true]
    exact ⟨hr.1, trivial, hr.2.1, hr.2.2, trivial, trivial, trivial⟩
  · simp only [pw_battle_handle_input, hsub, h.1, h.2.2.2.2.1, h.2.2.2.2.2, if_false, if_true,
      pw_battle_switch_substate]
    exact ⟨trivial, trivial, trivial⟩
  · simp [pw_battle_handle_input, hsub, pw_battle_switch_substate]
  · simp [pw_battle_handle_input, hsub, h.2.1, h.2.2.1, pw_battle_switch_substate]

/-- C19 in Choosing with `actions = 0xbb` (their action 3, choice index 5, our action 1):
Left gives `0xb9` (our action Attack, the other fields kept) and cursor 1. -/
theorem C19_input_choosing_witness :
    (pw_battle_handle_input (choosing_state 0xbb 0x44) BUTTON_L).battle.substate_queue_index = 1 ∧
    get_our_action (pw_battle_handle_input (choosing_state 0xbb 0x44) BUTTON_L).battle.actions =
      ACTION_ATTACK ∧
    get_our_action (pw_battle_handle_input (choosing_state 0xbb 0x44) BUTTON_R).battle.actions =
      ACTION_EVADE ∧
    (pw_battle_handle_input (choosing_state 0xbb 0x44) BUTTON_M).battle.current_substate =
      BATTLE_CATCH_SETUP :=
  ⟨(((C19_input_choosing (choosing_state 0xbb 0x44) (by decide)).1 rfl).1).2.1,
   (((C19_input_choosing (choosing_state 0xbb 0x44) (by decide)).1 rfl).1).1,
   (((C19_input_choosing (choosing_state 0xbb 0x44) (by decide)).1 rfl).2.1).1,
   (((C19_input_choosing (choosing_state 0xbb 0x44) (by decide)).1 rfl).2.2).1⟩

/-- C20: for every substate value other than Appeared, Choosing, PokemonCaught, TheyFled, WeLost
and Switch (values outside the enumeration included) and every button, the input handler
returns the machine unchanged (battle registers, request bit, pending state, store); and for
every substate value outside the enumeration the event loop returns the machine unchanged,
whatever the random source. -/
theorem C20_ignored_input_and_unknown_substates (m : Machine)
    (hin : m.battle.current_substate ∉
      [BATTLE_APPEARED, BATTLE_CHOOSING, BATTLE_POKEMON_CAUGHT, BATTLE_THEY_FLED, BATTLE_WE_LOST,
        BATTLE_SWITCH]) :
    (∀ b : Nat, pw_battle_handle_input m b = m) ∧
    (m.battle.current_substate ∉
        [BATTLE_OPENING, BATTLE_APPEARED, BATTLE_CHOOSING, BATTLE_OUR_ACTION, BATTLE_THEIR_ACTION,
          BATTLE_STAREDOWN, BATTLE_THEY_FLED, BATTLE_WE_LOST, BATTLE_CATCH_SETUP,
          BATTLE_THREW_BALL, BATTLE_CLOUD_ANIM, BATTLE_BALL_WOBBLE, BATTLE_ALMOST_HAD_IT,
          BATTLE_CATCH_STARS, BATTLE_POKEMON_CAUGHT, BATTLE_PROCESS_CAUGHT_POKEMON, BATTLE_SWITCH,
          BATTLE_GO_TO_SPLASH] →
      ∀ rand : Nat → Nat, pw_battle_event_loop rand m = m) := by
  constructor
  · intro b
    simp only [List.mem_cons, List.mem_singleton, List.not_mem_nil, or_false, not_or] at hin
    simp [pw_battle_handle_input, hin]
  · intro hout rand
    simp only [List.mem_cons, List.mem_singleton, List.not_mem_nil, or_false, not_or] at hout
    simp [pw_battle_event_loop, hout]

/-- C20 in BallWobble (input ignored) and at the substate value 200 (outside the enumeration:
input and tick both ignored). -/
theorem C20_ignored_input_and_unknown_substates_witness :
    pw_battle_handle_input (wobble_state 2) BUTTON_M = wobble_state 2 ∧
    pw_battle_handle_input (action_state 200 0x44 1) BUTTON_L = action_state 200 0x44 1 ∧
    pw_battle_event_loop (fun _ => 0) (action_state 200 0x44 1) = action_state 200 0x44 1 :=
  ⟨(C20_ignored_input_and_unknown_substates (wobble_state 2) (by decide)).1 BUTTON_M,
   (C20_ignored_input_and_unknown_substates (action_state 200 0x44 1) (by decide)).1 BUTTON_L,
   (C20_ignored_input_and_unknown_substates (action_state 200 0x44 1) (by decide)).2 (by decide)
     (fun _ => 0)⟩

/-! ## C27: the initial state -/

/-- C27: after `pw_battle_init` the substate and the previous substate are Opening, both HP
fields are 4, the action register is 0 (our action and their action Attack, choice index 0),
`anim_frame` is 4, both switch cursors are 0, and `chosen_pokemon` is left as it was (as are the
queue registers, the queue, the request bit, the pending state and the store). -/
theorem C27_initial_state (m : Machine) :
    (pw_battle_init m).battle.current_substate = BATTLE_OPENING ∧
    (pw_battle_init m).battle.previous_substate = BATTLE_OPENING ∧
    get_our_hp (pw_battle_init m).battle.current_hp = 4 ∧
    get_their_hp (pw_battle_init m).battle.current_hp = 4 ∧
    (pw_battle_init m).battle.actions = 0 ∧
    get_our_action (pw_battle_init m).battle.actions = ACTION_ATTACK ∧
    get_their_action (pw_battle_init m).battle.actions = ACTION_ATTACK ∧
    get_choice_index (pw_battle_init m).battle.actions = 0 ∧
    (pw_battle_init m).battle.anim_frame = 4 ∧
    (pw_battle_init m).battle.switch_cursor = 0 ∧
    (pw_battle_init m).battle.prev_switch_cursor = 0 ∧
    (pw_battle_init m).battle.chosen_pokemon = m.battle.chosen_pokemon ∧
    (pw_battle_init m).battle.substate_queue_index = m.battle.substate_queue_index ∧
    (pw_battle_init m).battle.substate_queue_len = m.battle.substate_queue_len ∧
    (pw_battle_init m).substate_queue = m.substate_queue ∧
    (pw_battle_init m).redraw = m.redraw ∧
    (pw_battle_init m).pending_sid = m.pending_sid ∧
    (pw_battle_init m).eeprom = m.eeprom := by
  refine ⟨rfl, rfl, ?_, ?_, rfl, ?_, ?_, ?_, rfl, rfl, rfl, rfl, rfl, rfl, rfl, rfl, rfl, rfl⟩ <;>
    simp only [pw_battle_init] <;> decide

/-! ## C24: the resolution gate -/

theorem queue_entries3 (q : List Nat) (h : q.length = 8) (a b c : Nat) :
    (((q.set 0 a).set 1 b).set 2 c)[0]? = some a ∧
    (((q.set 0 a).set 1 b).set 2 c)[1]? = some b ∧
    (((q.set 0 a).set 1 b).set 2 c)[2]? = some c ∧
    (((q.set 0 a).set 1 b).set 2 c).length = 8 := by
  match q, h with
  | [_, _, _, _, _, _, _, _], _ => simp

theorem queue_entries2 (q : List Nat) (h : q.length = 8) (a b : Nat) :
    ((q.set 0 a).set 1 b)[0]? = some a ∧ ((q.set 0 a).set 1 b)[1]? = some b ∧
    ((q.set 0 a).set 1 b).length = 8 := by
  match q, h with
  | [_, _, _, _, _, _, _, _], _ => simp

theorem queue_entries1 (q : List Nat) (h : q.length = 8) (a : Nat) :
    (q.set 0 a)[0]? = some a ∧ (q.set 0 a).length = 8 := by
  match q, h with
  | [_, _, _, _, _, _, _, _], _ => simp

theorem event_loop_choosing_case (rand : Nat → Nat) (m : Machine)
    (hsub : m.battle.current_substate = BATTLE_CHOOSING) :
    pw_battle_event_loop rand m = battle_choosing rand m := by
  simp [pw_battle_event_loop, hsub, BATTLE_CHOOSING, BATTLE_OPENING, BATTLE_APPEARED]

/-- The tick in Choosing when the gate is closed. -/
theorem choosing_gate_closed (rand : Nat → Nat) (m : Machine)
    (hsub : m.battle.current_substate = BATTLE_CHOOSING) :
    (m.battle.previous_substate ≠ BATTLE_CHOOSING →
      pw_battle_event_loop rand m =
        { m with battle := { m.battle with substate_queue_index := 0 } }) ∧
    (m.battle.previous_substate = BATTLE_CHOOSING → m.battle.substate_queue_index ≠ 1 →
      pw_battle_event_loop rand m = m) := by
  rw [event_loop_choosing_case rand m hsub]
  constructor
  · intro hp
    have hp2 : BATTLE_CHOOSING ≠ m.battle.previous_substate := fun h => hp h.symm
    simp [battle_choosing, hsub, hp2]
  · intro hp hi
    simp [battle_choosing, hsub, hp, hi]

/-- What a resolving tick leaves behind, whatever the two actions are. -/
theorem resolve_round_entry (rand : Nat → Nat) (m : Machine)
    (hsub : m.battle.current_substate = BATTLE_CHOOSING)
    (hidx : m.battle.substate_queue_index = 1)
    (hq : m.substate_queue.length = 8) :
    (resolve_round rand m).rand_calls = m.rand_calls + 1 ∧
    (resolve_round rand m).battle.substate_queue_index = 1 ∧
    (resolve_round rand m).battle.anim_frame = 0 ∧
    (resolve_round rand m).substate_queue[0]? =
      some (resolve_round rand m).battle.current_substate ∧
    ((resolve_round rand m).battle.current_substate = BATTLE_OUR_ACTION ∨
      (resolve_round rand m).battle.current_substate = BATTLE_THEIR_ACTION ∨
      (resolve_round rand m).battle.current_substate = BATTLE_STAREDOWN ∨
      (resolve_round rand m).battle.current_substate = BATTLE_THEY_FLED) ∧
    (resolve_round rand m).battle.previous_substate = BATTLE_CHOOSING ∧
    (resolve_round rand m).redraw = true := by
  have hcases :=
    decide_their_action_cases (get_choice_index m.battle.actions) (rand m.rand_calls % 100)
  simp only [resolve_round, pw_battle_switch_substate, draw_u8, hidx, hsub, queue_read]
  generalize decide_their_action (get_choice_index m.battle.actions) (rand m.rand_calls % 100) = t
    at hcases ⊢
  have e3 := queue_entries3 m.substate_queue hq
  have e2 := queue_entries2 m.substate_queue hq
  have e1 := queue_entries1 m.substate_queue hq
  have hne := action_ne
  by_cases hev : get_our_action m.battle.actions = ACTION_EVADE
  · rcases hcases with h | h | h <;> subst h
    · simp [round_matrix, hev, List.getD_eq_getElem?_getD, e3]
    · simp [round_matrix, hev, hne.1.symm, List.getD_eq_getElem?_getD, e2]
    · simp [round_matrix, hev, hne.2.1.symm, hne.2.2.1.symm, List.getD_eq_getElem?_getD, e1]
  · rcases hcases with h | h | h <;> subst h
    · simp [round_matrix, hev, List.getD_eq_getElem?_getD, e3]
    · simp [round_matrix, hev, hne.1.symm, List.getD_eq_getElem?_getD, e3]
    · simp [round_matrix, hev, hne.2.1.symm, hne.2.2.1.symm, List.getD_eq_getElem?_getD, e3]

/-- C24: a tick in Choosing resolves a round only if the queue cursor is 1 and the substate
equals the previous substate: if the substates differ the tick only resets the cursor to 0, and
if they agree but the cursor is not 1 the tick changes nothing (no draw, same HP and action
registers, same substate).  When it does resolve, one random number is drawn, and afterwards
the cursor is 1, `anim_frame` is 0 and the substate is entry 0 of the queue just planned, one of
OurAction, TheirAction, Staredown, TheyFled (previous substate Choosing, redraw requested). -/
theorem C24_resolution_gate (rand : Nat → Nat) (m : Machine)
    (hsub : m.battle.current_substate = BATTLE_CHOOSING)
    (hq : m.substate_queue.length = 8) :
    (m.battle.previous_substate ≠ m.battle.current_substate →
      pw_battle_event_loop rand m =
        { m with battle := { m.battle with substate_queue_index := 0 } }) ∧
    (m.battle.previous_substate = m.battle.current_substate →
      m.battle.substate_queue_index ≠ 1 → pw_battle_event_loop rand m = m) ∧
    (m.battle.previous_substate = m.battle.current_substate →
      m.battle.substate_queue_index = 1 →
      (pw_battle_event_loop rand m).rand_calls = m.rand_calls + 1 ∧
      (pw_battle_event_loop rand m).battle.substate_queue_index = 1 ∧
      (pw_battle_event_loop rand m).battle.anim_frame = 0 ∧
      (pw_battle_event_loop rand m).substate_queue[0]? =
        some (pw_battle_event_loop rand m).battle.current_substate ∧
      ((pw_battle_event_loop rand m).battle.current_substate = BATTLE_OUR_ACTION ∨
        (pw_battle_event_loop rand m).battle.current_substate = BATTLE_THEIR_ACTION ∨
        (pw_battle_event_loop rand m).battle.current_substate = BATTLE_STAREDOWN ∨
        (pw_battle_event_loop rand m).battle.current_substate = BATTLE_THEY_FLED) ∧
      (pw_battle_event_loop rand m).battle.previous_substate = BATTLE_CHOOSING ∧
      (pw_battle_event_loop rand m).redraw = true) := by
  rw [hsub]
  refine ⟨(choosing_gate_closed rand m hsub).1, (choosing_gate_closed rand m hsub).2, ?_⟩
  intro hp hi
  rw [event_loop_choosing rand m hsub hp hi]
  exact resolve_round_entry rand m hsub hi hq

/-- C24 on three Choosing states: fresh (previous substate Appeared, cursor 1: cursor reset
only), idle (cursor 3: unchanged) and primed (cursor 1: resolved, here to OurAction). -/
theorem C24_resolution_gate_witness :
    pw_battle_event_loop (fun _ => 55)
        { choosing_state 0 0x44 with
          battle := { (choosing_state 0 0x44).battle with previous_substate := BATTLE_APPEARED } } =
      { choosing_state 0 0x44 with
        battle := { (choosing_state 0 0x44).battle with
          previous_substate := BATTLE_APPEARED, substate_queue_index := 0 } } ∧
    pw_battle_event_loop (fun _ => 55)
        { choosing_state 0 0x44 with
          battle := { (choosing_state 0 0x44).battle with substate_queue_index := 3 } } =
      { choosing_state 0 0x44 with
        battle := { (choosing_state 0 0x44).battle with substate_queue_index := 3 } } ∧
    (pw_battle_event_loop (fun _ => 55) (choosing_state 0 0x44)).rand_calls = 1 ∧
    (pw_battle_event_loop (fun _ => 55) (choosing_state 0 0x44)).battle.anim_frame = 0 :=
  ⟨(C24_resolution_gate (fun _ => 55)
      { choosing_state 0 0x44 with
        battle := { (choosing_state 0 0x44).battle with previous_substate := BATTLE_APPEARED } }
      rfl rfl).1 (by decide),
   (C24_resolution_gate (fun _ => 55)
      { choosing_state 0 0x44 with
        battle := { (choosing_state 0 0x44).battle with substate_queue_index := 3 } }
      rfl rfl).2.1 rfl (by decide),
   ((C24_resolution_gate (fun _ => 55) (choosing_state 0 0x44) rfl rfl).2.2 rfl rfl).1,
   ((C24_resolution_gate (fun _ => 55) (choosing_state 0 0x44) rfl rfl).2.2 rfl rfl).2.2.1⟩

/-! ## C23: advancing the queue after a substate's duration -/

/-- The registers after the advance sequence, for a cursor below the 8-bit maximum. -/
theorem advance_fields (m : Machine) (hidx : m.battle.substate_queue_index < 255) :
    (advance m).battle.substate_queue_index = m.battle.substate_queue_index + 1 ∧
    (advance m).battle.anim_frame = 0 ∧
    (advance m).battle.current_substate =
      queue_read m.substate_queue (m.battle.substate_queue_index + 1) ∧
    (∀ x, m.substate_queue[m.battle.substate_queue_index]? = some x →
      (advance m).battle.current_substate = x) ∧
    (advance m).battle.previous_substate = m.battle.current_substate ∧
    (advance m).redraw = true ∧
    (advance m).substate_queue = m.substate_queue ∧
    (advance m).battle.current_hp = m.battle.current_hp ∧
    (advance m).battle.actions = m.battle.actions := by
  have hu : u8 (m.battle.substate_queue_index + 1) = m.battle.substate_queue_index + 1 := by
    unfold u8; omega
  simp only [advance, pw_battle_switch_substate, hu, queue_read]
  refine ⟨trivial, trivial, trivial, ?_, trivial, trivial, trivial, trivial, trivial⟩
  intro x hx
  simp [List.getD_eq_getElem?_getD, hx]

/-- The tick in the five substates that only wait for their duration. -/
theorem event_loop_waiting (rand : Nat → Nat) (m : Machine) :
    (m.battle.current_substate = BATTLE_THREW_BALL → pw_battle_event_loop rand m =
      advance_if (m.battle.anim_frame ≥ THREW_BALL_ANIM_LENGTH) m) ∧
    (m.battle.current_substate = BATTLE_CLOUD_ANIM → pw_battle_event_loop rand m =
      advance_if (m.battle.anim_frame ≥ CLOUD_ANIM_LENGTH) m) ∧
    (m.battle.current_substate = BATTLE_ALMOST_HAD_IT → pw_battle_event_loop rand m =
      advance_if (m.battle.anim_frame ≥ MESSAGE_DISPLAY_ANIM_LENGTH) m) ∧
    (m.battle.current_substate = BATTLE_CATCH_STARS → pw_battle_event_loop rand m =
      advance_if (m.battle.anim_frame ≥ CATCH_ANIM_LENGTH) m) ∧
    (m.battle.current_substate = BATTLE_STAREDOWN → pw_battle_event_loop rand m =
      advance_if (m.battle.anim_frame = STAREDOWN_ANIM_LENGTH) m) := by
  refine ⟨?_, ?_, ?_, ?_, ?_⟩ <;> intro hsub <;>
    simp [pw_battle_event_loop, hsub, BATTLE_PROCESS_CAUGHT_POKEMON, BATTLE_POKEMON_CAUGHT,
      BATTLE_ALMOST_HAD_IT, BATTLE_BALL_WOBBLE, BATTLE_CATCH_SETUP, BATTLE_OUR_ACTION,
      BATTLE_THEIR_ACTION, BATTLE_CHOOSING, BATTLE_OPENING, BATTLE_APPEARED, BATTLE_STAREDOWN,
      BATTLE_THEY_FLED, BATTLE_WE_LOST, BATTLE_THREW_BALL, BATTLE_CLOUD_ANIM, BATTLE_CATCH_STARS]

/-- C23: let the substate `s` with duration `d` be ThrewBall (6), CloudAnim (2), AlmostHadIt
(4), CatchStars (4), Staredown (5), or OurAction / TheirAction (9) with the HP field they check
in 1..4.  A tick with `anim_frame` below `d` leaves the whole machine unchanged; a tick with
`anim_frame` equal to `d` increments the queue cursor by exactly one, resets `anim_frame` to 0
and sets the substate to `substate_queue[cursor-1]` for the new cursor (the cursor being an
8-bit register below its maximum). -/
theorem C23_sequencer_advance (rand : Nat → Nat) (m : Machine) (s d : Nat)
    (hsd : (s, d) ∈ [(BATTLE_THREW_BALL, THREW_BALL_ANIM_LENGTH),
        (BATTLE_CLOUD_ANIM, CLOUD_ANIM_LENGTH), (BATTLE_ALMOST_HAD_IT, MESSAGE_DISPLAY_ANIM_LENGTH),
        (BATTLE_CATCH_STARS, CATCH_ANIM_LENGTH), (BATTLE_STAREDOWN, STAREDOWN_ANIM_LENGTH)] ∨
      (s = BATTLE_OUR_ACTION ∧ d = ATTACK_ANIM_LENGTH ∧
        1 ≤ get_their_hp m.battle.current_hp ∧ get_their_hp m.battle.current_hp ≤ 4) ∨
      (s = BATTLE_THEIR_ACTION ∧ d = ATTACK_ANIM_LENGTH ∧
        1 ≤ get_our_hp m.battle.current_hp ∧ get_our_hp m.battle.current_hp ≤ 4))
    (hsub : m.battle.current_substate = s)
    (hidx : m.battle.substate_queue_index < 255) :
    (m.battle.anim_frame < d → pw_battle_event_loop rand m = m) ∧
    (m.battle.anim_frame = d →
      (pw_battle_event_loop rand m).battle.substate_queue_index =
        m.battle.substate_queue_index + 1 ∧
      (pw_battle_event_loop rand m).battle.anim_frame = 0 ∧
      (pw_battle_event_loop rand m).battle.current_substate =
        queue_read (pw_battle_event_loop rand m).substate_queue
          (pw_battle_event_loop rand m).battle.substate_queue_index ∧
      (∀ x, m.substate_queue[m.battle.substate_queue_index]? = some x →
        (pw_battle_event_loop rand m).battle.current_substate = x) ∧
      (pw_battle_event_loop rand m).substate_queue = m.substate_queue) := by
  have hadv := advance_fields m hidx
  have hw := event_loop_waiting rand m
  have hfin : (m.battle.anim_frame = d → pw_battle_event_loop rand m = advance m) ∧
      (m.battle.anim_frame < d → pw_battle_event_loop rand m = m) := by
    rcases hsd with hmem | ⟨hs, hd, h1, h2⟩ | ⟨hs, hd, h1, h2⟩
    · simp only [List.mem_cons, List.mem_singleton, List.not_mem_nil, or_false, Prod.mk.injEq]
        at hmem
      rcases hmem with ⟨hs, hd⟩ | ⟨hs, hd⟩ | ⟨hs, hd⟩ | ⟨hs, hd⟩ | ⟨hs, hd⟩
      · rw [hw.1 (hsub.trans hs), hd]
        constructor <;> intro h <;> simp [advance_if, h]
      · rw [hw.2.1 (hsub.trans hs), hd]
        constructor <;> intro h <;> simp [advance_if, h]
      · rw [hw.2.2.1 (hsub.trans hs), hd]
        constructor <;> intro h <;> simp [advance_if, h]
      · rw [hw.2.2.2.1 (hsub.trans hs), hd]
        constructor <;> intro h <;> simp [advance_if, h]
      · rw [hw.2.2.2.2 (hsub.trans hs), hd]
        constructor
        · intro h
          simp [advance_if, h]
        · intro h
          have h' : m.battle.anim_frame ≠ STAREDOWN_ANIM_LENGTH := by omega
          simp [advance_if, h']
    · rw [event_loop_our_action rand m (hsub.trans hs), hd]
      have hc : ¬ (get_their_hp m.battle.current_hp = 0 ∨ get_their_hp m.battle.current_hp > 4) := by
        omega
      constructor <;> intro h
      · simp [battle_our_action, h, hc]
      · have h' : m.battle.anim_frame ≠ ATTACK_ANIM_LENGTH := by omega
        simp [battle_our_action, h']
    · rw [event_loop_their_action rand m (hsub.trans hs), hd]
      have hc : ¬ (get_our_hp m.battle.current_hp = 0 ∨ get_our_hp m.battle.current_hp > 4) := by
        omega
      constructor <;> intro h
      · simp [battle_their_action, h, hc]
      · have h' : m.battle.anim_frame ≠ ATTACK_ANIM_LENGTH := by omega
        simp [battle_their_action, h']
  refine ⟨hfin.2, fun h => ?_⟩
  rw [hfin.1 h, hadv.1, hadv.2.2.2.2.2.2.1]
  exact ⟨rfl, hadv.2.1, hadv.2.2.1, hadv.2.2.2.1, rfl⟩

/-- C23 in OurAction as first entry of the plan [OurAction, TheirAction, Choosing], both HP 4:
at frame 9 the cursor goes from 1 to 2 and the substate becomes TheirAction; one frame earlier
nothing changes. -/
theorem C23_sequencer_advance_witness :
    ((pw_battle_event_loop (fun _ => 0) (action_state BATTLE_OUR_ACTION 0x44 1)
        ).battle.substate_queue_index = 2 ∧
      (pw_battle_event_loop (fun _ => 0) (action_state BATTLE_OUR_ACTION 0x44 1)
        ).battle.anim_frame = 0 ∧
      (pw_battle_event_loop (fun _ => 0) (action_state BATTLE_OUR_ACTION 0x44 1)
        ).battle.current_substate = BATTLE_THEIR_ACTION) ∧
    pw_battle_event_loop (fun _ => 0)
        { action_state BATTLE_OUR_ACTION 0x44 1 with
          battle := { (action_state BATTLE_OUR_ACTION 0x44 1).battle with anim_frame := 8 } } =
      { action_state BATTLE_OUR_ACTION 0x44 1 with
        battle := { (action_state BATTLE_OUR_ACTION 0x44 1).battle with anim_frame := 8 } } :=
  ⟨⟨((C23_sequencer_advance (fun _ => 0) (action_state BATTLE_OUR_ACTION 0x44 1)
        BATTLE_OUR_ACTION ATTACK_ANIM_LENGTH (Or.inr (Or.inl ⟨rfl, rfl, by decide, by decide⟩))
        rfl (by decide)).2 rfl).1,
    ((C23_sequencer_advance (fun _ => 0) (action_state BATTLE_OUR_ACTION 0x44 1)
        BATTLE_OUR_ACTION ATTACK_ANIM_LENGTH (Or.inr (Or.inl ⟨rfl, rfl, by decide, by decide⟩))
        rfl (by decide)).2 rfl).2.1,
    ((C23_sequencer_advance (fun _ => 0) (action_state BATTLE_OUR_ACTION 0x44 1)
        BATTLE_OUR_ACTION ATTACK_ANIM_LENGTH (Or.inr (Or.inl ⟨rfl, rfl, by decide, by decide⟩))
        rfl (by decide)).2 rfl).2.2.2.1 BATTLE_THEIR_ACTION rfl⟩,
   (C23_sequencer_advance (fun _ => 0)
      { action_state BATTLE_OUR_ACTION 0x44 1 with
        battle := { (action_state BATTLE_OUR_ACTION 0x44 1).battle with anim_frame := 8 } }
      BATTLE_OUR_ACTION ATTACK_ANIM_LENGTH (Or.inr (Or.inl ⟨rfl, rfl, by decide, by decide⟩))
      rfl (by decide)).1 (by decide)⟩

/-! ## C29: the damage table `HP_MATRIX` against round resolution -/

/-- The HP fields after a resolving tick, for each of the six pairs of actions (our HP at
least 1, so that our field does not wrap). -/
theorem resolve_hp_fields (rand : Nat → Nat) (m : Machine)
    (ha : m.battle.actions < 256) (hhp : m.battle.current_hp < 256)
    (ho : 1 ≤ get_our_hp m.battle.current_hp) (a t : Nat)
    (haa : get_our_action m.battle.actions = a)
    (hta : get_their_action (resolve_round rand m).battle.actions = t) :
    (a = ACTION_ATTACK → t = ACTION_ATTACK →
      get_our_hp (resolve_round rand m).battle.current_hp = get_our_hp m.battle.current_hp - 1 ∧
      get_their_hp (resolve_round rand m).battle.current_hp =
        (get_their_hp m.battle.current_hp + 16 - 1) % 16) ∧
    (a = ACTION_ATTACK → t = ACTION_EVADE →
      get_our_hp (resolve_round rand m).battle.current_hp = get_our_hp m.battle.current_hp - 1 ∧
      get_their_hp (resolve_round rand m).battle.current_hp = get_their_hp m.battle.current_hp) ∧
    (a = ACTION_ATTACK → t = ACTION_SPECIAL →
      get_our_hp (resolve_round rand m).battle.current_hp = get_our_hp m.battle.current_hp - 1 ∧
      get_their_hp (resolve_round rand m).battle.current_hp =
        (get_their_hp m.battle.current_hp + 16 - 2) % 16) ∧
    (a = ACTION_EVADE → t = ACTION_ATTACK →
      get_our_hp (resolve_round rand m).battle.current_hp = get_our_hp m.battle.current_hp ∧
      get_their_hp (resolve_round rand m).battle.current_hp =
        (get_their_hp m.battle.current_hp + 16 - 1) % 16) ∧
    (a = ACTION_EVADE → t = ACTION_EVADE →
      (resolve_round rand m).battle.current_hp = m.battle.current_hp) ∧
    (a = ACTION_EVADE → t = ACTION_SPECIAL →
      (resolve_round rand m).battle.current_hp = m.battle.current_hp) := by
  rw [resolve_their_action rand m ha] at hta
  have hne := action_ne
  have hh := fun i hi j hj => hp_store _ hhp i hi j hj
  have hho := fun i hi => hp_store_our _ hhp i hi
  have hht := fun j hj => hp_store_their _ hhp j hj
  simp only [resolve_round, pw_battle_switch_substate, draw_u8, haa, hta]
  refine ⟨?_, ?_, ?_, ?_, ?_, ?_⟩ <;> intro h1 h2 <;> subst h1 <;> subst h2
  · simp only [round_matrix_attack_attack]
    exact hh 1 (by omega) 1 (by omega) ho
  · simp only [round_matrix_attack_evade]
    exact hho 1 (by omega) ho
  · simp only [round_matrix_attack_special]
    exact hh 1 (by omega) 2 (by omega) ho
  · simp only [round_matrix_evade_attack]
    exact hht 1 (by omega)
  · simp only [round_matrix_evade_evade]
    exact hp_repack _ hhp
  · simp only [round_matrix_evade_special]
    exact hp_repack _ hhp

/-- C29 as stated fails: with our Attack against their Special (choice index 0, draw 19,
both HP 4) our side loses 1 HP and the opponent 2, whereas `HP_MATRIX[Attack][Special]` is 2
and `HP_MATRIX[Special][Attack]` is 1. -/
theorem C29_damage_table_counterexample :
    get_our_action (choosing_state 0 0x44).battle.actions = ACTION_ATTACK ∧
    get_their_action (pw_battle_event_loop (fun _ => 19) (choosing_state 0 0x44)).battle.actions =
      ACTION_SPECIAL ∧
    ¬ (get_our_hp (pw_battle_event_loop (fun _ => 19) (choosing_state 0 0x44)).battle.current_hp
          + hp_matrix ACTION_ATTACK ACTION_SPECIAL =
        get_our_hp (choosing_state 0 0x44).battle.current_hp ∧
      get_their_hp (pw_battle_event_loop (fun _ => 19) (choosing_state 0 0x44)).battle.current_hp
          + hp_matrix ACTION_SPECIAL ACTION_ATTACK =
        get_their_hp (choosing_state 0 0x44).battle.current_hp) := by
  decide

/-- C29, amended: in a resolving tick with our action `a` Attack or Evade, both HP in 1..4 and
their action `t`: if `t` is Attack or Evade, our side loses `HP_MATRIX[a][t]` and the opponent
loses `HP_MATRIX[t][a]`; if `t` is Special against our Attack, the critical hit is ours, our
side loses `HP_MATRIX[Special][Attack]` = 1 and the opponent loses `HP_MATRIX[Attack][Special]`
= 2; if `t` is Special against our Evade, no HP changes.  (Losses are in the 4-bit field: the
opponent's field wraps to 15 when 2 is taken from 1.) -/
theorem C29_damage_table_amended (rand : Nat → Nat) (m : Machine) (a t : Nat)
    (hsub : m.battle.current_substate = BATTLE_CHOOSING)
    (hprev : m.battle.previous_substate = BATTLE_CHOOSING)
    (hidx : m.battle.substate_queue_index = 1)
    (hwf : WellFormed m)
    (ho : 1 ≤ get_our_hp m.battle.current_hp ∧ get_our_hp m.battle.current_hp ≤ 4)
    (ht : 1 ≤ get_their_hp m.battle.current_hp ∧ get_their_hp m.battle.current_hp ≤ 4)
    (haa : get_our_action m.battle.actions = a)
    (ha2 : a = ACTION_ATTACK ∨ a = ACTION_EVADE)
    (hta : get_their_action (pw_battle_event_loop rand m).battle.actions = t) :
    (t = ACTION_ATTACK ∨ t = ACTION_EVADE ∨ t = ACTION_SPECIAL) ∧
    (t = ACTION_ATTACK ∨ t = ACTION_EVADE →
      get_our_hp (pw_battle_event_loop rand m).battle.current_hp + hp_matrix a t =
        get_our_hp m.battle.current_hp ∧
      get_their_hp (pw_battle_event_loop rand m).battle.current_hp =
        (get_their_hp m.battle.current_hp + 16 - hp_matrix t a) % 16) ∧
    (t = ACTION_SPECIAL → a = ACTION_ATTACK →
      get_our_hp (pw_battle_event_loop rand m).battle.current_hp
          + hp_matrix ACTION_SPECIAL ACTION_ATTACK = get_our_hp m.battle.current_hp ∧
      get_their_hp (pw_battle_event_loop rand m).battle.current_hp =
        (get_their_hp m.battle.current_hp + 16 - hp_matrix ACTION_ATTACK ACTION_SPECIAL) % 16) ∧
    (t = ACTION_SPECIAL → a = ACTION_EVADE →
      (pw_battle_event_loop rand m).battle.current_hp = m.battle.current_hp) := by
  obtain ⟨hact, hhp, -, -, -⟩ := hwf
  rw [event_loop_choosing rand m hsub hprev hidx] at hta ⊢
  have key := resolve_hp_fields rand m hact hhp ho.1 a t haa hta
  have hcases : t = ACTION_ATTACK ∨ t = ACTION_EVADE ∨ t = ACTION_SPECIAL := by
    rw [← hta, resolve_their_action rand m hact]
    exact decide_their_action_cases _ _
  have m00 : hp_matrix ACTION_ATTACK ACTION_ATTACK = 1 := by decide
  have m01 : hp_matrix ACTION_ATTACK ACTION_EVADE = 1 := by decide
  have m02 : hp_matrix ACTION_ATTACK ACTION_SPECIAL = 2 := by decide
  have m10 : hp_matrix ACTION_EVADE ACTION_ATTACK = 0 := by decide
  have m11 : hp_matrix ACTION_EVADE ACTION_EVADE = 0 := by decide
  have m20 : hp_matrix ACTION_SPECIAL ACTION_ATTACK = 1 := by decide
  have hne := action_ne
  refine ⟨hcases, ?_, ?_, ?_⟩
  · intro h
    rcases ha2 with h1 | h1 <;> rcases h with h2 | h2 <;> subst h1 <;> subst h2
    · have k := key.1 rfl rfl
      rw [m00, k.1, k.2]; omega
    · have k := key.2.1 rfl rfl
      rw [m01, m10, k.1, k.2]; omega
    · have k := key.2.2.2.1 rfl rfl
      rw [m10, m01, k.1, k.2]; omega
    · have k := key.2.2.2.2.1 rfl rfl
      rw [m11, k]; omega
  · intro h2 h1
    subst h1; subst h2
    have k := key.2.2.1 rfl rfl
    rw [m20, m02, k.1, k.2]; omega
  · intro h2 h1
    subst h1; subst h2
    exact key.2.2.2.2.2 rfl rfl

/-- C29 amended, with our Attack at both HP 4 and choice index 0: draw 55 (their Attack) and
draw 19 (their Special). -/
theorem C29_damage_table_amended_witness :
    (get_our_hp (pw_battle_event_loop (fun _ => 55) (choosing_state 0 0x44)).battle.current_hp
        + hp_matrix ACTION_ATTACK ACTION_ATTACK = 4 ∧
      get_their_hp (pw_battle_event_loop (fun _ => 55) (choosing_state 0 0x44)).battle.current_hp
        = (4 + 16 - hp_matrix ACTION_ATTACK ACTION_ATTACK) % 16) ∧
    (get_our_hp (pw_battle_event_loop (fun _ => 19) (choosing_state 0 0x44)).battle.current_hp
        + hp_matrix ACTION_SPECIAL ACTION_ATTACK = 4 ∧
      get_their_hp (pw_battle_event_loop (fun _ => 19) (choosing_state 0 0x44)).battle.current_hp
        = (4 + 16 - hp_matrix ACTION_ATTACK ACTION_SPECIAL) % 16) :=
  ⟨(C29_damage_table_amended (fun _ => 55) (choosing_state 0 0x44) ACTION_ATTACK ACTION_ATTACK
      rfl rfl rfl (by decide) (by decide) (by decide) (by decide) (Or.inl rfl) (by decide)).2.1
      (Or.inl rfl),
   (C29_damage_table_amended (fun _ => 19) (choosing_state 0 0x44) ACTION_ATTACK ACTION_SPECIAL
      rfl rfl rfl (by decide) (by decide) (by decide) (by decide) (Or.inl rfl) (by decide)).2.2.1
      rfl rfl⟩

/-! ## C21: redraw requests on substate changes -/

theorem redraw_same (m n : Machine)
    (h : n.battle.current_substate = m.battle.current_substate) : RedrawContract m n :=
  fun hne => absurd h hne

theorem redraw_switch (m n : Machine) (s : Nat)
    (h : n.battle.current_substate = m.battle.current_substate) :
    RedrawContract m (pw_battle_switch_substate n s) :=
  fun _ => ⟨rfl, h⟩

theorem redraw_advance (m : Machine) : RedrawContract m (advance m) :=
  fun _ => ⟨rfl, rfl⟩

theorem redraw_advance_if (c : Bool) (m : Machine) : RedrawContract m (advance_if c m) := by
  unfold advance_if
  split_ifs
  · exact redraw_advance m
  · exact redraw_same m m rfl

theorem redraw_resolve (rand : Nat → Nat) (m n : Machine)
    (h : n.battle.current_substate = m.battle.current_substate) :
    RedrawContract m (resolve_round rand n) :=
  fun _ => ⟨rfl, h⟩

theorem redraw_choosing (rand : Nat → Nat) (m : Machine) :
    RedrawContract m (battle_choosing rand m) := by
  unfold battle_choosing
  simp only []
  split_ifs
  · exact redraw_resolve rand m _ rfl
  · exact redraw_same m _ rfl
  · exact redraw_resolve rand m _ rfl
  · exact redraw_same m _ rfl

theorem redraw_their_action (m : Machine) : RedrawContract m (battle_their_action m) := by
  unfold battle_their_action
  simp only []
  split_ifs
  · exact redraw_switch m _ _ rfl
  · exact redraw_advance m
  · exact redraw_same m m rfl

theorem redraw_our_action (m : Machine) : RedrawContract m (battle_our_action m) := by
  unfold battle_our_action
  simp only []
  split_ifs
  · exact redraw_switch m _ _ rfl
  · exact redraw_advance m
  · exact redraw_same m m rfl

theorem redraw_catch_setup (rand : Nat → Nat) (m : Machine) :
    RedrawContract m (battle_catch_setup rand m) := by
  unfold battle_catch_setup
  simp only []
  split_ifs
  · exact redraw_same m _ rfl
  · exact redraw_switch m _ _ rfl
  · exact redraw_switch m _ _ rfl

theorem redraw_ball_wobble (m : Machine) : RedrawContract m (battle_ball_wobble m) := by
  unfold battle_ball_wobble
  simp only []
  split_ifs
  · exact redraw_same m _ rfl
  · exact redraw_advance m
  · exact redraw_same m m rfl

theorem redraw_process (m : Machine) : RedrawContract m (battle_process_caught_pokemon m) := by
  unfold battle_process_caught_pokemon
  simp only []
  split_ifs
  · exact redraw_same m _ rfl
  · exact redraw_same m _ rfl
  · exact redraw_switch m _ _ rfl
  · exact redraw_same m _ rfl

/-- The tick in the substates not covered by the other case lemmas. -/
theorem event_loop_simple (rand : Nat → Nat) (m : Machine) :
    (m.battle.current_substate = BATTLE_OPENING → pw_battle_event_loop rand m =
      if m.battle.anim_frame ≤ 0 then pw_battle_switch_substate m BATTLE_APPEARED else m) ∧
    (m.battle.current_substate = BATTLE_APPEARED → pw_battle_event_loop rand m = m) ∧
    (m.battle.current_substate = BATTLE_THEY_FLED → pw_battle_event_loop rand m =
      if m.battle.anim_frame ≥ MESSAGE_DISPLAY_ANIM_LENGTH then
        { m with pending_sid := STATE_SPLASH } else m) ∧
    (m.battle.current_substate = BATTLE_WE_LOST → pw_battle_event_loop rand m =
      if m.battle.anim_frame ≥ MESSAGE_DISPLAY_ANIM_LENGTH then
        { m with pending_sid := STATE_SPLASH } else m) ∧
    (m.battle.current_substate = BATTLE_POKEMON_CAUGHT → pw_battle_event_loop rand m = m) ∧
    (m.battle.current_substate = BATTLE_SWITCH → pw_battle_event_loop rand m = m) ∧
    (m.battle.current_substate = BATTLE_GO_TO_SPLASH → pw_battle_event_loop rand m =
      { m with pending_sid := STATE_SPLASH }) ∧
    (BATTLE_GO_TO_SPLASH < m.battle.current_substate → pw_battle_event_loop rand m = m) := by
  refine ⟨?_, ?_, ?_, ?_, ?_, ?_, ?_, ?_⟩ <;> intro hsub
  · simp [pw_battle_event_loop, hsub]
  · simp [pw_battle_event_loop, hsub, BATTLE_APPEARED, BATTLE_OPENING]
  · simp [pw_battle_event_loop, hsub, BATTLE_APPEARED, BATTLE_OPENING, BATTLE_CHOOSING,
      BATTLE_THEIR_ACTION, BATTLE_OUR_ACTION, BATTLE_STAREDOWN, BATTLE_THEY_FLED]
  · simp [pw_battle_event_loop, hsub, BATTLE_APPEARED, BATTLE_OPENING, BATTLE_CHOOSING,
      BATTLE_THEIR_ACTION, BATTLE_OUR_ACTION, BATTLE_STAREDOWN, BATTLE_THEY_FLED, BATTLE_WE_LOST]
  · simp [pw_battle_event_loop, hsub, BATTLE_PROCESS_CAUGHT_POKEMON, BATTLE_POKEMON_CAUGHT,
      BATTLE_ALMOST_HAD_IT, BATTLE_BALL_WOBBLE, BATTLE_CATCH_SETUP, BATTLE_OUR_ACTION,
      BATTLE_THEIR_ACTION, BATTLE_CHOOSING, BATTLE_OPENING, BATTLE_APPEARED, BATTLE_STAREDOWN,
      BATTLE_THEY_FLED, BATTLE_WE_LOST, BATTLE_THREW_BALL, BATTLE_CLOUD_ANIM, BATTLE_CATCH_STARS]
  · simp [pw_battle_event_loop, hsub, BATTLE_PROCESS_CAUGHT_POKEMON, BATTLE_POKEMON_CAUGHT,
      BATTLE_ALMOST_HAD_IT, BATTLE_BALL_WOBBLE, BATTLE_CATCH_SETUP, BATTLE_OUR_ACTION,
      BATTLE_THEIR_ACTION, BATTLE_CHOOSING, BATTLE_OPENING, BATTLE_APPEARED, BATTLE_STAREDOWN,
      BATTLE_THEY_FLED, BATTLE_WE_LOST, BATTLE_THREW_BALL, BATTLE_CLOUD_ANIM, BATTLE_CATCH_STARS,
      BATTLE_SWITCH]
  · simp [pw_battle_event_loop, hsub, BATTLE_PROCESS_CAUGHT_POKEMON, BATTLE_POKEMON_CAUGHT,
      BATTLE_ALMOST_HAD_IT, BATTLE_BALL_WOBBLE, BATTLE_CATCH_SETUP, BATTLE_OUR_ACTION,
      BATTLE_THEIR_ACTION, BATTLE_CHOOSING, BATTLE_OPENING, BATTLE_APPEARED, BATTLE_STAREDOWN,
      BATTLE_THEY_FLED, BATTLE_WE_LOST, BATTLE_THREW_BALL, BATTLE_CLOUD_ANIM, BATTLE_CATCH_STARS,
      BATTLE_SWITCH, BATTLE_GO_TO_SPLASH]
  · have h : BATTLE_GO_TO_SPLASH < m.battle.current_substate := hsub
    unfold BATTLE_GO_TO_SPLASH at h
    have hne : ∀ k, k ≤ 17 → m.battle.current_substate ≠ k := fun k hk => by omega
    simp [pw_battle_event_loop, BATTLE_PROCESS_CAUGHT_POKEMON, BATTLE_POKEMON_CAUGHT,
      BATTLE_ALMOST_HAD_IT, BATTLE_BALL_WOBBLE, BATTLE_CATCH_SETUP, BATTLE_OUR_ACTION,
      BATTLE_THEIR_ACTION, BATTLE_CHOOSING, BATTLE_OPENING, BATTLE_APPEARED, BATTLE_STAREDOWN,
      BATTLE_THEY_FLED, BATTLE_WE_LOST, BATTLE_THREW_BALL, BATTLE_CLOUD_ANIM, BATTLE_CATCH_STARS,
      BATTLE_SWITCH, BATTLE_GO_TO_SPLASH, hne]

/-- Every substate value is one of the 18 of the enumeration or lies above them. -/
theorem substate_cases (c : Nat) :
    c = BATTLE_OPENING ∨ c = BATTLE_APPEARED ∨ c = BATTLE_CHOOSING ∨ c = BATTLE_OUR_ACTION ∨
    c = BATTLE_THEIR_ACTION ∨ c = BATTLE_STAREDOWN ∨ c = BATTLE_THEY_FLED ∨ c = BATTLE_WE_LOST ∨
    c = BATTLE_CATCH_SETUP ∨ c = BATTLE_THREW_BALL ∨ c = BATTLE_CLOUD_ANIM ∨
    c = BATTLE_BALL_WOBBLE ∨ c = BATTLE_ALMOST_HAD_IT ∨ c = BATTLE_CATCH_STARS ∨
    c = BATTLE_POKEMON_CAUGHT ∨ c = BATTLE_PROCESS_CAUGHT_POKEMON ∨ c = BATTLE_SWITCH ∨
    c = BATTLE_GO_TO_SPLASH ∨ BATTLE_GO_TO_SPLASH < c := by
  simp only [BATTLE_PROCESS_CAUGHT_POKEMON, BATTLE_POKEMON_CAUGHT,
    BATTLE_ALMOST_HAD_IT, BATTLE_BALL_WOBBLE, BATTLE_CATCH_SETUP, BATTLE_OUR_ACTION,
    BATTLE_THEIR_ACTION, BATTLE_CHOOSING, BATTLE_OPENING, BATTLE_APPEARED, BATTLE_STAREDOWN,
    BATTLE_THEY_FLED, BATTLE_WE_LOST, BATTLE_THREW_BALL, BATTLE_CLOUD_ANIM, BATTLE_CATCH_STARS,
    BATTLE_SWITCH, BATTLE_GO_TO_SPLASH]
  omega

theorem redraw_event_loop (rand : Nat → Nat) (m : Machine) :
    RedrawContract m (pw_battle_event_loop rand m) := by
  have hs := event_loop_simple rand m
  have hw := event_loop_waiting rand m
  rcases substate_cases m.battle.current_substate with
    h | h | h | h | h | h | h | h | h | h | h | h | h | h | h | h | h | h | h
  · rw [hs.1 h]
    split_ifs
    · exact redraw_switch m m _ rfl
    · exact redraw_same m m rfl
  · rw [hs.2.1 h]; exact redraw_same m m rfl
  · rw [event_loop_choosing_case rand m h]; exact redraw_choosing rand m
  · rw [event_loop_our_action rand m h]; exact redraw_our_action m
  · rw [event_loop_their_action rand m h]; exact redraw_their_action m
  · rw [hw.2.2.2.2 h]; exact redraw_advance_if _ m
  · rw [hs.2.2.1 h]
    split_ifs
    · exact redraw_same m _ rfl
    · exact redraw_same m m rfl
  · rw [hs.2.2.2.1 h]
    split_ifs
    · exact redraw_same m _ rfl
    · exact redraw_same m m rfl
  · rw [event_loop_catch_setup rand m h]; exact redraw_catch_setup rand m
  · rw [hw.1 h]; exact redraw_advance_if _ m
  · rw [hw.2.1 h]; exact redraw_advance_if _ m
  · rw [event_loop_ball_wobble rand m h]; exact redraw_ball_wobble m
  · rw [hw.2.2.1 h]; exact redraw_advance_if _ m
  · rw [hw.2.2.2.1 h]; exact redraw_advance_if _ m
  · rw [hs.2.2.2.2.1 h]; exact redraw_same m m rfl
  · rw [event_loop_process rand m h]; exact redraw_process m
  · rw [hs.2.2.2.2.2.1 h]; exact redraw_same m m rfl
  · rw [hs.2.2.2.2.2.2.1 h]; exact redraw_same m _ rfl
  · rw [hs.2.2.2.2.2.2.2 h]; exact redraw_same m m rfl

/-- The input handler either keeps the substate, or goes through `pw_battle_switch_substate`,
or assigns GoToSplash directly and leaves the request bit and `previous_substate` alone. -/
theorem handle_input_redraw (m : Machine) (b : Nat) :
    (pw_battle_handle_input m b).battle.current_substate = m.battle.current_substate ∨
    ((pw_battle_handle_input m b).battle.current_substate ≠ BATTLE_GO_TO_SPLASH ∧
      (pw_battle_handle_input m b).redraw = true ∧
      (pw_battle_handle_input m b).battle.previous_substate = m.battle.current_substate) ∨
    ((pw_battle_handle_input m b).battle.current_substate = BATTLE_GO_TO_SPLASH ∧
      (pw_battle_handle_input m b).redraw = m.redraw ∧
      (pw_battle_handle_input m b).battle.previous_substate = m.battle.previous_substate) := by
  have n1 : BATTLE_CHOOSING ≠ BATTLE_GO_TO_SPLASH := by decide
  have n2 : BATTLE_CATCH_SETUP ≠ BATTLE_GO_TO_SPLASH := by decide
  have n3 : BATTLE_PROCESS_CAUGHT_POKEMON ≠ BATTLE_GO_TO_SPLASH := by decide
  unfold pw_battle_handle_input
  simp only []
  split_ifs
  · exact Or.inr (Or.inl ⟨n1, rfl, rfl⟩)
  · exact Or.inl rfl
  · exact Or.inl rfl
  · exact Or.inr (Or.inl ⟨n2, rfl, rfl⟩)
  · exact Or.inl rfl
  · exact Or.inr (Or.inl ⟨n3, rfl, rfl⟩)
  · exact Or.inr (Or.inr ⟨rfl, rfl, rfl⟩)
  · exact Or.inr (Or.inr ⟨rfl, rfl, rfl⟩)
  · exact Or.inl rfl
  · exact Or.inl rfl
  · exact Or.inl rfl
  · exact Or.inr (Or.inr ⟨rfl, rfl, rfl⟩)
  · exact Or.inl rfl
  · exact Or.inl rfl

/-- C21 (as stated) fails for the input handler: a button press in TheyFled moves the substate
to GoToSplash by a direct assignment.  From a TheyFled state whose redraw request is clear the
request stays clear; and from the TheyFled state just entered by a tick from OurAction,
`previous_substate` still holds OurAction and not the substate that was current before the
call. -/
theorem C21_redraw_counterexample :
    ¬ RedrawContract (action_state BATTLE_THEY_FLED 0x40 1)
        (pw_battle_handle_input (action_state BATTLE_THEY_FLED 0x40 1) BUTTON_L) ∧
    ¬ ((pw_battle_handle_input
          (pw_battle_event_loop (fun _ => 0) (action_state BATTLE_OUR_ACTION 0x04 1))
          BUTTON_L).battle.current_substate ≠
        (pw_battle_event_loop (fun _ => 0)
          (action_state BATTLE_OUR_ACTION 0x04 1)).battle.current_substate →
      (pw_battle_handle_input
          (pw_battle_event_loop (fun _ => 0) (action_state BATTLE_OUR_ACTION 0x04 1))
          BUTTON_L).battle.previous_substate =
        (pw_battle_event_loop (fun _ => 0)
          (action_state BATTLE_OUR_ACTION 0x04 1)).battle.current_substate) := by
  unfold RedrawContract
  constructor <;> decide

/-- C21 (amended): every tick that changes the substate sets the redraw request and leaves the
old substate in `previous_substate`; so does every call of the input handler that changes the
substate to anything but GoToSplash.  A call of the input handler that changes the substate to
GoToSplash (from TheyFled, WeLost or Switch) leaves the redraw request and `previous_substate`
as they were. -/
theorem C21_redraw_on_transition (rand : Nat → Nat) (m : Machine) (b : Nat) :
    ((pw_battle_event_loop rand m).battle.current_substate ≠ m.battle.current_substate →
      (pw_battle_event_loop rand m).redraw = true ∧
      (pw_battle_event_loop rand m).battle.previous_substate = m.battle.current_substate) ∧
    ((pw_battle_handle_input m b).battle.current_substate ≠ m.battle.current_substate →
      (pw_battle_handle_input m b).battle.current_substate ≠ BATTLE_GO_TO_SPLASH →
      (pw_battle_handle_input m b).redraw = true ∧
      (pw_battle_handle_input m b).battle.previous_substate = m.battle.current_substate) ∧
    ((pw_battle_handle_input m b).battle.current_substate ≠ m.battle.current_substate →
      (pw_battle_handle_input m b).battle.current_substate = BATTLE_GO_TO_SPLASH →
      (pw_battle_handle_input m b).redraw = m.redraw ∧
      (pw_battle_handle_input m b).battle.previous_substate = m.battle.previous_substate) := by
  refine ⟨redraw_event_loop rand m, ?_, ?_⟩
  · intro hne hsp
    rcases handle_input_redraw m b with h | h | h
    · exact absurd h hne
    · exact h.2
    · exact absurd h.1 hsp
  · intro hne hsp
    rcases handle_input_redraw m b with h | h | h
    · exact absurd h hne
    · exact absurd hsp h.1
    · exact h.2

/-- C21 (amended) on concrete calls: the tick that leaves OurAction with the opponent at 0 HP
requests a redraw, the Middle button in Choosing requests a redraw, and a button in TheyFled
leaves the (clear) redraw request alone. -/
theorem C21_redraw_on_transition_witness :
    (pw_battle_event_loop (fun _ => 0) (action_state BATTLE_OUR_ACTION 0x04 1)).redraw = true ∧
    (pw_battle_handle_input (choosing_state 0 0x44) BUTTON_M).redraw = true ∧
    (pw_battle_handle_input (action_state BATTLE_THEY_FLED 0x40 1) BUTTON_L).redraw = false :=
  ⟨((C21_redraw_on_transition (fun _ => 0) (action_state BATTLE_OUR_ACTION 0x04 1) BUTTON_L).1
      (by decide)).1,
   ((C21_redraw_on_transition (fun _ => 0) (choosing_state 0 0x44) BUTTON_M).2.1
      (by decide) (by decide)).1,
   ((C21_redraw_on_transition (fun _ => 0) (action_state BATTLE_THEY_FLED 0x40 1) BUTTON_L).2.2
      (by decide) (by decide)).1⟩

/-! ## The invariant of the reachable states (C25, C26, C28) -/

theorem grun_fst (rand : Nat → Nat) (evs : List Event) :
    ∀ s : Machine × Nat, (grun rand s evs).1 = run rand s.1 evs := by
  induction evs with
  | nil => intro s; rfl
  | cons e evs ih =>
    intro s
    have h1 : grun rand s (e :: evs) = grun rand (gstep rand s e) evs := rfl
    have h2 : run rand s.1 (e :: evs) = run rand (step rand s.1 e) evs := rfl
    rw [h1, h2, ih]
    cases e <;> rfl

theorem grun_append (rand : Nat → Nat) (s : Machine × Nat) (evs evs2 : List Event) :
    grun rand s (evs ++ evs2) = grun rand (grun rand s evs) evs2 := by
  simp [grun, List.foldl_append]

theorem run_append (rand : Nat → Nat) (m : Machine) (evs evs2 : List Event) :
    run rand m (evs ++ evs2) = run rand (run rand m evs) evs2 := by
  simp [run, List.foldl_append]

/-- The invariant holds right after `pw_battle_init`. -/
theorem inv_init (m0 : Machine) (hq : m0.substate_queue.length = 8) :
    SeqInv (pw_battle_init m0, 0) := by
  refine ⟨⟨hq, ?_, ?_⟩, Or.inl ⟨Or.inl rfl, ?_, ?_⟩⟩
  · show 0 < 256
    decide
  · show ((4 <<< OUR_HP_OFFSET) ||| (4 <<< THEIR_HP_OFFSET)) < 256
    decide
  · show ActionsOk 0
    unfold ActionsOk; decide
  · show Healthy ((4 <<< OUR_HP_OFFSET) ||| (4 <<< THEIR_HP_OFFSET))
    unfold Healthy; decide

/-- The invariant only looks at five components of the machine. -/
theorem seqinv_of_core (m n : Machine) (g : Nat)
    (h1 : n.battle.current_substate = m.battle.current_substate)
    (h2 : n.battle.substate_queue_index = m.battle.substate_queue_index)
    (h3 : n.substate_queue = m.substate_queue)
    (h4 : n.battle.actions = m.battle.actions)
    (h5 : n.battle.current_hp = m.battle.current_hp)
    (h : SeqInv (m, g)) : SeqInv (n, g) := by
  unfold SeqInv at h ⊢
  simp only [h1, h2, h3, h4, h5]
  exact h

/-- In an early substate the invariant is the range condition. -/
theorem inv_early (c i : Nat) (q : List Nat) (a h g : Nat) (hinv : Inv6 c i q a h g)
    (hc : Early c) : ActionsOk a ∧ Healthy h := by
  obtain ⟨_, hcase⟩ := hinv
  unfold Early at hc
  unfold Terminal at hcase
  simp only [BATTLE_PROCESS_CAUGHT_POKEMON, BATTLE_POKEMON_CAUGHT,
    BATTLE_ALMOST_HAD_IT, BATTLE_BALL_WOBBLE, BATTLE_CATCH_SETUP, BATTLE_OUR_ACTION,
    BATTLE_THEIR_ACTION, BATTLE_CHOOSING, BATTLE_OPENING, BATTLE_APPEARED, BATTLE_STAREDOWN,
    BATTLE_THEY_FLED, BATTLE_WE_LOST, BATTLE_THREW_BALL, BATTLE_CLOUD_ANIM, BATTLE_CATCH_STARS,
    BATTLE_SWITCH, BATTLE_GO_TO_SPLASH] at hc hcase
  rcases hcase with h | h | h | h | h | h | h | h | h | h | h | h | h
  · exact h.2
  all_goals exfalso; omega

/-- The display update leaves the invariant alone. -/
theorem display_core (m : Machine) :
    (pw_battle_update_display m).battle.current_substate = m.battle.current_substate ∧
    (pw_battle_update_display m).battle.substate_queue_index = m.battle.substate_queue_index ∧
    (pw_battle_update_display m).substate_queue = m.substate_queue ∧
    (pw_battle_update_display m).battle.actions = m.battle.actions ∧
    (pw_battle_update_display m).battle.current_hp = m.battle.current_hp := by
  unfold pw_battle_update_display
  simp only []
  split_ifs <;> exact ⟨rfl, rfl, rfl, rfl, rfl⟩

theorem inv_display (m : Machine) (g : Nat) (h : SeqInv (m, g)) :
    SeqInv (pw_battle_update_display m, g) :=
  seqinv_of_core m _ g (display_core m).1 (display_core m).2.1 (display_core m).2.2.1
    (display_core m).2.2.2.1 (display_core m).2.2.2.2 h

/-- Storing our action keeps the action register in range. -/
theorem our_action_store_ok : ∀ a < 256, ∀ t < 2,
    clear_bits a OUR_ACTION_MASK ||| (t <<< OUR_ACTION_OFFSET) < 256 := by
  decide!

/-- What the input handler does to the five components of the invariant. -/
theorem handle_input_core (m : Machine) (b : Nat) :
    (pw_battle_handle_input m b).substate_queue = m.substate_queue ∧
    (pw_battle_handle_input m b).battle.current_hp = m.battle.current_hp ∧
    ((pw_battle_handle_input m b).battle.current_substate = m.battle.current_substate ∧
      (pw_battle_handle_input m b).battle.substate_queue_index = m.battle.substate_queue_index ∧
      (pw_battle_handle_input m b).battle.actions = m.battle.actions ∨
     Terminal m.battle.current_substate ∧
      Terminal (pw_battle_handle_input m b).battle.current_substate ∧
      (pw_battle_handle_input m b).battle.actions = m.battle.actions ∨
     Early m.battle.current_substate ∧
      Early (pw_battle_handle_input m b).battle.current_substate ∧
      ((pw_battle_handle_input m b).battle.actions = m.battle.actions ∨
       ∃ t < 2, (pw_battle_handle_input m b).battle.actions =
         clear_bits m.battle.actions OUR_ACTION_MASK ||| (t <<< OUR_ACTION_OFFSET))) := by
  generalize hn : pw_battle_handle_input m b = n
  unfold pw_battle_handle_input at hn
  simp only [] at hn
  split_ifs at hn with h1 h2 h3 h4 h5 h6 h7 h8 h9 h10 h11 h12 <;> subst hn
  · exact ⟨rfl, rfl, Or.inr (Or.inr ⟨Or.inr (Or.inl h1), Or.inr (Or.inr (Or.inl rfl)),
      Or.inl rfl⟩)⟩
  · exact ⟨rfl, rfl, Or.inr (Or.inr ⟨Or.inr (Or.inr (Or.inl h2)), Or.inr (Or.inr (Or.inl h2)),
      Or.inr ⟨ACTION_ATTACK, by decide, rfl⟩⟩)⟩
  · exact ⟨rfl, rfl, Or.inr (Or.inr ⟨Or.inr (Or.inr (Or.inl h2)), Or.inr (Or.inr (Or.inl h2)),
      Or.inr ⟨ACTION_EVADE, by decide, rfl⟩⟩)⟩
  · exact ⟨rfl, rfl, Or.inr (Or.inr ⟨Or.inr (Or.inr (Or.inl h2)), Or.inr (Or.inr (Or.inr rfl)),
      Or.inl rfl⟩)⟩
  · exact ⟨rfl, rfl, Or.inl ⟨rfl, rfl, rfl⟩⟩
  · exact ⟨rfl, rfl, Or.inr (Or.inl ⟨Or.inr (Or.inr (Or.inl h6)),
      Or.inr (Or.inr (Or.inr (Or.inl rfl))), rfl⟩)⟩
  · refine ⟨rfl, rfl, Or.inr (Or.inl ⟨?_, Or.inr (Or.inr (Or.inr (Or.inr (Or.inr rfl)))), rfl⟩)⟩
    rcases h7 with h | h
    · exact Or.inl h
    · exact Or.inr (Or.inl h)
  · exact ⟨rfl, rfl, Or.inr (Or.inl ⟨Or.inr (Or.inr (Or.inr (Or.inr (Or.inl h8)))),
      Or.inr (Or.inr (Or.inr (Or.inr (Or.inr rfl)))), rfl⟩)⟩
  · exact ⟨rfl, rfl, Or.inr (Or.inl ⟨Or.inr (Or.inr (Or.inr (Or.inr (Or.inl h8)))),
      Or.inr (Or.inr (Or.inr (Or.inr (Or.inl h8)))), rfl⟩)⟩
  · exact ⟨rfl, rfl, Or.inl ⟨rfl, rfl, rfl⟩⟩
  · exact ⟨rfl, rfl, Or.inr (Or.inl ⟨Or.inr (Or.inr (Or.inr (Or.inr (Or.inl h8)))),
      Or.inr (Or.inr (Or.inr (Or.inr (Or.inl h8)))), rfl⟩)⟩
  · exact ⟨rfl, rfl, Or.inr (Or.inl ⟨Or.inr (Or.inr (Or.inr (Or.inr (Or.inl h8)))),
      Or.inr (Or.inr (Or.inr (Or.inr (Or.inr rfl)))), rfl⟩)⟩
  · exact ⟨rfl, rfl, Or.inl ⟨rfl, rfl, rfl⟩⟩
  · exact ⟨rfl, rfl, Or.inl ⟨rfl, rfl, rfl⟩⟩

theorem inv_button (m : Machine) (b g : Nat) (h : SeqInv (m, g)) :
    SeqInv (pw_battle_handle_input m b, g) := by
  obtain ⟨hq, hhp, hc⟩ := handle_input_core m b
  rcases hc with ⟨h1, h2, h3⟩ | ⟨_, h2, h3⟩ | ⟨h1, h2, h3⟩
  · exact seqinv_of_core m _ g h1 h2 hq h3 hhp h
  · unfold SeqInv at h ⊢
    simp only [hq, hhp, h3]
    exact ⟨h.1, Or.inr (Or.inl h2)⟩
  · unfold SeqInv at h ⊢
    have he := inv_early _ _ _ _ _ _ h h1
    simp only [hq, hhp]
    rcases h3 with h3 | ⟨t, ht, h3⟩
    · simp only [h3]
      exact ⟨h.1, Or.inl ⟨h2, he⟩⟩
    · simp only [h3]
      have hs := our_action_store _ h.1.2.1 t ht
      refine ⟨⟨h.1.1, our_action_store_ok _ h.1.2.1 t ht, h.1.2.2⟩, Or.inl ⟨h2, ⟨?_, ?_⟩, he.2⟩⟩
      · rw [hs.1]; omega
      · rw [hs.2.2]; exact he.1.2

/-- The ticks that do not plan leave the ghost counter alone. -/
theorem tick_plan_none (rand : Nat → Nat) (m : Machine)
    (h1 : m.battle.current_substate ≠ BATTLE_CHOOSING)
    (h2 : m.battle.current_substate ≠ BATTLE_CATCH_SETUP) : tick_plan rand m = none := by
  simp [tick_plan, h1, h2]

theorem advance_core (m : Machine) :
    (advance m).battle.current_substate =
      queue_read m.substate_queue (u8 (m.battle.substate_queue_index + 1)) ∧
    (advance m).battle.substate_queue_index = u8 (m.battle.substate_queue_index + 1) ∧
    (advance m).substate_queue = m.substate_queue ∧
    (advance m).battle.actions = m.battle.actions ∧
    (advance m).battle.current_hp = m.battle.current_hp :=
  ⟨rfl, rfl, rfl, rfl, rfl⟩

/-- The invariant after `advance`, from the invariant of the cursor moved on by hand. -/
theorem inv_advance (m : Machine) (g k : Nat) (hk : m.battle.substate_queue_index = k)
    (hk8 : k < 8)
    (h : Inv6 (m.substate_queue.getD k 0) (k + 1) m.substate_queue m.battle.actions
      m.battle.current_hp g) : SeqInv (advance m, g) := by
  unfold SeqInv
  obtain ⟨e1, e2, e3, e4, e5⟩ := advance_core m
  have hu : u8 (k + 1) = k + 1 := by unfold u8; omega
  simp only [e1, e2, e3, e4, e5, hk, hu]
  have hr : queue_read m.substate_queue (k + 1) = m.substate_queue.getD k 0 := by
    simp [queue_read]
  rw [hr]
  exact h

/-- A tick that changes none of the five components and does not plan. -/
theorem inv_tick_same (rand : Nat → Nat) (m n : Machine) (g : Nat)
    (hc1 : m.battle.current_substate ≠ BATTLE_CHOOSING)
    (hc2 : m.battle.current_substate ≠ BATTLE_CATCH_SETUP)
    (h1 : n.battle.current_substate = m.battle.current_substate)
    (h2 : n.battle.substate_queue_index = m.battle.substate_queue_index)
    (h3 : n.substate_queue = m.substate_queue)
    (h4 : n.battle.actions = m.battle.actions)
    (h5 : n.battle.current_hp = m.battle.current_hp)
    (h : SeqInv (m, g)) : SeqInv (n, (tick_plan rand m).getD g) := by
  rw [tick_plan_none rand m hc1 hc2]
  exact seqinv_of_core m n g h1 h2 h3 h4 h5 h

theorem queue_getD3 (q : List Nat) (h : q.length = 8) (a b c : Nat) :
    queue_read (((q.set 0 a).set 1 b).set 2 c) 1 = a ∧
    (((q.set 0 a).set 1 b).set 2 c).getD 1 0 = b ∧
    (((q.set 0 a).set 1 b).set 2 c).getD 2 0 = c ∧
    (((q.set 0 a).set 1 b).set 2 c).length = 8 := by
  match q, h with
  | [_, _, _, _, _, _, _, _], _ => simp [queue_read]

theorem queue_getD2 (q : List Nat) (h : q.length = 8) (a b : Nat) :
    queue_read ((q.set 0 a).set 1 b) 1 = a ∧ ((q.set 0 a).set 1 b).getD 1 0 = b ∧
    ((q.set 0 a).set 1 b).length = 8 := by
  match q, h with
  | [_, _, _, _, _, _, _, _], _ => simp [queue_read]

theorem queue_getD1 (q : List Nat) (h : q.length = 8) (a : Nat) :
    queue_read (q.set 0 a) 1 = a ∧ (q.set 0 a).length = 8 := by
  match q, h with
  | [_, _, _, _, _, _, _, _], _ => simp [queue_read]

/-- Storing the choice index keeps the action register in range. -/
theorem choice_index_store_ok : ∀ a < 256, ∀ k < 8,
    clear_bits a CHOICE_INDEX_MASK ||| (k <<< CHOICE_INDEX_OFFSET) < 256 := by
  decide!

/-- The action register after the opponent's action `t` is stored. -/
theorem actions_ok_their (a t : Nat) (ha : a < 256) (ht : t < 3) (hok : ActionsOk a) :
    (clear_bits a THEIR_ACTION_MASK ||| ((t <<< THEIR_ACTION_OFFSET) &&& THEIR_ACTION_MASK)) < 256 ∧
    ActionsOk
      (clear_bits a THEIR_ACTION_MASK ||| ((t <<< THEIR_ACTION_OFFSET) &&& THEIR_ACTION_MASK)) := by
  have hs := their_action_store a ha t ht
  refine ⟨hs.2.2.2, ?_, ?_⟩
  · rw [hs.2.1]; exact hok.1
  · rw [hs.2.2.1]; exact hok.2

/-- The action register after the opponent's action `t` and the choice index `k` are stored. -/
theorem actions_ok_choice (a t k : Nat) (ha : a < 256) (ht : t < 3) (hk : k ≤ 3)
    (hok : ActionsOk a) :
    (clear_bits
        (clear_bits a THEIR_ACTION_MASK |||
          ((t <<< THEIR_ACTION_OFFSET) &&& THEIR_ACTION_MASK)) CHOICE_INDEX_MASK |||
      (k <<< CHOICE_INDEX_OFFSET)) < 256 ∧
    ActionsOk
      (clear_bits
        (clear_bits a THEIR_ACTION_MASK |||
          ((t <<< THEIR_ACTION_OFFSET) &&& THEIR_ACTION_MASK)) CHOICE_INDEX_MASK |||
      (k <<< CHOICE_INDEX_OFFSET)) := by
  have h1 := actions_ok_their a t ha ht hok
  have hs := choice_index_store _ h1.1 k (by omega)
  refine ⟨choice_index_store_ok _ h1.1 k (by omega), ?_, ?_⟩
  · rw [hs.2.2]; exact h1.2.1
  · rw [hs.1]; exact hk

/-- The number of entries planned by a resolving tick. -/
theorem tick_plan_resolve (rand : Nat → Nat) (m : Machine)
    (hsub : m.battle.current_substate = BATTLE_CHOOSING)
    (hprev : m.battle.previous_substate = BATTLE_CHOOSING)
    (hidx : m.battle.substate_queue_index = 1) :
    tick_plan rand m =
      if get_our_action m.battle.actions = ACTION_EVADE then
        if decide_their_action (get_choice_index m.battle.actions) (rand m.rand_calls % 100) =
            ACTION_ATTACK then some 3
        else if decide_their_action (get_choice_index m.battle.actions)
            (rand m.rand_calls % 100) = ACTION_EVADE then some 2
        else if decide_their_action (get_choice_index m.battle.actions)
            (rand m.rand_calls % 100) = ACTION_SPECIAL then some 1
        else some 0
      else some 3 := by
  simp [tick_plan, hsub, hprev, hidx, draw_u8]

theorem tick_plan_closed (rand : Nat → Nat) (m : Machine)
    (hsub : m.battle.current_substate = BATTLE_CHOOSING)
    (h : m.battle.previous_substate ≠ BATTLE_CHOOSING ∨ m.battle.substate_queue_index ≠ 1) :
    tick_plan rand m = none := by
  rcases h with h | h
  · have h2 : BATTLE_CHOOSING ≠ m.battle.previous_substate := fun e => h e.symm
    simp [tick_plan, hsub, h2]
  · simp [tick_plan, hsub, h]

/-- The invariant after a resolving tick. -/
theorem inv_resolve (rand : Nat → Nat) (m : Machine) (g : Nat)
    (hsub : m.battle.current_substate = BATTLE_CHOOSING)
    (hprev : m.battle.previous_substate = BATTLE_CHOOSING)
    (hidx : m.battle.substate_queue_index = 1)
    (h : SeqInv (m, g)) : SeqInv (resolve_round rand m, (tick_plan rand m).getD g) := by
  have h6 : Inv6 m.battle.current_substate m.battle.substate_queue_index m.substate_queue
      m.battle.actions m.battle.current_hp g := h
  show Inv6 (resolve_round rand m).battle.current_substate
    (resolve_round rand m).battle.substate_queue_index (resolve_round rand m).substate_queue
    (resolve_round rand m).battle.actions (resolve_round rand m).battle.current_hp
    ((tick_plan rand m).getD g)
  have he := inv_early _ _ _ _ _ _ h6 (Or.inr (Or.inr (Or.inl hsub)))
  obtain ⟨⟨hq, ha, hhp⟩, _⟩ := h6
  obtain ⟨hA, hH⟩ := he
  have hcases :=
    decide_their_action_cases (get_choice_index m.battle.actions) (rand m.rand_calls % 100)
  have ho : get_our_action m.battle.actions = ACTION_ATTACK ∨
      get_our_action m.battle.actions = ACTION_EVADE := by
    have := hA.1
    unfold ACTION_ATTACK ACTION_EVADE
    omega
  rw [tick_plan_resolve rand m hsub hprev hidx]
  simp only [resolve_round, pw_battle_switch_substate, draw_u8, hidx]
  generalize decide_their_action (get_choice_index m.battle.actions) (rand m.rand_calls % 100) = t
    at hcases ⊢
  have hne := action_ne
  have e3 := queue_getD3 m.substate_queue hq
  have e2 := queue_getD2 m.substate_queue hq
  have e1 := queue_getD1 m.substate_queue hq
  have hu : ∀ x, u8 x < 256 := fun x => Nat.mod_lt _ (by decide)
  rcases ho with ho | ho <;> rcases hcases with ht | ht | ht <;> subst ht <;> simp only [ho]
  · simp only [round_matrix_attack_attack]
    have hk := actions_ok_choice _ ACTION_ATTACK 1 ha hne.2.2.2.1 (by omega) ⟨hA.1, hA.2⟩
    exact ⟨⟨(e3 _ _ _).2.2.2, hk.1, hu _⟩, Or.inr (Or.inr (Or.inr (Or.inl
      ⟨(e3 _ _ _).1, rfl, (e3 _ _ _).2.1, (e3 _ _ _).2.2.1, hk.2, by simp [hne.1]⟩)))⟩
  · simp only [round_matrix_attack_evade]
    have hk := actions_ok_choice _ ACTION_EVADE 3 ha hne.2.2.2.2.1 (by omega) ⟨hA.1, hA.2⟩
    exact ⟨⟨(e3 _ _ _).2.2.2, hk.1, hu _⟩, Or.inr (Or.inr (Or.inr (Or.inl
      ⟨(e3 _ _ _).1, rfl, (e3 _ _ _).2.1, (e3 _ _ _).2.2.1, hk.2, by simp [hne.1]⟩)))⟩
  · simp only [round_matrix_attack_special]
    have hk := actions_ok_choice _ ACTION_SPECIAL 2 ha hne.2.2.2.2.2 (by omega) ⟨hA.1, hA.2⟩
    exact ⟨⟨(e3 _ _ _).2.2.2, hk.1, hu _⟩, Or.inr (Or.inr (Or.inr (Or.inl
      ⟨(e3 _ _ _).1, rfl, (e3 _ _ _).2.1, (e3 _ _ _).2.2.1, hk.2, by simp [hne.1]⟩)))⟩
  · simp only [round_matrix_evade_attack]
    have hk := actions_ok_their _ ACTION_ATTACK ha hne.2.2.2.1 ⟨hA.1, hA.2⟩
    exact ⟨⟨(e3 _ _ _).2.2.2, hk.1, hu _⟩, Or.inr (Or.inr (Or.inr (Or.inr (Or.inr (Or.inl
      ⟨(e3 _ _ _).1, rfl, (e3 _ _ _).2.1, (e3 _ _ _).2.2.1, hk.2, by simp⟩)))))⟩
  · simp only [round_matrix_evade_evade]
    have hk := actions_ok_their _ ACTION_EVADE ha hne.2.2.2.2.1 ⟨hA.1, hA.2⟩
    rw [hp_repack _ hhp]
    exact ⟨⟨(e2 _ _).2.2, hk.1, hhp⟩, Or.inr (Or.inr (Or.inl
      ⟨(e2 _ _).1, rfl, (e2 _ _).2.1, hk.2, hH, by simp [hne.1.symm]⟩))⟩
  · simp only [round_matrix_evade_special]
    have hk := actions_ok_their _ ACTION_SPECIAL ha hne.2.2.2.2.2 ⟨hA.1, hA.2⟩
    exact ⟨⟨(e1 _).2, hk.1, hu _⟩, Or.inr (Or.inl (Or.inl (e1 _).1))⟩

theorem queue_getD6 (q : List Nat) (h : q.length = 8) (a b c d e f : Nat) :
    queue_read ((((((q.set 0 a).set 1 b).set 2 c).set 3 d).set 4 e).set 5 f) 1 = a ∧
    ((((((q.set 0 a).set 1 b).set 2 c).set 3 d).set 4 e).set 5 f).getD 1 0 = b ∧
    ((((((q.set 0 a).set 1 b).set 2 c).set 3 d).set 4 e).set 5 f).getD 2 0 = c ∧
    ((((((q.set 0 a).set 1 b).set 2 c).set 3 d).set 4 e).set 5 f).getD 3 0 = d ∧
    ((((((q.set 0 a).set 1 b).set 2 c).set 3 d).set 4 e).set 5 f).getD 4 0 = e ∧
    ((((((q.set 0 a).set 1 b).set 2 c).set 3 d).set 4 e).set 5 f).getD 5 0 = f ∧
    ((((((q.set 0 a).set 1 b).set 2 c).set 3 d).set 4 e).set 5 f).length = 8 := by
  match q, h with
  | [_, _, _, _, _, _, _, _], _ => simp [queue_read]

theorem queue_getD5 (q : List Nat) (h : q.length = 8) (a b c d e : Nat) :
    queue_read (((((q.set 0 a).set 1 b).set 2 c).set 3 d).set 4 e) 1 = a ∧
    (((((q.set 0 a).set 1 b).set 2 c).set 3 d).set 4 e).getD 1 0 = b ∧
    (((((q.set 0 a).set 1 b).set 2 c).set 3 d).set 4 e).getD 2 0 = c ∧
    (((((q.set 0 a).set 1 b).set 2 c).set 3 d).set 4 e).getD 3 0 = d ∧
    (((((q.set 0 a).set 1 b).set 2 c).set 3 d).set 4 e).getD 4 0 = e ∧
    (((((q.set 0 a).set 1 b).set 2 c).set 3 d).set 4 e).length = 8 := by
  match q, h with
  | [_, _, _, _, _, _, _, _], _ => simp [queue_read]

/-- The number of entries planned by `BATTLE_CATCH_SETUP` for a positive health. -/
theorem tick_plan_catch (rand : Nat → Nat) (m : Machine)
    (hsub : m.battle.current_substate = BATTLE_CATCH_SETUP)
    (hpos : ¬ (((get_their_hp m.battle.current_hp : Nat) : Int) ≤ 0)) :
    tick_plan rand m =
      if (wobble_loop rand
          (wobble_chance_at (((get_their_hp m.battle.current_hp : Nat) : Int) - 1)) 3
          (0, true, m.rand_calls)).2.1 = true then some 6
      else some 5 := by
  have hne : BATTLE_CATCH_SETUP ≠ BATTLE_CHOOSING := by decide
  unfold tick_plan
  simp only [hsub, hne, if_false, if_true, hpos]

/-- The invariant after the tick in `BATTLE_CATCH_SETUP`. -/
theorem inv_catch_setup (rand : Nat → Nat) (m : Machine) (g : Nat)
    (hsub : m.battle.current_substate = BATTLE_CATCH_SETUP)
    (h : SeqInv (m, g)) : SeqInv (battle_catch_setup rand m, (tick_plan rand m).getD g) := by
  have h6 : Inv6 m.battle.current_substate m.battle.substate_queue_index m.substate_queue
      m.battle.actions m.battle.current_hp g := h
  show Inv6 (battle_catch_setup rand m).battle.current_substate
    (battle_catch_setup rand m).battle.substate_queue_index (battle_catch_setup rand m).substate_queue
    (battle_catch_setup rand m).battle.actions (battle_catch_setup rand m).battle.current_hp
    ((tick_plan rand m).getD g)
  have he := inv_early _ _ _ _ _ _ h6 (Or.inr (Or.inr (Or.inr hsub)))
  obtain ⟨⟨hq, ha, hhp⟩, _⟩ := h6
  have hpos := their_hp_pos_int _ he.2.2.1
  rw [tick_plan_catch rand m hsub hpos]
  simp only [battle_catch_setup, hpos, if_false, pw_battle_switch_substate]
  generalize wobble_loop rand
    (wobble_chance_at (((get_their_hp m.battle.current_hp : Nat) : Int) - 1)) 3
    (0, true, m.rand_calls) = r
  have e6 := queue_getD6 m.substate_queue hq
  have e5 := queue_getD5 m.substate_queue hq
  have hu : ∀ x, u8 x < 256 := fun x => Nat.mod_lt _ (by decide)
  by_cases hc : r.2.1 = true
  · simp only [hc, if_true]
    exact ⟨⟨(e6 _ _ _ _ _ _).2.2.2.2.2.2, hu _, hhp⟩,
      Or.inr (Or.inr (Or.inr (Or.inr (Or.inr (Or.inr (Or.inr (Or.inl
        ⟨(e6 _ _ _ _ _ _).1, rfl, (e6 _ _ _ _ _ _).2.1, (e6 _ _ _ _ _ _).2.2.1,
          Or.inl ⟨(e6 _ _ _ _ _ _).2.2.2.1, (e6 _ _ _ _ _ _).2.2.2.2.1,
            (e6 _ _ _ _ _ _).2.2.2.2.2.1, Nat.le_refl 6⟩⟩)))))))⟩
  · simp only [hc, if_false]
    exact ⟨⟨(e5 _ _ _ _ _).2.2.2.2.2, hu _, hhp⟩,
      Or.inr (Or.inr (Or.inr (Or.inr (Or.inr (Or.inr (Or.inr (Or.inl
        ⟨(e5 _ _ _ _ _).1, rfl, (e5 _ _ _ _ _).2.1, (e5 _ _ _ _ _).2.2.1,
          Or.inr ⟨(e5 _ _ _ _ _).2.2.2.1, (e5 _ _ _ _ _).2.2.2.2.1, Nat.le_refl 5⟩⟩)))))))⟩

/-- Counting a wobble keeps the action register in range. -/
theorem wobble_store_ok : ∀ a < 256,
    clear_bits a CURRENT_WOBBLE_MASK ||| u8 (u8 (a &&& (CURRENT_WOBBLE_MASK + 1)) + 1) < 256 := by
  decide!

/-- What `BATTLE_PROCESS_CAUGHT_POKEMON` does to the five components of the invariant. -/
theorem process_core (m : Machine) :
    ((battle_process_caught_pokemon m).battle.current_substate = m.battle.current_substate ∨
      (battle_process_caught_pokemon m).battle.current_substate = BATTLE_SWITCH) ∧
    (battle_process_caught_pokemon m).substate_queue = m.substate_queue ∧
    (battle_process_caught_pokemon m).battle.actions = m.battle.actions ∧
    (battle_process_caught_pokemon m).battle.current_hp = m.battle.current_hp := by
  generalize hn : battle_process_caught_pokemon m = n
  unfold battle_process_caught_pokemon at hn
  simp only [] at hn
  split_ifs at hn <;> subst hn
  · exact ⟨Or.inl rfl, rfl, rfl, rfl⟩
  · exact ⟨Or.inl rfl, rfl, rfl, rfl⟩
  · exact ⟨Or.inr rfl, rfl, rfl, rfl⟩
  · exact ⟨Or.inl rfl, rfl, rfl, rfl⟩

/-- The invariant is kept by a tick; the ghost counter follows the planning steps. -/
theorem inv_tick (rand : Nat → Nat) (m : Machine) (g : Nat) (h : SeqInv (m, g)) :
    SeqInv (pw_battle_event_loop rand m, (tick_plan rand m).getD g) := by
  have h6 : Inv6 m.battle.current_substate m.battle.substate_queue_index m.substate_queue
      m.battle.actions m.battle.current_hp g := h
  obtain ⟨hr, hcase⟩ := h6
  have hs := event_loop_simple rand m
  have hw := event_loop_waiting rand m
  rcases hcase with ⟨hc, hA, hH⟩ | hc | ⟨hc, hi, hq1, hA, hH, hg⟩ | ⟨hc, hi, hq1, hq2, hA, hg⟩ |
    ⟨hc, hi, hq2, hA, hT, hg⟩ | ⟨hc, hi, hq1, hq2, hA, hg⟩ | ⟨hc, hi, hq2, hA, hO, hg⟩ |
    ⟨hc, hi, hq1, hq2, hT⟩ | ⟨hc, hi, hq2, hT⟩ | ⟨hc, hi, hT⟩ | ⟨hc, hi, hq4, hq5, hg⟩ |
    ⟨hc, hi, hq5, hg⟩ | ⟨hc, hi, hq4, hg⟩
  · rcases hc with hc | hc | hc | hc
    · rw [hs.1 hc, tick_plan_none rand m (by rw [hc]; decide) (by rw [hc]; decide)]
      split_ifs
      · exact ⟨hr, Or.inl ⟨Or.inr (Or.inl rfl), hA, hH⟩⟩
      · exact h
    · rw [hs.2.1 hc, tick_plan_none rand m (by rw [hc]; decide) (by rw [hc]; decide)]
      exact h
    · by_cases hp : m.battle.previous_substate = BATTLE_CHOOSING
      · by_cases hi : m.battle.substate_queue_index = 1
        · rw [event_loop_choosing rand m hc hp hi]
          exact inv_resolve rand m g hc hp hi h
        · rw [(choosing_gate_closed rand m hc).2 hp hi, tick_plan_closed rand m hc (Or.inr hi)]
          exact h
      · rw [(choosing_gate_closed rand m hc).1 hp, tick_plan_closed rand m hc (Or.inl hp)]
        exact ⟨hr, Or.inl ⟨Or.inr (Or.inr (Or.inl hc)), hA, hH⟩⟩
    · rw [event_loop_catch_setup rand m hc]
      exact inv_catch_setup rand m g hc h
  · rcases hc with hc | hc | hc | hc | hc | hc
    · rw [hs.2.2.1 hc]
      split_ifs <;>
        exact inv_tick_same rand m _ g (by rw [hc]; decide) (by rw [hc]; decide)
          rfl rfl rfl rfl rfl h
    · rw [hs.2.2.2.1 hc]
      split_ifs <;>
        exact inv_tick_same rand m _ g (by rw [hc]; decide) (by rw [hc]; decide)
          rfl rfl rfl rfl rfl h
    · rw [hs.2.2.2.2.1 hc]
      exact inv_tick_same rand m _ g (by rw [hc]; decide) (by rw [hc]; decide)
        rfl rfl rfl rfl rfl h
    · rw [event_loop_process rand m hc,
        tick_plan_none rand m (by rw [hc]; decide) (by rw [hc]; decide)]
      obtain ⟨h1, h2, h3, h4⟩ := process_core m
      show Inv6 _ _ _ _ _ _
      rw [h2, h3, h4]
      refine ⟨hr, Or.inr (Or.inl ?_)⟩
      rcases h1 with h1 | h1
      · rw [h1, hc]; exact Or.inr (Or.inr (Or.inr (Or.inl rfl)))
      · rw [h1]; exact Or.inr (Or.inr (Or.inr (Or.inr (Or.inl rfl))))
    · rw [hs.2.2.2.2.2.1 hc]
      exact inv_tick_same rand m _ g (by rw [hc]; decide) (by rw [hc]; decide)
        rfl rfl rfl rfl rfl h
    · rw [hs.2.2.2.2.2.2.1 hc]
      exact inv_tick_same rand m _ g (by rw [hc]; decide) (by rw [hc]; decide)
        rfl rfl rfl rfl rfl h
  · rw [hw.2.2.2.2 hc, tick_plan_none rand m (by rw [hc]; decide) (by rw [hc]; decide)]
    unfold advance_if
    split_ifs
    · exact inv_advance m g 1 hi (by decide)
        (by rw [hq1]; exact ⟨hr, Or.inl ⟨Or.inr (Or.inr (Or.inl rfl)), hA, hH⟩⟩)
    · exact h
  · rw [event_loop_our_action rand m hc,
      tick_plan_none rand m (by rw [hc]; decide) (by rw [hc]; decide)]
    unfold battle_our_action
    simp only []
    split_ifs with h1 h2
    · exact ⟨hr, Or.inr (Or.inl (Or.inl rfl))⟩
    · refine inv_advance m g 1 hi (by decide) ?_
      rw [hq1]
      exact ⟨hr, Or.inr (Or.inr (Or.inr (Or.inr (Or.inl
        ⟨rfl, rfl, hq2, hA, ⟨by omega, by omega⟩, hg⟩))))⟩
    · exact h
  · rw [event_loop_their_action rand m hc,
      tick_plan_none rand m (by rw [hc]; decide) (by rw [hc]; decide)]
    unfold battle_their_action
    simp only []
    split_ifs with h1 h2
    · exact ⟨hr, Or.inr (Or.inl (Or.inr (Or.inl rfl)))⟩
    · refine inv_advance m g 2 hi (by decide) ?_
      rw [hq2]
      exact ⟨hr, Or.inl ⟨Or.inr (Or.inr (Or.inl rfl)), hA, ⟨by omega, by omega⟩, hT⟩⟩
    · exact h
  · rw [event_loop_their_action rand m hc,
      tick_plan_none rand m (by rw [hc]; decide) (by rw [hc]; decide)]
    unfold battle_their_action
    simp only []
    split_ifs with h1 h2
    · exact ⟨hr, Or.inr (Or.inl (Or.inr (Or.inl rfl)))⟩
    · refine inv_advance m g 1 hi (by decide) ?_
      rw [hq1]
      exact ⟨hr, Or.inr (Or.inr (Or.inr (Or.inr (Or.inr (Or.inr (Or.inl
        ⟨rfl, rfl, hq2, hA, ⟨by omega, by omega⟩, hg⟩))))))⟩
    · exact h
  · rw [event_loop_our_action rand m hc,
      tick_plan_none rand m (by rw [hc]; decide) (by rw [hc]; decide)]
    unfold battle_our_action
    simp only []
    split_ifs with h1 h2
    · exact ⟨hr, Or.inr (Or.inl (Or.inl rfl))⟩
    · refine inv_advance m g 2 hi (by decide) ?_
      rw [hq2]
      exact ⟨hr, Or.inl ⟨Or.inr (Or.inr (Or.inl rfl)), hA, hO, ⟨by omega, by omega⟩⟩⟩
    · exact h
  · rw [hw.1 hc, tick_plan_none rand m (by rw [hc]; decide) (by rw [hc]; decide)]
    unfold advance_if
    split_ifs
    · refine inv_advance m g 1 hi (by decide) ?_
      rw [hq1]
      exact ⟨hr, Or.inr (Or.inr (Or.inr (Or.inr (Or.inr (Or.inr (Or.inr (Or.inr (Or.inl
        ⟨rfl, rfl, hq2, hT⟩))))))))⟩
    · exact h
  · rw [hw.2.1 hc, tick_plan_none rand m (by rw [hc]; decide) (by rw [hc]; decide)]
    unfold advance_if
    split_ifs
    · refine inv_advance m g 2 hi (by decide) ?_
      rw [hq2]
      exact ⟨hr, Or.inr (Or.inr (Or.inr (Or.inr (Or.inr (Or.inr (Or.inr (Or.inr (Or.inr (Or.inl
        ⟨rfl, rfl, hT⟩)))))))))⟩
    · exact h
  · rw [event_loop_ball_wobble rand m hc,
      tick_plan_none rand m (by rw [hc]; decide) (by rw [hc]; decide)]
    unfold battle_ball_wobble
    simp only []
    split_ifs with h1 h2
    · exact ⟨⟨hr.1, wobble_store_ok _ hr.2.1, hr.2.2⟩,
        Or.inr (Or.inr (Or.inr (Or.inr (Or.inr (Or.inr (Or.inr (Or.inr (Or.inr (Or.inl
          ⟨hc, hi, hT⟩)))))))))⟩
    · refine inv_advance m g 3 hi (by decide) ?_
      rcases hT with ⟨t3, t4, t5, tg⟩ | ⟨t3, t4, tg⟩
      · rw [t3]
        exact ⟨hr, Or.inr (Or.inr (Or.inr (Or.inr (Or.inr (Or.inr (Or.inr (Or.inr (Or.inr
          (Or.inr (Or.inl ⟨rfl, rfl, t4, t5, tg⟩))))))))))⟩
      · rw [t3]
        exact ⟨hr, Or.inr (Or.inr (Or.inr (Or.inr (Or.inr (Or.inr (Or.inr (Or.inr (Or.inr
          (Or.inr (Or.inr (Or.inr ⟨rfl, rfl, t4, tg⟩)))))))))))⟩
    · exact h
  · rw [hw.2.1 hc, tick_plan_none rand m (by rw [hc]; decide) (by rw [hc]; decide)]
    unfold advance_if
    split_ifs
    · refine inv_advance m g 4 hi (by decide) ?_
      rw [hq4]
      exact ⟨hr, Or.inr (Or.inr (Or.inr (Or.inr (Or.inr (Or.inr (Or.inr (Or.inr (Or.inr
        (Or.inr (Or.inr (Or.inl ⟨rfl, rfl, hq5, hg⟩)))))))))))⟩
    · exact h
  · rw [hw.2.2.1 hc, tick_plan_none rand m (by rw [hc]; decide) (by rw [hc]; decide)]
    unfold advance_if
    split_ifs
    · refine inv_advance m g 5 hi (by decide) ?_
      rw [hq5]
      exact ⟨hr, Or.inr (Or.inl (Or.inl rfl))⟩
    · exact h
  · rw [hw.2.2.2.1 hc, tick_plan_none rand m (by rw [hc]; decide) (by rw [hc]; decide)]
    unfold advance_if
    split_ifs
    · refine inv_advance m g 4 hi (by decide) ?_
      rw [hq4]
      exact ⟨hr, Or.inr (Or.inl (Or.inr (Or.inr (Or.inl rfl))))⟩
    · exact h

/-- The invariant is kept by every event. -/
theorem inv_gstep (rand : Nat → Nat) (s : Machine × Nat) (e : Event) (h : SeqInv s) :
    SeqInv (gstep rand s e) := by
  obtain ⟨m, g⟩ := s
  cases e with
  | tick => exact inv_tick rand m g h
  | display => exact inv_display m g h
  | button b => exact inv_button m b g h

/-- The invariant is kept by every sequence of events. -/
theorem inv_grun (rand : Nat → Nat) (evs : List Event) :
    ∀ s : Machine × Nat, SeqInv s → SeqInv (grun rand s evs) := by
  induction evs with
  | nil => intro s h; exact h
  | cons e evs ih => intro s h; exact ih _ (inv_gstep rand s e h)

/-- The invariant holds in every state reached from `pw_battle_init`. -/
theorem inv_reachable (rand : Nat → Nat) (m0 : Machine) (evs : List Event)
    (hq : m0.substate_queue.length = 8) : SeqInv (grun rand (pw_battle_init m0, 0) evs) :=
  inv_grun rand evs _ (inv_init m0 hq)

theorem tick_read_choosing (m : Machine) (i : Nat)
    (hc : m.battle.current_substate = BATTLE_CHOOSING) (h : tick_read m = some i) :
    m.battle.previous_substate = BATTLE_CHOOSING ∧ m.battle.substate_queue_index = 1 ∧ i = 1 := by
  simp [tick_read, hc] at h
  exact ⟨h.1.symm, h.2.1, by omega⟩

theorem tick_read_catch (m : Machine) (i : Nat)
    (hc : m.battle.current_substate = BATTLE_CATCH_SETUP) (h : tick_read m = some i) :
    i = 1 := by
  simp [tick_read, hc, BATTLE_CATCH_SETUP, BATTLE_OUR_ACTION, BATTLE_THEIR_ACTION,
    BATTLE_CHOOSING, BATTLE_STAREDOWN] at h
  exact h.2.symm

/-- In the substates that end with `substate_queue_index++` the read follows the increment. -/
theorem tick_read_seq (m : Machine) (i : Nat)
    (hc : m.battle.current_substate = BATTLE_THEIR_ACTION ∨
      m.battle.current_substate = BATTLE_OUR_ACTION ∨
      m.battle.current_substate = BATTLE_STAREDOWN ∨
      m.battle.current_substate = BATTLE_THREW_BALL ∨
      m.battle.current_substate = BATTLE_CLOUD_ANIM ∨
      m.battle.current_substate = BATTLE_BALL_WOBBLE ∨
      m.battle.current_substate = BATTLE_ALMOST_HAD_IT ∨
      m.battle.current_substate = BATTLE_CATCH_STARS)
    (h : tick_read m = some i) : i = u8 (m.battle.substate_queue_index + 1) := by
  rcases hc with hc | hc | hc | hc | hc | hc | hc | hc <;>
    simp [tick_read, hc, BATTLE_PROCESS_CAUGHT_POKEMON, BATTLE_POKEMON_CAUGHT,
      BATTLE_ALMOST_HAD_IT, BATTLE_BALL_WOBBLE, BATTLE_CATCH_SETUP, BATTLE_OUR_ACTION,
      BATTLE_THEIR_ACTION, BATTLE_CHOOSING, BATTLE_OPENING, BATTLE_APPEARED, BATTLE_STAREDOWN,
      BATTLE_THEY_FLED, BATTLE_WE_LOST, BATTLE_THREW_BALL, BATTLE_CLOUD_ANIM,
      BATTLE_CATCH_STARS, BATTLE_SWITCH, BATTLE_GO_TO_SPLASH] at h <;>
    first | exact h.2.2.symm | exact h.2.symm

/-- No read is made before the first decision nor after the plan has been left. -/
theorem tick_read_none (m : Machine) (i : Nat)
    (hc : m.battle.current_substate = BATTLE_OPENING ∨
      m.battle.current_substate = BATTLE_APPEARED ∨ Terminal m.battle.current_substate)
    (h : tick_read m = some i) : False := by
  unfold Terminal at hc
  rcases hc with hc | hc | hc | hc | hc | hc | hc | hc <;>
    simp [tick_read, hc, BATTLE_PROCESS_CAUGHT_POKEMON, BATTLE_POKEMON_CAUGHT,
      BATTLE_ALMOST_HAD_IT, BATTLE_BALL_WOBBLE, BATTLE_CATCH_SETUP, BATTLE_OUR_ACTION,
      BATTLE_THEIR_ACTION, BATTLE_CHOOSING, BATTLE_OPENING, BATTLE_APPEARED, BATTLE_STAREDOWN,
      BATTLE_THEY_FLED, BATTLE_WE_LOST, BATTLE_THREW_BALL, BATTLE_CLOUD_ANIM,
      BATTLE_CATCH_STARS, BATTLE_SWITCH, BATTLE_GO_TO_SPLASH] at h

/-- The entry that the tick reads lies inside the queue and among the entries written by the
most recent planning step, under the invariant. -/
theorem read_safe (rand : Nat → Nat) (m : Machine) (g i : Nat) (h : SeqInv (m, g))
    (hread : tick_read m = some i) :
    1 ≤ i ∧ i ≤ 8 ∧ i ≤ (tick_plan rand m).getD g := by
  have h6 : Inv6 m.battle.current_substate m.battle.substate_queue_index m.substate_queue
      m.battle.actions m.battle.current_hp g := h
  obtain ⟨hr, hcase⟩ := h6
  have hseq : ∀ k, m.battle.substate_queue_index = k → k < 8 →
      i = u8 (m.battle.substate_queue_index + 1) → i = k + 1 := by
    intro k hk hk8 hi
    rw [hi, hk]; unfold u8; omega
  rcases hcase with ⟨hc, hA, hH⟩ | hc | ⟨hc, hi, hq1, hA, hH, hg⟩ | ⟨hc, hi, hq1, hq2, hA, hg⟩ |
    ⟨hc, hi, hq2, hA, hT, hg⟩ | ⟨hc, hi, hq1, hq2, hA, hg⟩ | ⟨hc, hi, hq2, hA, hO, hg⟩ |
    ⟨hc, hi, hq1, hq2, hT⟩ | ⟨hc, hi, hq2, hT⟩ | ⟨hc, hi, hT⟩ | ⟨hc, hi, hq4, hq5, hg⟩ |
    ⟨hc, hi, hq5, hg⟩ | ⟨hc, hi, hq4, hg⟩
  · rcases hc with hc | hc | hc | hc
    · exact (tick_read_none m i (Or.inl hc) hread).elim
    · exact (tick_read_none m i (Or.inr (Or.inl hc)) hread).elim
    · obtain ⟨hp, hi, h1⟩ := tick_read_choosing m i hc hread
      have hcases :=
        decide_their_action_cases (get_choice_index m.battle.actions) (rand m.rand_calls % 100)
      have hne := action_ne
      rw [tick_plan_resolve rand m hc hp hi, h1]
      refine ⟨by omega, by omega, ?_⟩
      by_cases ho : get_our_action m.battle.actions = ACTION_EVADE
      · rcases hcases with ht | ht | ht
        · simp [ho, ht]
        · simp [ho, ht, hne.1.symm]
        · simp [ho, ht, hne.2.1.symm, hne.2.2.1.symm]
      · simp [ho]
    · have h1 := tick_read_catch m i hc hread
      have hpos := their_hp_pos_int _ hH.2.1
      rw [tick_plan_catch rand m hc hpos, h1]
      refine ⟨by omega, by omega, ?_⟩
      split_ifs <;> simp
  · exact (tick_read_none m i (Or.inr (Or.inr hc)) hread).elim
  · have h1 := hseq 1 hi (by omega) (tick_read_seq m i (by simp [hc]) hread)
    rw [tick_plan_none rand m (by rw [hc]; decide) (by rw [hc]; decide)]
    simp only [Option.getD_none]
    omega
  · have h1 := hseq 1 hi (by omega) (tick_read_seq m i (by simp [hc]) hread)
    rw [tick_plan_none rand m (by rw [hc]; decide) (by rw [hc]; decide)]
    simp only [Option.getD_none]
    omega
  · have h1 := hseq 2 hi (by omega) (tick_read_seq m i (by simp [hc]) hread)
    rw [tick_plan_none rand m (by rw [hc]; decide) (by rw [hc]; decide)]
    simp only [Option.getD_none]
    omega
  · have h1 := hseq 1 hi (by omega) (tick_read_seq m i (by simp [hc]) hread)
    rw [tick_plan_none rand m (by rw [hc]; decide) (by rw [hc]; decide)]
    simp only [Option.getD_none]
    omega
  · have h1 := hseq 2 hi (by omega) (tick_read_seq m i (by simp [hc]) hread)
    rw [tick_plan_none rand m (by rw [hc]; decide) (by rw [hc]; decide)]
    simp only [Option.getD_none]
    omega
  · have h1 := hseq 1 hi (by omega) (tick_read_seq m i (by simp [hc]) hread)
    rw [tick_plan_none rand m (by rw [hc]; decide) (by rw [hc]; decide)]
    simp only [Option.getD_none]
    unfold CatchTail at hT
    omega
  · have h1 := hseq 2 hi (by omega) (tick_read_seq m i (by simp [hc]) hread)
    rw [tick_plan_none rand m (by rw [hc]; decide) (by rw [hc]; decide)]
    simp only [Option.getD_none]
    unfold CatchTail at hT
    omega
  · have h1 := hseq 3 hi (by omega) (tick_read_seq m i (by simp [hc]) hread)
    rw [tick_plan_none rand m (by rw [hc]; decide) (by rw [hc]; decide)]
    simp only [Option.getD_none]
    unfold CatchTail at hT
    omega
  · have h1 := hseq 4 hi (by omega) (tick_read_seq m i (by simp [hc]) hread)
    rw [tick_plan_none rand m (by rw [hc]; decide) (by rw [hc]; decide)]
    simp only [Option.getD_none]
    omega
  · have h1 := hseq 5 hi (by omega) (tick_read_seq m i (by simp [hc]) hread)
    rw [tick_plan_none rand m (by rw [hc]; decide) (by rw [hc]; decide)]
    simp only [Option.getD_none]
    omega
  · have h1 := hseq 4 hi (by omega) (tick_read_seq m i (by simp [hc]) hread)
    rw [tick_plan_none rand m (by rw [hc]; decide) (by rw [hc]; decide)]
    simp only [Option.getD_none]
    omega

/-- The substate after a tick that reads the queue is the entry read. -/
theorem tick_read_spec (rand : Nat → Nat) (m : Machine) (i : Nat) (h : tick_read m = some i) :
    (pw_battle_event_loop rand m).battle.current_substate =
      queue_read (pw_battle_event_loop rand m).substate_queue i := by
  have hw := event_loop_waiting rand m
  rcases substate_cases m.battle.current_substate with
    hc | hc | hc | hc | hc | hc | hc | hc | hc | hc | hc | hc | hc | hc | hc | hc | hc | hc | hc
  · exact (tick_read_none m i (Or.inl hc) h).elim
  · exact (tick_read_none m i (Or.inr (Or.inl hc)) h).elim
  · obtain ⟨hp, hi, h1⟩ := tick_read_choosing m i hc h
    rw [event_loop_choosing rand m hc hp hi, h1, ← hi]
    rfl
  · rw [event_loop_our_action rand m hc]
    simp [tick_read, hc, BATTLE_OUR_ACTION, BATTLE_THEIR_ACTION, BATTLE_CHOOSING] at h
    obtain ⟨h1, h2, rfl⟩ := h
    simp [battle_our_action, h1, h2, Nat.not_lt.mpr h2.2, advance, pw_battle_switch_substate]
  · rw [event_loop_their_action rand m hc]
    simp [tick_read, hc, BATTLE_OUR_ACTION, BATTLE_THEIR_ACTION, BATTLE_CHOOSING] at h
    obtain ⟨h1, h2, rfl⟩ := h
    simp [battle_their_action, h1, h2, Nat.not_lt.mpr h2.2, advance, pw_battle_switch_substate]
  · rw [hw.2.2.2.2 hc]
    simp [tick_read, hc, BATTLE_OUR_ACTION, BATTLE_THEIR_ACTION, BATTLE_CHOOSING,
      BATTLE_STAREDOWN] at h
    obtain ⟨h1, rfl⟩ := h
    simp [advance_if, h1, advance, pw_battle_switch_substate]
  · exact (tick_read_none m i (Or.inr (Or.inr (Or.inl hc))) h).elim
  · exact (tick_read_none m i (Or.inr (Or.inr (Or.inr (Or.inl hc)))) h).elim
  · rw [event_loop_catch_setup rand m hc]
    simp [tick_read, hc, BATTLE_CATCH_SETUP, BATTLE_OUR_ACTION, BATTLE_THEIR_ACTION,
      BATTLE_CHOOSING, BATTLE_STAREDOWN] at h
    obtain ⟨h1, rfl⟩ := h
    have hpos := their_hp_pos_int _ (Nat.one_le_iff_ne_zero.mpr h1)
    simp only [battle_catch_setup, hpos, if_false, pw_battle_switch_substate]
  · rw [hw.1 hc]
    simp [tick_read, hc, BATTLE_CATCH_SETUP, BATTLE_OUR_ACTION, BATTLE_THEIR_ACTION,
      BATTLE_CHOOSING, BATTLE_STAREDOWN, BATTLE_THREW_BALL] at h
    obtain ⟨h1, rfl⟩ := h
    simp [advance_if, h1, advance, pw_battle_switch_substate]
  · rw [hw.2.1 hc]
    simp [tick_read, hc, BATTLE_CATCH_SETUP, BATTLE_OUR_ACTION, BATTLE_THEIR_ACTION,
      BATTLE_CHOOSING, BATTLE_STAREDOWN, BATTLE_THREW_BALL, BATTLE_CLOUD_ANIM] at h
    obtain ⟨h1, rfl⟩ := h
    simp [advance_if, h1, advance, pw_battle_switch_substate]
  · rw [event_loop_ball_wobble rand m hc]
    simp [tick_read, hc, BATTLE_CATCH_SETUP, BATTLE_OUR_ACTION, BATTLE_THEIR_ACTION,
      BATTLE_CHOOSING, BATTLE_STAREDOWN, BATTLE_THREW_BALL, BATTLE_CLOUD_ANIM,
      BATTLE_BALL_WOBBLE] at h
    obtain ⟨h1, h2, rfl⟩ := h
    simp [battle_ball_wobble, h1, Nat.not_lt.mpr h2, advance, pw_battle_switch_substate]
  · rw [hw.2.2.1 hc]
    simp [tick_read, hc, BATTLE_CATCH_SETUP, BATTLE_OUR_ACTION, BATTLE_THEIR_ACTION,
      BATTLE_CHOOSING, BATTLE_STAREDOWN, BATTLE_THREW_BALL, BATTLE_CLOUD_ANIM,
      BATTLE_BALL_WOBBLE, BATTLE_ALMOST_HAD_IT] at h
    obtain ⟨h1, rfl⟩ := h
    simp [advance_if, h1, advance, pw_battle_switch_substate]
  · rw [hw.2.2.2.1 hc]
    simp [tick_read, hc, BATTLE_CATCH_SETUP, BATTLE_OUR_ACTION, BATTLE_THEIR_ACTION,
      BATTLE_CHOOSING, BATTLE_STAREDOWN, BATTLE_THREW_BALL, BATTLE_CLOUD_ANIM,
      BATTLE_BALL_WOBBLE, BATTLE_ALMOST_HAD_IT, BATTLE_CATCH_STARS] at h
    obtain ⟨h1, rfl⟩ := h
    simp [advance_if, h1, advance, pw_battle_switch_substate]
  · exact (tick_read_none m i (Or.inr (Or.inr (Or.inr (Or.inr (Or.inl hc))))) h).elim
  · exact (tick_read_none m i (Or.inr (Or.inr (Or.inr (Or.inr (Or.inr (Or.inl hc)))))) h).elim
  · exact (tick_read_none m i
      (Or.inr (Or.inr (Or.inr (Or.inr (Or.inr (Or.inr (Or.inl hc))))))) h).elim
  · exact (tick_read_none m i
      (Or.inr (Or.inr (Or.inr (Or.inr (Or.inr (Or.inr (Or.inr hc))))))) h).elim
  · exfalso
    have hc2 : BATTLE_GO_TO_SPLASH < m.battle.current_substate := hc
    unfold BATTLE_GO_TO_SPLASH at hc2
    have hne : ∀ k, k ≤ 17 → m.battle.current_substate ≠ k := fun k hk => by omega
    simp [tick_read, BATTLE_PROCESS_CAUGHT_POKEMON, BATTLE_POKEMON_CAUGHT,
      BATTLE_ALMOST_HAD_IT, BATTLE_BALL_WOBBLE, BATTLE_CATCH_SETUP, BATTLE_OUR_ACTION,
      BATTLE_THEIR_ACTION, BATTLE_CHOOSING, BATTLE_OPENING, BATTLE_APPEARED, BATTLE_STAREDOWN,
      BATTLE_THEY_FLED, BATTLE_WE_LOST, BATTLE_THREW_BALL, BATTLE_CLOUD_ANIM,
      BATTLE_CATCH_STARS, BATTLE_SWITCH, BATTLE_GO_TO_SPLASH, hne] at h

set_option maxRecDepth 8000 in
/-- The zeroed machine after the primed events: Choosing, display up to date, cursor 1. -/
theorem primed_state :
    (run (fun _ => 55) (pw_battle_init zero_machine) primed_events).battle.current_substate =
      BATTLE_CHOOSING ∧
    (run (fun _ => 55) (pw_battle_init zero_machine) primed_events).battle.previous_substate =
      BATTLE_CHOOSING ∧
    (run (fun _ => 55) (pw_battle_init zero_machine) primed_events).battle.substate_queue_index =
      1 ∧
    tick_read (run (fun _ => 55) (pw_battle_init zero_machine) primed_events) = some 1 := by
  decide

set_option maxRecDepth 8000 in
/-- The zeroed machine at the end of the wait in OurAction: the tick reads with cursor 2. -/
theorem first_action_state :
    tick_read (run (fun _ => 55) (pw_battle_init zero_machine) first_action_events) = some 2 := by
  decide

set_option maxRecDepth 8000 in
/-- The zeroed machine after one full round in which both attack: Choosing, both HP 3. -/
theorem round_state :
    (run (fun _ => 55) (pw_battle_init zero_machine) round_events).battle.current_substate =
      BATTLE_CHOOSING ∧
    get_our_hp (run (fun _ => 55) (pw_battle_init zero_machine) round_events).battle.current_hp =
      3 ∧
    get_their_hp
      (run (fun _ => 55) (pw_battle_init zero_machine) round_events).battle.current_hp = 3 := by
  decide

/-- C25: in every state reachable from `pw_battle_init` (by ticks, display updates and button
presses, from a machine with its 8-entry queue) in which a Choosing tick resolves a round
(substate Choosing, equal to the previous substate, queue cursor 1), the choice index is in
0..4 and so inside the 5 rows of `ACTION_CHANCES`, our action is Attack or Evade, and their
action after the resolving tick is Attack, Evade or Special. -/
theorem C25_action_register_invariant (rand : Nat → Nat) (m0 : Machine) (evs : List Event)
    (hq : m0.substate_queue.length = 8)
    (hsub : (run rand (pw_battle_init m0) evs).battle.current_substate = BATTLE_CHOOSING)
    (hprev : (run rand (pw_battle_init m0) evs).battle.previous_substate = BATTLE_CHOOSING)
    (hidx : (run rand (pw_battle_init m0) evs).battle.substate_queue_index = 1) :
    get_choice_index (run rand (pw_battle_init m0) evs).battle.actions ≤ 4 ∧
    get_choice_index (run rand (pw_battle_init m0) evs).battle.actions < ACTION_CHANCES.length ∧
    (get_our_action (run rand (pw_battle_init m0) evs).battle.actions = ACTION_ATTACK ∨
      get_our_action (run rand (pw_battle_init m0) evs).battle.actions = ACTION_EVADE) ∧
    (get_their_action
        (pw_battle_event_loop rand (run rand (pw_battle_init m0) evs)).battle.actions =
        ACTION_ATTACK ∨
      get_their_action
        (pw_battle_event_loop rand (run rand (pw_battle_init m0) evs)).battle.actions =
        ACTION_EVADE ∨
      get_their_action
        (pw_battle_event_loop rand (run rand (pw_battle_init m0) evs)).battle.actions =
        ACTION_SPECIAL) := by
  have hinv := inv_reachable rand m0 evs hq
  have hfst : (grun rand (pw_battle_init m0, 0) evs).1 = run rand (pw_battle_init m0) evs :=
    grun_fst rand evs _
  have h6 : Inv6 (grun rand (pw_battle_init m0, 0) evs).1.battle.current_substate
      (grun rand (pw_battle_init m0, 0) evs).1.battle.substate_queue_index
      (grun rand (pw_battle_init m0, 0) evs).1.substate_queue
      (grun rand (pw_battle_init m0, 0) evs).1.battle.actions
      (grun rand (pw_battle_init m0, 0) evs).1.battle.current_hp
      (grun rand (pw_battle_init m0, 0) evs).2 := hinv
  rw [hfst] at h6
  have he := inv_early _ _ _ _ _ _ h6 (Or.inr (Or.inr (Or.inl hsub)))
  have ha := h6.1.2.1
  have hlen : ACTION_CHANCES.length = 5 := rfl
  rw [event_loop_choosing rand _ hsub hprev hidx, resolve_their_action rand _ ha, hlen]
  refine ⟨by have := he.1.2; omega, by have := he.1.2; omega, ?_, decide_their_action_cases _ _⟩
  have := he.1.1
  unfold ACTION_ATTACK ACTION_EVADE
  omega

/-- C25 on the state reached from a zeroed machine by the opening events and the Left button:
the choice index is inside the table and, with the draw 55, they attack or evade or use the
special action. -/
theorem C25_action_register_invariant_witness :
    get_choice_index
      (run (fun _ => 55) (pw_battle_init zero_machine) primed_events).battle.actions <
      ACTION_CHANCES.length ∧
    (get_our_action
        (run (fun _ => 55) (pw_battle_init zero_machine) primed_events).battle.actions =
        ACTION_ATTACK ∨
      get_our_action
        (run (fun _ => 55) (pw_battle_init zero_machine) primed_events).battle.actions =
        ACTION_EVADE) :=
  ⟨(C25_action_register_invariant (fun _ => 55) zero_machine primed_events rfl
      primed_state.1 primed_state.2.1 primed_state.2.2.1).2.1,
   (C25_action_register_invariant (fun _ => 55) zero_machine primed_events rfl
      primed_state.1 primed_state.2.1 primed_state.2.2.1).2.2.1⟩

/-- C26: in every state reachable from `pw_battle_init`, if the tick reads
`substate_queue[substate_queue_index-1]` with cursor value `i`, then `i` is in 1..8 (the read
is inside the 8-entry queue), `i` is at most the number of leading entries written by the most
recent planning step (the round resolution or CatchSetup of this very tick, or else the last
one before it), and the substate after the tick is the entry read. -/
theorem C26_queue_dereference_safety (rand : Nat → Nat) (m0 : Machine) (evs : List Event)
    (i : Nat) (hq : m0.substate_queue.length = 8)
    (hread : tick_read (run rand (pw_battle_init m0) evs) = some i) :
    (1 ≤ i ∧ i ≤ 8) ∧
    i ≤ (grun rand (pw_battle_init m0, 0) (evs ++ [Event.tick])).2 ∧
    (pw_battle_event_loop rand (run rand (pw_battle_init m0) evs)).battle.current_substate =
      queue_read (pw_battle_event_loop rand (run rand (pw_battle_init m0) evs)).substate_queue
        i := by
  have hinv := inv_reachable rand m0 evs hq
  have hfst : (grun rand (pw_battle_init m0, 0) evs).1 = run rand (pw_battle_init m0) evs :=
    grun_fst rand evs _
  have hinv2 : SeqInv ((grun rand (pw_battle_init m0, 0) evs).1,
      (grun rand (pw_battle_init m0, 0) evs).2) := hinv
  rw [hfst] at hinv2
  have hs := read_safe rand _ _ i hinv2 hread
  have hg : (grun rand (pw_battle_init m0, 0) (evs ++ [Event.tick])).2 =
      (tick_plan rand (run rand (pw_battle_init m0) evs)).getD
        (grun rand (pw_battle_init m0, 0) evs).2 := by
    rw [grun_append, ← hfst]
    rfl
  rw [hg]
  exact ⟨⟨hs.1, hs.2.1⟩, hs.2.2, tick_read_spec rand _ i hread⟩

/-- C26 on two reached states: the resolving tick after the opening events and the Left button
reads with cursor 1, and the tick that leaves OurAction ten frames later reads with cursor 2;
both are inside the three entries planned by the resolution. -/
theorem C26_queue_dereference_safety_witness :
    ((1 ≤ 1 ∧ 1 ≤ 8) ∧
      1 ≤ (grun (fun _ => 55) (pw_battle_init zero_machine, 0)
        (primed_events ++ [Event.tick])).2) ∧
    ((1 ≤ 2 ∧ 2 ≤ 8) ∧
      2 ≤ (grun (fun _ => 55) (pw_battle_init zero_machine, 0)
        (first_action_events ++ [Event.tick])).2) :=
  ⟨⟨(C26_queue_dereference_safety (fun _ => 55) zero_machine primed_events 1 rfl
      primed_state.2.2.2).1,
    (C26_queue_dereference_safety (fun _ => 55) zero_machine primed_events 1 rfl
      primed_state.2.2.2).2.1⟩,
   ⟨(C26_queue_dereference_safety (fun _ => 55) zero_machine first_action_events 2 rfl
      first_action_state).1,
    (C26_queue_dereference_safety (fun _ => 55) zero_machine first_action_events 2 rfl
      first_action_state).2.1⟩⟩

/-- C28: in every state reachable from `pw_battle_init` by ticks, display updates and button
presses whose substate is Choosing or CatchSetup, our HP and their HP are both in 1..4; so the
index `theirHP - 1` of the `WOBBLE_CHANCES` lookup is inside the 4-entry table, and decrementing
either HP by 1 does not wrap. -/
theorem C28_healthy_at_decision (rand : Nat → Nat) (m0 : Machine) (evs : List Event)
    (hq : m0.substate_queue.length = 8)
    (hsub : (run rand (pw_battle_init m0) evs).battle.current_substate = BATTLE_CHOOSING ∨
      (run rand (pw_battle_init m0) evs).battle.current_substate = BATTLE_CATCH_SETUP) :
    (1 ≤ get_our_hp (run rand (pw_battle_init m0) evs).battle.current_hp ∧
      get_our_hp (run rand (pw_battle_init m0) evs).battle.current_hp ≤ 4) ∧
    (1 ≤ get_their_hp (run rand (pw_battle_init m0) evs).battle.current_hp ∧
      get_their_hp (run rand (pw_battle_init m0) evs).battle.current_hp ≤ 4) ∧
    get_their_hp (run rand (pw_battle_init m0) evs).battle.current_hp - 1 <
      WOBBLE_CHANCES.length ∧
    sub_u8 (get_our_hp (run rand (pw_battle_init m0) evs).battle.current_hp) 1 =
      get_our_hp (run rand (pw_battle_init m0) evs).battle.current_hp - 1 ∧
    sub_u8 (get_their_hp (run rand (pw_battle_init m0) evs).battle.current_hp) 1 =
      get_their_hp (run rand (pw_battle_init m0) evs).battle.current_hp - 1 := by
  have hinv := inv_reachable rand m0 evs hq
  have hfst : (grun rand (pw_battle_init m0, 0) evs).1 = run rand (pw_battle_init m0) evs :=
    grun_fst rand evs _
  have h6 : Inv6 (grun rand (pw_battle_init m0, 0) evs).1.battle.current_substate
      (grun rand (pw_battle_init m0, 0) evs).1.battle.substate_queue_index
      (grun rand (pw_battle_init m0, 0) evs).1.substate_queue
      (grun rand (pw_battle_init m0, 0) evs).1.battle.actions
      (grun rand (pw_battle_init m0, 0) evs).1.battle.current_hp
      (grun rand (pw_battle_init m0, 0) evs).2 := hinv
  rw [hfst] at h6
  have he := inv_early _ _ _ _ _ _ h6
    (hsub.elim (fun h => Or.inr (Or.inr (Or.inl h))) (fun h => Or.inr (Or.inr (Or.inr h))))
  obtain ⟨_, ⟨ho1, ho2⟩, ht1, ht2⟩ := he
  have hlen : WOBBLE_CHANCES.length = 4 := rfl
  rw [hlen]
  refine ⟨⟨ho1, ho2⟩, ⟨ht1, ht2⟩, by omega, ?_, ?_⟩ <;> unfold sub_u8 <;> omega

/-- C28 on the Choosing state reached from a zeroed machine after one full round (Left button,
draw 55: both attack; 21 frames through OurAction and TheirAction): both HP are in 1..4. -/
theorem C28_healthy_at_decision_witness :
    (1 ≤ get_our_hp
        (run (fun _ => 55) (pw_battle_init zero_machine) round_events).battle.current_hp ∧
      get_our_hp
        (run (fun _ => 55) (pw_battle_init zero_machine) round_events).battle.current_hp ≤ 4) ∧
    (1 ≤ get_their_hp
        (run (fun _ => 55) (pw_battle_init zero_machine) round_events).battle.current_hp ∧
      get_their_hp
        (run (fun _ => 55) (pw_battle_init zero_machine) round_events).battle.current_hp ≤ 4) :=
  ⟨(C28_healthy_at_decision (fun _ => 55) zero_machine round_events rfl
      (Or.inl round_state.1)).1,
   (C28_healthy_at_decision (fun _ => 55) zero_machine round_events rfl
      (Or.inl round_state.1)).2.1⟩

/-! ## C22: the queue cursor and the queue length -/

set_option maxRecDepth 8000 in
/-- The cursor and the length along one round from a zeroed machine. -/
theorem round_cursor_trace :
    ((run (fun _ => 55) (pw_battle_init zero_machine) primed_events).battle.current_substate =
        BATTLE_CHOOSING ∧
      (run (fun _ => 55) (pw_battle_init zero_machine)
        primed_events).battle.substate_queue_index = 1 ∧
      (run (fun _ => 55) (pw_battle_init zero_machine)
        primed_events).battle.substate_queue_len = 0) ∧
    ((run (fun _ => 55) (pw_battle_init zero_machine)
        (primed_events ++ [Event.tick])).battle.current_substate = BATTLE_OUR_ACTION ∧
      (run (fun _ => 55) (pw_battle_init zero_machine)
        (primed_events ++ [Event.tick])).battle.substate_queue_index = 1 ∧
      (run (fun _ => 55) (pw_battle_init zero_machine)
        (primed_events ++ [Event.tick])).battle.substate_queue_len = 0) ∧
    ((run (fun _ => 55) (pw_battle_init zero_machine)
        (primed_events ++ frames 11)).battle.current_substate = BATTLE_THEIR_ACTION ∧
      (run (fun _ => 55) (pw_battle_init zero_machine)
        (primed_events ++ frames 11)).battle.substate_queue_index = 2 ∧
      (run (fun _ => 55) (pw_battle_init zero_machine)
        (primed_events ++ frames 11)).battle.substate_queue_len = 0) ∧
    ((run (fun _ => 55) (pw_battle_init zero_machine) round_events).battle.current_substate =
        BATTLE_CHOOSING ∧
      (run (fun _ => 55) (pw_battle_init zero_machine)
        round_events).battle.substate_queue_index = 3 ∧
      (run (fun _ => 55) (pw_battle_init zero_machine)
        round_events).battle.substate_queue_len = 0) := by
  decide

/-- C22 (code bug): the round resolution of the Choosing tick plans the queue but never writes
`substate_queue_len` (nor do `pw_battle_init` and the input handler), so the cursor is not
bounded by the length.  From a zeroed machine, after `pw_battle_init`, the opening events and
the Left button, the cursor is 1 and the length 0; during the traversal of the planned
[OurAction, TheirAction, Choosing] the cursor is 1, 2 and 3 and the length is still 0. -/
theorem C22_queue_cursor_exceeds_length :
    (∀ (rand : Nat → Nat) (m : Machine),
      (resolve_round rand m).battle.substate_queue_len = m.battle.substate_queue_len ∧
      (pw_battle_init m).battle.substate_queue_len = m.battle.substate_queue_len) ∧
    ((run (fun _ => 55) (pw_battle_init zero_machine) primed_events).battle.current_substate =
        BATTLE_CHOOSING ∧
      (run (fun _ => 55) (pw_battle_init zero_machine)
        primed_events).battle.substate_queue_index = 1 ∧
      (run (fun _ => 55) (pw_battle_init zero_machine)
        primed_events).battle.substate_queue_len = 0) ∧
    ((run (fun _ => 55) (pw_battle_init zero_machine)
        (primed_events ++ [Event.tick])).battle.current_substate = BATTLE_OUR_ACTION ∧
      (run (fun _ => 55) (pw_battle_init zero_machine)
        (primed_events ++ [Event.tick])).battle.substate_queue_index = 1 ∧
      (run (fun _ => 55) (pw_battle_init zero_machine)
        (primed_events ++ [Event.tick])).battle.substate_queue_len = 0) ∧
    ((run (fun _ => 55) (pw_battle_init zero_machine)
        (primed_events ++ frames 11)).battle.current_substate = BATTLE_THEIR_ACTION ∧
      (run (fun _ => 55) (pw_battle_init zero_machine)
        (primed_events ++ frames 11)).battle.substate_queue_index = 2 ∧
      (run (fun _ => 55) (pw_battle_init zero_machine)
        (primed_events ++ frames 11)).battle.substate_queue_len = 0) ∧
    ((run (fun _ => 55) (pw_battle_init zero_machine) round_events).battle.current_substate =
        BATTLE_CHOOSING ∧
      (run (fun _ => 55) (pw_battle_init zero_machine)
        round_events).battle.substate_queue_index = 3 ∧
      (run (fun _ => 55) (pw_battle_init zero_machine)
        round_events).battle.substate_queue_len = 0) :=
  ⟨fun _ _ => ⟨rfl, rfl⟩, round_cursor_trace⟩

/-! ## C30: the simultaneous knock-out -/

theorem frames_add (a b : Nat) : frames (a + b) = frames a ++ frames b := by
  induction a with
  | zero => simp [frames]
  | succ n ih =>
    have h : n + 1 + b = (n + b) + 1 := by omega
    rw [h]
    simp [frames, ih]

theorem run_frames_succ (rand : Nat → Nat) (s : Machine) (n : Nat) :
    run rand s (frames (n + 1)) =
      run rand (pw_battle_update_display (pw_battle_event_loop rand s)) (frames n) := rfl

/-- The display update on a fresh substate records it. -/
theorem display_fresh (s : Machine)
    (h : s.battle.current_substate ≠ s.battle.previous_substate) :
    pw_battle_update_display s =
      { s with battle := { s.battle with previous_substate := s.battle.current_substate } } := by
  unfold pw_battle_update_display
  simp only []
  rw [if_pos h]

/-- The display update in OurAction or TheirAction steps `anim_frame`. -/
theorem display_action (s : Machine)
    (h : s.battle.current_substate = s.battle.previous_substate)
    (hc : s.battle.current_substate = BATTLE_OUR_ACTION ∨
      s.battle.current_substate = BATTLE_THEIR_ACTION) :
    pw_battle_update_display s =
      { s with battle := { s.battle with anim_frame := u8 (s.battle.anim_frame + 1) } } := by
  have hne : s.battle.current_substate ≠ BATTLE_OPENING := by
    rcases hc with hc | hc <;> rw [hc] <;> decide
  unfold pw_battle_update_display
  simp only []
  rw [if_neg (fun hn => hn h), if_neg hne, if_pos]
  rcases hc with hc | hc
  · exact Or.inl hc
  · exact Or.inr (Or.inl hc)

theorem view_display (s : Machine) (c p f h i : Nat) (q : List Nat)
    (hv : View s c p f h i q) (hc : c = BATTLE_OUR_ACTION ∨ c = BATTLE_THEIR_ACTION) :
    (c ≠ p → View (pw_battle_update_display s) c c f h i q) ∧
    (c = p → View (pw_battle_update_display s) c c (u8 (f + 1)) h i q) := by
  obtain ⟨h1, h2, h3, h4, h5, h6⟩ := hv
  constructor
  · intro hne
    rw [display_fresh s (by rw [h1, h2]; exact hne)]
    exact ⟨h1, h1, h3, h4, h5, h6⟩
  · intro he
    rw [display_action s (by rw [h1, h2]; exact he) (by rw [h1]; exact hc)]
    exact ⟨h1, h2.trans he.symm, by rw [← h3], h4, h5, h6⟩

/-- The tick in OurAction or TheirAction before `anim_frame` reaches `ATTACK_ANIM_LENGTH`. -/
theorem tick_action_wait (rand : Nat → Nat) (s : Machine)
    (hc : s.battle.current_substate = BATTLE_OUR_ACTION ∨
      s.battle.current_substate = BATTLE_THEIR_ACTION)
    (hf : s.battle.anim_frame ≠ ATTACK_ANIM_LENGTH) : pw_battle_event_loop rand s = s := by
  rcases hc with hc | hc
  · rw [event_loop_our_action rand s hc]
    unfold battle_our_action
    rw [if_neg hf]
  · rw [event_loop_their_action rand s hc]
    unfold battle_their_action
    rw [if_neg hf]

/-- Waiting in OurAction or TheirAction: `n` frames step `anim_frame` by `n`. -/
theorem view_wait (rand : Nat → Nat) (c h i : Nat) (q : List Nat)
    (hc : c = BATTLE_OUR_ACTION ∨ c = BATTLE_THEIR_ACTION) :
    ∀ (n k : Nat) (s : Machine), View s c c k h i q → k + n ≤ 9 →
      View (run rand s (frames n)) c c (k + n) h i q := by
  intro n
  induction n with
  | zero => intro k s hv _; exact hv
  | succ n ih =>
    intro k s hv hk
    rw [run_frames_succ]
    have hf : s.battle.anim_frame ≠ ATTACK_ANIM_LENGTH := by
      rw [hv.2.2.1]; unfold ATTACK_ANIM_LENGTH; omega
    rw [tick_action_wait rand s (by rw [hv.1]; exact hc) hf]
    have hd := (view_display s c c k h i q hv hc).2 rfl
    have hu : u8 (k + 1) = k + 1 := by unfold u8; omega
    rw [hu] at hd
    have := ih (k + 1) _ hd (by omega)
    have e : k + 1 + n = k + (n + 1) := by omega
    rw [e] at this
    exact this

/-- The machine after a resolving tick in which both attack. -/
theorem resolve_attack_attack (rand : Nat → Nat) (m : Machine)
    (hidx : m.battle.substate_queue_index = 1) (hq : m.substate_queue.length = 8)
    (hour : get_our_action m.battle.actions = ACTION_ATTACK)
    (ht : decide_their_action (get_choice_index m.battle.actions) (rand m.rand_calls % 100) =
      ACTION_ATTACK) :
    View (resolve_round rand m) BATTLE_OUR_ACTION m.battle.current_substate 0
      (u8 ((sub_u8 (get_our_hp m.battle.current_hp) 1 <<< OUR_HP_OFFSET) |||
        (sub_u8 (get_their_hp m.battle.current_hp) 1 <<< THEIR_HP_OFFSET))) 1
      (((m.substate_queue.set 0 BATTLE_OUR_ACTION).set 1 BATTLE_THEIR_ACTION).set 2
        BATTLE_CHOOSING) := by
  simp only [resolve_round, pw_battle_switch_substate, draw_u8, hidx, hour, ht,
    round_matrix_attack_attack, View]
  refine ⟨?_, ?_, ?_, ?_, ?_, ?_⟩ <;>
    first | trivial | rfl | exact (queue_getD3 m.substate_queue hq _ _ _).1

/-- The tick that ends OurAction or TheirAction. -/
theorem view_action_end (rand : Nat → Nat) (s : Machine) (p h i : Nat) (q : List Nat) :
    (View s BATTLE_OUR_ACTION p 9 h i q →
      ((get_their_hp h = 0 ∨ get_their_hp h > 4) →
        (pw_battle_event_loop rand s).battle.current_substate = BATTLE_THEY_FLED) ∧
      (¬ (get_their_hp h = 0 ∨ get_their_hp h > 4) →
        View (pw_battle_event_loop rand s) (queue_read q (u8 (i + 1))) BATTLE_OUR_ACTION 0 h
          (u8 (i + 1)) q)) ∧
    (View s BATTLE_THEIR_ACTION p 9 h i q →
      ((get_our_hp h = 0 ∨ get_our_hp h > 4) →
        (pw_battle_event_loop rand s).battle.current_substate = BATTLE_WE_LOST) ∧
      (¬ (get_our_hp h = 0 ∨ get_our_hp h > 4) →
        View (pw_battle_event_loop rand s) (queue_read q (u8 (i + 1))) BATTLE_THEIR_ACTION 0 h
          (u8 (i + 1)) q)) := by
  constructor
  · rintro ⟨h1, h2, h3, h4, h5, h6⟩
    have hf : s.battle.anim_frame = ATTACK_ANIM_LENGTH := h3
    rw [event_loop_our_action rand s h1]
    unfold battle_our_action
    simp only []
    rw [if_pos hf, h4]
    constructor
    · intro hb
      rw [if_pos hb]
      rfl
    · intro hb
      rw [if_neg hb]
      exact ⟨by rw [← h6, ← h5]; rfl, h1, rfl, h4, by rw [← h5]; rfl, h6⟩
  · rintro ⟨h1, h2, h3, h4, h5, h6⟩
    have hf : s.battle.anim_frame = ATTACK_ANIM_LENGTH := h3
    rw [event_loop_their_action rand s h1]
    unfold battle_their_action
    simp only []
    rw [if_pos hf, h4]
    constructor
    · intro hb
      rw [if_pos hb]
      rfl
    · intro hb
      rw [if_neg hb]
      exact ⟨by rw [← h6, ← h5]; rfl, h1, rfl, h4, by rw [← h5]; rfl, h6⟩

/-- The input handler in OurAction, TheyFled and GoToSplash. -/
theorem handle_input_flee (s : Machine) (b : Nat) :
    (s.battle.current_substate = BATTLE_OUR_ACTION → pw_battle_handle_input s b = s) ∧
    (s.battle.current_substate = BATTLE_THEY_FLED →
      (pw_battle_handle_input s b).battle.current_substate = BATTLE_GO_TO_SPLASH) ∧
    (s.battle.current_substate = BATTLE_GO_TO_SPLASH → pw_battle_handle_input s b = s) := by
  refine ⟨?_, ?_, ?_⟩ <;> intro hc <;>
    simp [pw_battle_handle_input, hc, BATTLE_OUR_ACTION, BATTLE_THEY_FLED, BATTLE_GO_TO_SPLASH,
      BATTLE_APPEARED, BATTLE_CHOOSING, BATTLE_POKEMON_CAUGHT, BATTLE_WE_LOST, BATTLE_SWITCH]

/-- Once the opponent is at 0 HP in OurAction, the battle stays in OurAction, TheyFled or
GoToSplash whatever happens. -/
theorem knockout_step (rand : Nat → Nat) (s : Machine) (e : Event) (h : KnockedOut s) :
    KnockedOut (step rand s e) := by
  have hs := event_loop_simple rand s
  cases e with
  | tick =>
    show KnockedOut (pw_battle_event_loop rand s)
    rcases h with ⟨hc, h0⟩ | hc | hc
    · by_cases hf : s.battle.anim_frame = ATTACK_ANIM_LENGTH
      · exact Or.inr (Or.inl (((view_action_end rand s s.battle.previous_substate
          s.battle.current_hp s.battle.substate_queue_index s.substate_queue).1
          ⟨hc, rfl, hf, rfl, rfl, rfl⟩).1 (Or.inl h0)))
      · rw [tick_action_wait rand s (Or.inl hc) hf]
        exact Or.inl ⟨hc, h0⟩
    · rw [hs.2.2.1 hc]
      split_ifs <;> exact Or.inr (Or.inl hc)
    · rw [hs.2.2.2.2.2.2.1 hc]
      exact Or.inr (Or.inr hc)
  | display =>
    show KnockedOut (pw_battle_update_display s)
    obtain ⟨d1, _, _, _, d5⟩ := display_core s
    unfold KnockedOut
    rw [d1, d5]
    exact h
  | button b =>
    show KnockedOut (pw_battle_handle_input s b)
    obtain ⟨b1, b2, b3⟩ := handle_input_flee s b
    rcases h with ⟨hc, h0⟩ | hc | hc
    · rw [b1 hc]; exact Or.inl ⟨hc, h0⟩
    · exact Or.inr (Or.inr (b2 hc))
    · rw [b3 hc]; exact Or.inr (Or.inr hc)

theorem knockout_safe (rand : Nat → Nat) (evs : List Event) :
    ∀ s : Machine, KnockedOut s → KnockedOut (run rand s evs) := by
  induction evs with
  | nil => intro s h; exact h
  | cons e evs ih => intro s h; exact ih _ (knockout_step rand s e h)

theorem queue_read3 (q : List Nat) (h : q.length = 8) (a b c : Nat) :
    queue_read (((q.set 0 a).set 1 b).set 2 c) 2 = b ∧
    queue_read (((q.set 0 a).set 1 b).set 2 c) 3 = c := by
  match q, h with
  | [_, _, _, _, _, _, _, _], _ => simp [queue_read]

/-- Both decrements of a round in which both attack, on the HP fields. -/
theorem attack_attack_hp (hp : Nat) (hhp : hp < 256) (ho : 1 ≤ get_our_hp hp) :
    get_our_hp (u8 ((sub_u8 (get_our_hp hp) 1 <<< OUR_HP_OFFSET) |||
      (sub_u8 (get_their_hp hp) 1 <<< THEIR_HP_OFFSET))) = get_our_hp hp - 1 ∧
    get_their_hp (u8 ((sub_u8 (get_our_hp hp) 1 <<< OUR_HP_OFFSET) |||
      (sub_u8 (get_their_hp hp) 1 <<< THEIR_HP_OFFSET))) = (get_their_hp hp + 16 - 1) % 16 :=
  hp_store hp hhp 1 (by omega) 1 (by omega) ho

/-- The first ten frames of a round in which both attack: the machine waits in OurAction with
`anim_frame` at `ATTACK_ANIM_LENGTH`, the HP fields decremented, the attack plan in the queue. -/
theorem attack_round_ten_frames (rand : Nat → Nat) (m : Machine)
    (hsub : m.battle.current_substate = BATTLE_CHOOSING)
    (hprev : m.battle.previous_substate = BATTLE_CHOOSING)
    (hidx : m.battle.substate_queue_index = 1)
    (hq : m.substate_queue.length = 8)
    (hour : get_our_action m.battle.actions = ACTION_ATTACK)
    (ht : decide_their_action (get_choice_index m.battle.actions) (rand m.rand_calls % 100) =
      ACTION_ATTACK) :
    View (run rand m (frames 10)) BATTLE_OUR_ACTION BATTLE_OUR_ACTION 9
      (u8 ((sub_u8 (get_our_hp m.battle.current_hp) 1 <<< OUR_HP_OFFSET) |||
        (sub_u8 (get_their_hp m.battle.current_hp) 1 <<< THEIR_HP_OFFSET))) 1
      (((m.substate_queue.set 0 BATTLE_OUR_ACTION).set 1 BATTLE_THEIR_ACTION).set 2
        BATTLE_CHOOSING) := by
  have hv := resolve_attack_attack rand m hidx hq hour ht
  rw [hsub] at hv
  have h10 : frames 10 = frames (9 + 1) := rfl
  rw [h10, run_frames_succ, event_loop_choosing rand m hsub hprev hidx]
  have hd := (view_display _ _ _ _ _ _ _ hv (Or.inl rfl)).1 (by decide)
  exact view_wait rand _ _ _ _ (Or.inl rfl) 9 0 _ hd (by omega)

/-- C30: a Choosing tick resolves a round in which the player attacks and the opponent attacks,
with our HP 1.  If their HP is 1 too, then after 11 frames (tick, display) the substate is
TheyFled, and whatever events follow the resolving tick the substate is OurAction, TheyFled or
GoToSplash, never TheirAction or WeLost.  If their HP is 2..4 (only our HP reaches 0), the
machine waits in OurAction, is in TheirAction after 11 frames and in WeLost after 21. -/
theorem C30_simultaneous_knock_out (rand : Nat → Nat) (m : Machine)
    (hsub : m.battle.current_substate = BATTLE_CHOOSING)
    (hprev : m.battle.previous_substate = BATTLE_CHOOSING)
    (hidx : m.battle.substate_queue_index = 1)
    (hq : m.substate_queue.length = 8)
    (hhp : m.battle.current_hp < 256)
    (hour : get_our_action m.battle.actions = ACTION_ATTACK)
    (ht : decide_their_action (get_choice_index m.battle.actions) (rand m.rand_calls % 100) =
      ACTION_ATTACK)
    (ho : get_our_hp m.battle.current_hp = 1) :
    (get_their_hp m.battle.current_hp = 1 →
      (run rand m (frames 11)).battle.current_substate = BATTLE_THEY_FLED ∧
      ∀ evs : List Event,
        ((run rand m (Event.tick :: evs)).battle.current_substate = BATTLE_OUR_ACTION ∨
          (run rand m (Event.tick :: evs)).battle.current_substate = BATTLE_THEY_FLED ∨
          (run rand m (Event.tick :: evs)).battle.current_substate = BATTLE_GO_TO_SPLASH) ∧
        (run rand m (Event.tick :: evs)).battle.current_substate ≠ BATTLE_THEIR_ACTION ∧
        (run rand m (Event.tick :: evs)).battle.current_substate ≠ BATTLE_WE_LOST) ∧
    ((2 ≤ get_their_hp m.battle.current_hp ∧ get_their_hp m.battle.current_hp ≤ 4) →
      (run rand m (frames 10)).battle.current_substate = BATTLE_OUR_ACTION ∧
      (run rand m (frames 11)).battle.current_substate = BATTLE_THEIR_ACTION ∧
      (run rand m (frames 21)).battle.current_substate = BATTLE_WE_LOST) := by
  have hv := resolve_attack_attack rand m hidx hq hour ht
  have h10 := attack_round_ten_frames rand m hsub hprev hidx hq hour ht
  have hf := attack_attack_hp _ hhp (by omega : 1 ≤ get_our_hp m.battle.current_hp)
  have h11 : frames 11 = frames 10 ++ frames 1 := rfl
  have h21 : frames 21 = frames 11 ++ (frames 9 ++ frames 1) := rfl
  have hstep : ∀ s : Machine, run rand s (frames 1) =
      pw_battle_update_display (pw_battle_event_loop rand s) := fun _ => rfl
  obtain ⟨hflee, hadv⟩ := (view_action_end rand _ _ _ _ _).1 h10
  constructor
  · intro h1
    have ht0 : get_their_hp (u8 ((sub_u8 (get_our_hp m.battle.current_hp) 1 <<< OUR_HP_OFFSET) |||
        (sub_u8 (get_their_hp m.battle.current_hp) 1 <<< THEIR_HP_OFFSET))) = 0 := by
      rw [hf.2, h1]
    constructor
    · rw [h11, run_append, hstep, (display_core _).1]
      exact hflee (Or.inl ht0)
    · intro evs
      have hr : run rand m (Event.tick :: evs) = run rand (pw_battle_event_loop rand m) evs :=
        rfl
      rw [hr, event_loop_choosing rand m hsub hprev hidx]
      have hk : KnockedOut (resolve_round rand m) := Or.inl ⟨hv.1, by rw [hv.2.2.2.1]; exact ht0⟩
      have hk2 := knockout_safe rand evs _ hk
      rcases hk2 with ⟨hc, _⟩ | hc | hc
      · exact ⟨Or.inl hc, by rw [hc]; decide, by rw [hc]; decide⟩
      · exact ⟨Or.inr (Or.inl hc), by rw [hc]; decide, by rw [hc]; decide⟩
      · exact ⟨Or.inr (Or.inr hc), by rw [hc]; decide, by rw [hc]; decide⟩
  · intro h2
    have htok : ¬ (get_their_hp (u8 ((sub_u8 (get_our_hp m.battle.current_hp) 1 <<<
        OUR_HP_OFFSET) ||| (sub_u8 (get_their_hp m.battle.current_hp) 1 <<<
        THEIR_HP_OFFSET))) = 0 ∨
        get_their_hp (u8 ((sub_u8 (get_our_hp m.battle.current_hp) 1 <<< OUR_HP_OFFSET) |||
          (sub_u8 (get_their_hp m.battle.current_hp) 1 <<< THEIR_HP_OFFSET))) > 4) := by
      rw [hf.2]; omega
    have ho0 : get_our_hp (u8 ((sub_u8 (get_our_hp m.battle.current_hp) 1 <<< OUR_HP_OFFSET) |||
        (sub_u8 (get_their_hp m.battle.current_hp) 1 <<< THEIR_HP_OFFSET))) = 0 := by
      rw [hf.1, ho]
    have hu : u8 (1 + 1) = 2 := rfl
    have h11v := hadv htok
    rw [hu, (queue_read3 m.substate_queue hq _ _ _).1] at h11v
    have h11d := (view_display _ _ _ _ _ _ _ h11v (Or.inr rfl)).1 (by decide)
    have h11e : run rand m (frames 11) =
        pw_battle_update_display (pw_battle_event_loop rand (run rand m (frames 10))) := by
      rw [h11, run_append, hstep]
    rw [← h11e] at h11d
    have h20 := view_wait rand _ _ _ _ (Or.inr rfl) 9 0 _ h11d (by omega)
    obtain ⟨hlost, _⟩ := (view_action_end rand _ _ _ _ _).2 h20
    refine ⟨h10.1, h11d.1, ?_⟩
    rw [h21, run_append, run_append, hstep, (display_core _).1]
    exact hlost (Or.inl ho0)

/-- C30 on two concrete rounds with the draw 99 (they attack): from HP 1/1 the battle is in
TheyFled after 11 frames; from our HP 1 and their HP 2 it is in WeLost after 21 frames. -/
theorem C30_simultaneous_knock_out_witness :
    (run (fun _ => 99) (choosing_state 0 0x11) (frames 11)).battle.current_substate =
      BATTLE_THEY_FLED ∧
    (run (fun _ => 99) (choosing_state 0 0x21) (frames 21)).battle.current_substate =
      BATTLE_WE_LOST :=
  ⟨((C30_simultaneous_knock_out (fun _ => 99) (choosing_state 0 0x11) rfl rfl rfl rfl
      (by decide) (by decide) (by decide) (by decide)).1 (by decide)).1,
   ((C30_simultaneous_knock_out (fun _ => 99) (choosing_state 0 0x21) rfl rfl rfl rfl
      (by decide) (by decide) (by decide) (by decide)).2 (by decide)).2.2⟩

/-! ## C31: no timed exit from the message screens -/

/-- A tick keeps the substate, or leaves `anim_frame` at 0, or enters Switch. -/
theorem tick_change (rand : Nat → Nat) (m : Machine) :
    (pw_battle_event_loop rand m).battle.current_substate = m.battle.current_substate ∨
    (pw_battle_event_loop rand m).battle.anim_frame = 0 ∨
    (pw_battle_event_loop rand m).battle.current_substate = BATTLE_SWITCH := by
  have hs := event_loop_simple rand m
  have hw := event_loop_waiting rand m
  have hadv : ∀ c : Bool,
      (advance_if c m).battle.current_substate = m.battle.current_substate ∨
      (advance_if c m).battle.anim_frame = 0 ∨
      (advance_if c m).battle.current_substate = BATTLE_SWITCH := by
    intro c
    cases c
    · exact Or.inl rfl
    · exact Or.inr (Or.inl rfl)
  rcases substate_cases m.battle.current_substate with
    h | h | h | h | h | h | h | h | h | h | h | h | h | h | h | h | h | h | h
  · rw [hs.1 h]
    split_ifs with h0
    · exact Or.inr (Or.inl (Nat.le_zero.mp h0))
    · exact Or.inl rfl
  · rw [hs.2.1 h]; exact Or.inl rfl
  · rw [event_loop_choosing_case rand m h]
    generalize hn : battle_choosing rand m = n
    unfold battle_choosing at hn
    simp only [] at hn
    split_ifs at hn <;> subst hn <;> first | exact Or.inl rfl | exact Or.inr (Or.inl rfl)
  · rw [event_loop_our_action rand m h]
    generalize hn : battle_our_action m = n
    unfold battle_our_action at hn
    simp only [] at hn
    split_ifs at hn <;> subst hn <;> first | exact Or.inl rfl | exact Or.inr (Or.inl rfl)
  · rw [event_loop_their_action rand m h]
    generalize hn : battle_their_action m = n
    unfold battle_their_action at hn
    simp only [] at hn
    split_ifs at hn <;> subst hn <;> first | exact Or.inl rfl | exact Or.inr (Or.inl rfl)
  · rw [hw.2.2.2.2 h]; exact hadv _
  · rw [hs.2.2.1 h]; split_ifs <;> exact Or.inl rfl
  · rw [hs.2.2.2.1 h]; split_ifs <;> exact Or.inl rfl
  · rw [event_loop_catch_setup rand m h]
    generalize hn : battle_catch_setup rand m = n
    unfold battle_catch_setup at hn
    simp only [] at hn
    split_ifs at hn <;> subst hn <;> first | exact Or.inl rfl | exact Or.inr (Or.inl rfl)
  · rw [hw.1 h]; exact hadv _
  · rw [hw.2.1 h]; exact hadv _
  · rw [event_loop_ball_wobble rand m h]
    generalize hn : battle_ball_wobble m = n
    unfold battle_ball_wobble at hn
    simp only [] at hn
    split_ifs at hn <;> subst hn <;> first | exact Or.inl rfl | exact Or.inr (Or.inl rfl)
  · rw [hw.2.2.1 h]; exact hadv _
  · rw [hw.2.2.2.1 h]; exact hadv _
  · rw [hs.2.2.2.2.1 h]; exact Or.inl rfl
  · rw [event_loop_process rand m h]
    rcases (process_core m).1 with h1 | h1
    · exact Or.inl h1
    · exact Or.inr (Or.inr h1)
  · rw [hs.2.2.2.2.2.1 h]; exact Or.inl rfl
  · rw [hs.2.2.2.2.2.2.1 h]; exact Or.inl rfl
  · rw [hs.2.2.2.2.2.2.2 h]; exact Or.inl rfl

/-- The tick on a message screen before `anim_frame` reaches `MESSAGE_DISPLAY_ANIM_LENGTH`. -/
theorem tick_message (rand : Nat → Nat) (s : Machine)
    (hc : MessageScreen s.battle.current_substate)
    (hf : s.battle.anim_frame < MESSAGE_DISPLAY_ANIM_LENGTH) :
    pw_battle_event_loop rand s = s := by
  have hs := event_loop_simple rand s
  rcases hc with hc | hc
  · rw [hs.2.2.1 hc, if_neg (by omega)]
  · rw [hs.2.2.2.1 hc, if_neg (by omega)]

/-- The display update on a message screen changes `previous_substate` at most. -/
theorem display_message (s : Machine) (hc : MessageScreen s.battle.current_substate) :
    (pw_battle_update_display s).battle.current_substate = s.battle.current_substate ∧
    (pw_battle_update_display s).battle.anim_frame = s.battle.anim_frame ∧
    (pw_battle_update_display s).pending_sid = s.pending_sid := by
  by_cases hp : s.battle.current_substate ≠ s.battle.previous_substate
  · rw [display_fresh s hp]
    exact ⟨rfl, rfl, rfl⟩
  · have hp2 : s.battle.previous_substate = s.battle.current_substate :=
      (not_not.mp hp).symm
    have he : pw_battle_update_display s = s := by
      rcases hc with hc | hc <;> rw [hc] at hp2 <;>
        simp [pw_battle_update_display, hp2, hc, BATTLE_THEY_FLED, BATTLE_WE_LOST,
          BATTLE_OPENING, BATTLE_OUR_ACTION, BATTLE_THEIR_ACTION, BATTLE_STAREDOWN,
          BATTLE_THREW_BALL, BATTLE_CLOUD_ANIM, BATTLE_BALL_WOBBLE, BATTLE_ALMOST_HAD_IT,
          BATTLE_CATCH_STARS, BATTLE_SWITCH]
    rw [he]
    exact ⟨rfl, rfl, rfl⟩

/-- The input handler on a message screen assigns GoToSplash and nothing else of the kind. -/
theorem handle_input_message (s : Machine) (b : Nat)
    (hc : MessageScreen s.battle.current_substate) :
    (pw_battle_handle_input s b).battle.current_substate = BATTLE_GO_TO_SPLASH ∧
    (pw_battle_handle_input s b).pending_sid = s.pending_sid := by
  rcases hc with hc | hc <;>
    simp [pw_battle_handle_input, hc, BATTLE_THEY_FLED, BATTLE_WE_LOST, BATTLE_APPEARED,
      BATTLE_CHOOSING, BATTLE_POKEMON_CAUGHT]

/-- Ticks and display updates on a message screen entered with `anim_frame` 0. -/
theorem message_stays (rand : Nat → Nat) (evs : List Event) :
    ∀ s : Machine, MessageScreen s.battle.current_substate → s.battle.anim_frame = 0 →
      (∀ b, Event.button b ∉ evs) →
      (run rand s evs).battle.current_substate = s.battle.current_substate ∧
      (run rand s evs).battle.anim_frame = 0 ∧
      (run rand s evs).pending_sid = s.pending_sid := by
  induction evs with
  | nil => intro s _ hf _; exact ⟨rfl, hf, rfl⟩
  | cons e evs ih =>
    intro s hc hf hev
    have hev2 : ∀ b, Event.button b ∉ evs := fun b hb => hev b (List.mem_cons_of_mem _ hb)
    have hr : run rand s (e :: evs) = run rand (step rand s e) evs := rfl
    rw [hr]
    cases e with
    | tick =>
      have ht : step rand s Event.tick = s :=
        tick_message rand s hc (by rw [hf]; decide)
      rw [ht]
      exact ih s hc hf hev2
    | display =>
      obtain ⟨d1, d2, d3⟩ := display_message s hc
      have hd : step rand s Event.display = pw_battle_update_display s := rfl
      rw [hd]
      have := ih (pw_battle_update_display s) (by rw [d1]; exact hc) (by rw [d2]; exact hf) hev2
      rw [d1, d3] at this
      exact this
    | button b => exact absurd (List.mem_cons_self _ _) (hev b)

/-- The substates that the input handler can assign. -/
theorem handle_input_targets (s : Machine) (b : Nat) :
    (pw_battle_handle_input s b).battle.current_substate = s.battle.current_substate ∨
    (pw_battle_handle_input s b).battle.current_substate = BATTLE_CHOOSING ∨
    (pw_battle_handle_input s b).battle.current_substate = BATTLE_CATCH_SETUP ∨
    (pw_battle_handle_input s b).battle.current_substate = BATTLE_PROCESS_CAUGHT_POKEMON ∨
    (pw_battle_handle_input s b).battle.current_substate = BATTLE_GO_TO_SPLASH := by
  generalize hn : pw_battle_handle_input s b = n
  unfold pw_battle_handle_input at hn
  simp only [] at hn
  split_ifs at hn <;> subst hn <;>
    first
    | exact Or.inl rfl
    | exact Or.inr (Or.inl rfl)
    | exact Or.inr (Or.inr (Or.inl rfl))
    | exact Or.inr (Or.inr (Or.inr (Or.inl rfl)))
    | exact Or.inr (Or.inr (Or.inr (Or.inr rfl)))

/-- The input handler never leaves the machine on a message screen. -/
theorem handle_input_not_message (s : Machine) (b : Nat) :
    ¬ MessageScreen (pw_battle_handle_input s b).battle.current_substate := by
  intro hm
  rcases handle_input_targets s b with h | h | h | h | h
  · have hm2 : MessageScreen s.battle.current_substate := by rw [← h]; exact hm
    have := (handle_input_message s b hm2).1
    rw [this] at hm
    rcases hm with hm | hm <;> exact absurd hm (by decide)
  all_goals rw [h] at hm; rcases hm with hm | hm <;> exact absurd hm (by decide)

/-- In every state reached from `pw_battle_init`, `anim_frame` is 0 on a message screen. -/
theorem message_anim_zero (rand : Nat → Nat) (evs : List Event) :
    ∀ s : Machine,
      (MessageScreen s.battle.current_substate → s.battle.anim_frame = 0) →
      MessageScreen (run rand s evs).battle.current_substate →
      (run rand s evs).battle.anim_frame = 0 := by
  induction evs with
  | nil => intro s h; exact h
  | cons e evs ih =>
    intro s h
    have hr : run rand s (e :: evs) = run rand (step rand s e) evs := rfl
    rw [hr]
    apply ih
    cases e with
    | tick =>
      show MessageScreen (pw_battle_event_loop rand s).battle.current_substate →
        (pw_battle_event_loop rand s).battle.anim_frame = 0
      intro hm
      rcases tick_change rand s with h1 | h1 | h1
      · have hm2 : MessageScreen s.battle.current_substate := by rw [← h1]; exact hm
        have h0 := h hm2
        rw [tick_message rand s hm2 (by rw [h0]; decide)]
        exact h0
      · exact h1
      · rw [h1] at hm
        rcases hm with hm | hm <;> exact absurd hm (by decide)
    | display =>
      show MessageScreen (pw_battle_update_display s).battle.current_substate →
        (pw_battle_update_display s).battle.anim_frame = 0
      intro hm
      have hm2 : MessageScreen s.battle.current_substate := by
        rw [← (display_core s).1]; exact hm
      rw [(display_message s hm2).2.1]
      exact h hm2
    | button b =>
      show MessageScreen (pw_battle_handle_input s b).battle.current_substate →
        (pw_battle_handle_input s b).battle.anim_frame = 0
      intro hm
      exact absurd hm (handle_input_not_message s b)

/-- The frame schedules hold no button press. -/
theorem frames_no_button : ∀ (n b : Nat), Event.button b ∉ frames n := by
  intro n
  induction n with
  | zero => intro b; simp [frames]
  | succ n ih => intro b; simp [frames, ih b]

/-- C31: on a message screen (TheyFled or WeLost) with `anim_frame` 0, no sequence of ticks and
display updates without a button press changes the substate, `anim_frame` or the pending state;
a button press then assigns GoToSplash (pending state still untouched) and the tick after it
sets the pending state to splash.  The premise holds whenever it matters: a tick that changes
the substate to a message screen leaves `anim_frame` at 0, and in every state reached from
`pw_battle_init` by any events, `anim_frame` is 0 on a message screen. -/
theorem C31_no_timed_exit (rand : Nat → Nat) (s m0 : Machine) (evs evs0 : List Event)
    (hc : s.battle.current_substate = BATTLE_THEY_FLED ∨
      s.battle.current_substate = BATTLE_WE_LOST)
    (hf : s.battle.anim_frame = 0)
    (hev : ∀ b, Event.button b ∉ evs) :
    ((run rand s evs).battle.current_substate = s.battle.current_substate ∧
      (run rand s evs).battle.anim_frame = 0 ∧
      (run rand s evs).pending_sid = s.pending_sid) ∧
    (∀ b,
      (pw_battle_handle_input (run rand s evs) b).battle.current_substate =
        BATTLE_GO_TO_SPLASH ∧
      (pw_battle_handle_input (run rand s evs) b).pending_sid = s.pending_sid ∧
      (pw_battle_event_loop rand (pw_battle_handle_input (run rand s evs) b)).pending_sid =
        STATE_SPLASH) ∧
    (∀ m : Machine,
      (pw_battle_event_loop rand m).battle.current_substate ≠ m.battle.current_substate →
      ((pw_battle_event_loop rand m).battle.current_substate = BATTLE_THEY_FLED ∨
        (pw_battle_event_loop rand m).battle.current_substate = BATTLE_WE_LOST) →
      (pw_battle_event_loop rand m).battle.anim_frame = 0) ∧
    (((run rand (pw_battle_init m0) evs0).battle.current_substate = BATTLE_THEY_FLED ∨
        (run rand (pw_battle_init m0) evs0).battle.current_substate = BATTLE_WE_LOST) →
      (run rand (pw_battle_init m0) evs0).battle.anim_frame = 0) := by
  have hst := message_stays rand evs s hc hf hev
  refine ⟨hst, ?_, ?_, ?_⟩
  · intro b
    have hm : MessageScreen (run rand s evs).battle.current_substate := by
      rw [hst.1]; exact hc
    obtain ⟨b1, b2⟩ := handle_input_message (run rand s evs) b hm
    refine ⟨b1, by rw [b2, hst.2.2], ?_⟩
    rw [(event_loop_simple rand _).2.2.2.2.2.2.1 b1]
  · intro m hne hm
    rcases tick_change rand m with h1 | h1 | h1
    · exact absurd h1 hne
    · exact h1
    · rw [h1] at hm
      rcases hm with hm | hm <;> exact absurd hm (by decide)
  · intro hm
    refine message_anim_zero rand evs0 (pw_battle_init m0) ?_ hm
    intro h0
    have h1 : MessageScreen BATTLE_OPENING := h0
    rcases h1 with h1 | h1 <;> exact absurd h1 (by decide)

/-- C31 on the TheyFled screen entered by the tick that ends OurAction with the opponent at 0
HP: after 300 frames of ticks and display updates the substate is still TheyFled and the
pending state is still clear. -/
theorem C31_no_timed_exit_witness :
    (run (fun _ => 0)
        (pw_battle_event_loop (fun _ => 0) (action_state BATTLE_OUR_ACTION 0x04 1))
        (frames 300)).battle.current_substate = BATTLE_THEY_FLED ∧
    (run (fun _ => 0)
        (pw_battle_event_loop (fun _ => 0) (action_state BATTLE_OUR_ACTION 0x04 1))
        (frames 300)).pending_sid = 0 :=
  ⟨(C31_no_timed_exit (fun _ => 0)
      (pw_battle_event_loop (fun _ => 0) (action_state BATTLE_OUR_ACTION 0x04 1))
      zero_machine (frames 300) [] (Or.inl rfl) rfl (frames_no_button 300)).1.1,
   (C31_no_timed_exit (fun _ => 0)
      (pw_battle_event_loop (fun _ => 0) (action_state BATTLE_OUR_ACTION 0x04 1))
      zero_machine (frames 300) [] (Or.inl rfl) rfl (frames_no_button 300)).1.2.2⟩

/-! ## C32: how many draws give each action -/

/-- C32: for each choice index 0..4 the row of `ACTION_CHANCES` sums to 100, and among the draws
0..99 the number classified as Attack, Evade and Special is the row's first, second and third
entry, although the thresholds are tested in the order special, evade, attack. -/
theorem C32_action_draw_counts (choice_index : Nat) (h : choice_index < 5) :
    action_chance choice_index 0 + action_chance choice_index 1 + action_chance choice_index 2 =
      100 ∧
    action_draws choice_index ACTION_ATTACK = action_chance choice_index 0 ∧
    action_draws choice_index ACTION_EVADE = action_chance choice_index 1 ∧
    action_draws choice_index ACTION_SPECIAL = action_chance choice_index 2 := by
  have key : ∀ ci < 5,
      action_chance ci 0 + action_chance ci 1 + action_chance ci 2 = 100 ∧
      action_draws ci ACTION_ATTACK = action_chance ci 0 ∧
      action_draws ci ACTION_EVADE = action_chance ci 1 ∧
      action_draws ci ACTION_SPECIAL = action_chance ci 2 := by decide!
  exact key choice_index h

/-- C32 at row 0: of the draws 0..99, 45 give Attack, 35 Evade and 20 Special. -/
theorem C32_action_draw_counts_witness :
    action_draws 0 ACTION_ATTACK = 45 ∧ action_draws 0 ACTION_EVADE = 35 ∧
    action_draws 0 ACTION_SPECIAL = 20 :=
  ⟨(C32_action_draw_counts 0 (by decide)).2.1, (C32_action_draw_counts 0 (by decide)).2.2.1,
    (C32_action_draw_counts 0 (by decide)).2.2.2⟩

/-! ## C33: the byte-swap helpers -/

theorem testBit_high (x n i : Nat) (hx : x < 2 ^ n) (hi : n ≤ i) : x.testBit i = false :=
  Nat.testBit_lt_two_pow (Nat.lt_of_lt_of_le hx (Nat.pow_le_pow_right (by decide) hi))

theorem testBit_ff (j : Nat) : Nat.testBit 0xff j = decide (j < 8) := by
  have h : (0xff : Nat) = 2 ^ 8 - 1 := by decide
  rw [h, Nat.testBit_two_pow_sub_one]

theorem testBit_ff00 (j : Nat) : Nat.testBit 0x0000ff00 j = decide (8 ≤ j ∧ j < 16) := by
  have h : (0x0000ff00 : Nat) = (2 ^ 8 - 1) <<< 8 := by decide
  rw [h, Nat.testBit_shiftLeft, Nat.testBit_two_pow_sub_one]
  by_cases h1 : 8 ≤ j <;> by_cases h2 : j < 16 <;> simp [h1, h2] <;> omega

theorem testBit_ff0000 (j : Nat) : Nat.testBit 0x00ff0000 j = decide (16 ≤ j ∧ j < 24) := by
  have h : (0x00ff0000 : Nat) = (2 ^ 8 - 1) <<< 16 := by decide
  rw [h, Nat.testBit_shiftLeft, Nat.testBit_two_pow_sub_one]
  by_cases h1 : 16 ≤ j <;> by_cases h2 : j < 24 <;> simp [h1, h2] <;> omega

/-- The bits of `swap_bytes_u16 x`. -/
theorem swap16_testBit (x : Nat) (hx : x < 2 ^ 16) (i : Nat) :
    (swap_bytes_u16 x).testBit i =
      if i < 8 then x.testBit (i + 8) else if i < 16 then x.testBit (i - 8) else false := by
  unfold swap_bytes_u16
  simp only [Nat.testBit_mod_two_pow, Nat.testBit_or, Nat.testBit_shiftRight,
    Nat.testBit_shiftLeft, Nat.testBit_and, testBit_ff]
  by_cases h1 : i < 8
  · have h2 : ¬ 8 ≤ i := by omega
    have h3 : i < 16 := by omega
    simp [h1, h2, h3, Nat.add_comm]
  · by_cases h2 : i < 16
    · have h3 : 8 ≤ i := by omega
      have h4 : i - 8 < 8 := by omega
      have h5 := testBit_high x 16 (8 + i) hx (by omega)
      simp [h1, h2, h3, h4, h5]
    · simp [h1, h2]

/-- The bits of `swap_bytes_u32 x`. -/
theorem swap32_testBit (x : Nat) (hx : x < 2 ^ 32) (i : Nat) :
    (swap_bytes_u32 x).testBit i =
      if i < 8 then x.testBit (i + 24)
      else if i < 16 then x.testBit (i + 8)
      else if i < 24 then x.testBit (i - 8)
      else if i < 32 then x.testBit (i - 24)
      else false := by
  unfold swap_bytes_u32
  simp only [Nat.testBit_mod_two_pow, Nat.testBit_or, Nat.testBit_shiftRight,
    Nat.testBit_shiftLeft, Nat.testBit_and, testBit_ff, testBit_ff00, testBit_ff0000]
  by_cases h1 : i < 8
  · have a1 : i < 32 := by omega
    have a2 : ¬ (16 ≤ 8 + i ∧ 8 + i < 24) := by omega
    have a3 : ¬ i ≥ 8 := by omega
    have a4 : ¬ i ≥ 24 := by omega
    simp [h1, a1, a2, a3, a4, Nat.add_comm]
  · by_cases h2 : i < 16
    · have a1 : i < 32 := by omega
      have a2 : (16 ≤ 8 + i ∧ 8 + i < 24) := by omega
      have a3 : i ≥ 8 := by omega
      have a4 : ¬ i ≥ 24 := by omega
      have a5 : ¬ (8 ≤ i - 8 ∧ i - 8 < 16) := by omega
      have a6 := testBit_high x 32 (24 + i) hx (by omega)
      simp [h1, h2, a1, a2, a3, a4, a5, a6]
      rw [Nat.add_comm]
    · by_cases h3 : i < 24
      · have a1 : i < 32 := by omega
        have a2 : ¬ (16 ≤ 8 + i ∧ 8 + i < 24) := by omega
        have a3 : i ≥ 8 := by omega
        have a4 : ¬ i ≥ 24 := by omega
        have a5 : (8 ≤ i - 8 ∧ i - 8 < 16) := by omega
        have a6 := testBit_high x 32 (24 + i) hx (by omega)
        simp [h1, h2, h3, a1, a2, a3, a4, a5, a6]
      · by_cases h4 : i < 32
        · have a2 : ¬ (16 ≤ 8 + i ∧ 8 + i < 24) := by omega
          have a3 : i ≥ 8 := by omega
          have a4 : i ≥ 24 := by omega
          have a5 : ¬ (8 ≤ i - 8 ∧ i - 8 < 16) := by omega
          have a6 := testBit_high x 32 (24 + i) hx (by omega)
          have a7 : i - 24 < 8 := by omega
          simp [h1, h2, h3, h4, a2, a3, a4, a5, a6, a7]
        · simp [h1, h2, h3, h4]

theorem swap16_lt (x : Nat) : swap_bytes_u16 x < 2 ^ 16 := Nat.mod_lt _ (by decide)

theorem swap32_lt (x : Nat) : swap_bytes_u32 x < 2 ^ 32 := Nat.mod_lt _ (by decide)

/-- The bits of a byte. -/
theorem byte_of_testBit (x i j : Nat) :
    (byte_of x i).testBit j = (x.testBit (8 * i + j) && decide (j < 8)) := by
  unfold byte_of
  rw [Nat.testBit_and, Nat.testBit_shiftRight, testBit_ff]

theorem swap16_involutive (x : Nat) (hx : x < 2 ^ 16) : swap_bytes_u16 (swap_bytes_u16 x) = x := by
  apply Nat.eq_of_testBit_eq
  intro i
  rw [swap16_testBit _ (swap16_lt x)]
  by_cases h1 : i < 8
  · rw [if_pos h1, swap16_testBit x hx, if_neg (by omega), if_pos (by omega)]
    congr 1
  · rw [if_neg h1]
    by_cases h2 : i < 16
    · rw [if_pos h2, swap16_testBit x hx, if_pos (by omega)]
      congr 1
      omega
    · rw [if_neg h2, testBit_high x 16 i hx (by omega)]

theorem swap32_involutive (x : Nat) (hx : x < 2 ^ 32) : swap_bytes_u32 (swap_bytes_u32 x) = x := by
  apply Nat.eq_of_testBit_eq
  intro i
  rw [swap32_testBit _ (swap32_lt x)]
  by_cases h1 : i < 8
  · rw [if_pos h1, swap32_testBit x hx, if_neg (by omega), if_neg (by omega), if_neg (by omega),
      if_pos (by omega)]
    congr 1
  · rw [if_neg h1]
    by_cases h2 : i < 16
    · rw [if_pos h2, swap32_testBit x hx, if_neg (by omega), if_neg (by omega),
        if_pos (by omega)]
      congr 1
    · rw [if_neg h2]
      by_cases h3 : i < 24
      · rw [if_pos h3, swap32_testBit x hx, if_neg (by omega), if_pos (by omega)]
        congr 1
        omega
      · rw [if_neg h3]
        by_cases h4 : i < 32
        · rw [if_pos h4, swap32_testBit x hx, if_pos (by omega)]
          congr 1
          omega
        · rw [if_neg h4, testBit_high x 32 i hx (by omega)]

/-- The bytes of `swap_bytes_u16 x`. -/
theorem swap16_bytes (x : Nat) (hx : x < 2 ^ 16) :
    byte_of (swap_bytes_u16 x) 1 = byte_of x 0 ∧ byte_of (swap_bytes_u16 x) 0 = byte_of x 1 := by
  constructor <;> apply Nat.eq_of_testBit_eq <;> intro j <;>
    rw [byte_of_testBit, byte_of_testBit, swap16_testBit x hx] <;>
    by_cases hj : j < 8
  · simp only [hj, decide_True, Bool.and_true]
    rw [if_neg (by omega), if_pos (by omega)]
    congr 1
    omega
  · simp [hj]
  · simp only [hj, decide_True, Bool.and_true]
    rw [if_pos (by omega)]
    congr 1
    omega
  · simp [hj]

/-- The bytes of `swap_bytes_u32 x`. -/
theorem swap32_bytes (x : Nat) (hx : x < 2 ^ 32) (i : Nat) (hi : i < 4) :
    byte_of (swap_bytes_u32 x) i = byte_of x (3 - i) := by
  apply Nat.eq_of_testBit_eq
  intro j
  rw [byte_of_testBit, byte_of_testBit, swap32_testBit x hx]
  by_cases hj : j < 8
  · simp only [hj, decide_True, Bool.and_true]
    have hcases : i = 0 ∨ i = 1 ∨ i = 2 ∨ i = 3 := by omega
    rcases hcases with h | h | h | h <;> subst h
    · rw [if_pos (by omega)]
      congr 1
      omega
    · rw [if_neg (by omega), if_pos (by omega)]
      congr 1
      omega
    · rw [if_neg (by omega), if_neg (by omega), if_pos (by omega)]
      congr 1
      omega
    · rw [if_neg (by omega), if_neg (by omega), if_neg (by omega), if_pos (by omega)]
      congr 1
      omega
  · simp [hj]

/-- C33: `swap_bytes_u16` and `swap_bytes_u32` are involutions that reverse the byte order: for
every 16-bit `x`, swapping twice gives `x` back, the high byte of the result is the low byte of
`x` and the low byte of the result is the high byte of `x`; for every 32-bit `y`, swapping
twice gives `y` back and byte `i` of the result is byte `3 - i` of `y`. -/
theorem C33_byte_swap_involutions (x y : Nat) (hx : x < 2 ^ 16) (hy : y < 2 ^ 32) :
    swap_bytes_u16 (swap_bytes_u16 x) = x ∧
    byte_of (swap_bytes_u16 x) 1 = byte_of x 0 ∧
    byte_of (swap_bytes_u16 x) 0 = byte_of x 1 ∧
    swap_bytes_u32 (swap_bytes_u32 y) = y ∧
    (∀ i, i < 4 → byte_of (swap_bytes_u32 y) i = byte_of y (3 - i)) :=
  ⟨swap16_involutive x hx, (swap16_bytes x hx).1, (swap16_bytes x hx).2,
    swap32_involutive y hy, swap32_bytes y hy⟩

/-- C33 on `0x1234` and `0x12345678`: the swaps are `0x3412` and `0x78563412`, and swapping
again gives the inputs back. -/
theorem C33_byte_swap_involutions_witness :
    swap_bytes_u16 0x1234 = 0x3412 ∧ swap_bytes_u32 0x12345678 = 0x78563412 ∧
    swap_bytes_u16 (swap_bytes_u16 0x1234) = 0x1234 ∧
    swap_bytes_u32 (swap_bytes_u32 0x12345678) = 0x12345678 :=
  ⟨by decide, by decide,
    (C33_byte_swap_involutions 0x1234 0x12345678 (by decide) (by decide)).1,
    (C33_byte_swap_involutions 0x1234 0x12345678 (by decide) (by decide)).2.2.2.1⟩

/-! ## C6, C9: the HP fields outside the range kept by the defeat / flee checks -/

end Picowalker
